import Mathlib

/-!
Verification development for the fmapi codec (fmapi.c / fmapi.h):
a binary serializer/deserializer for the CXL 2.0 Fabric Management API.

Modelling conventions (shallow embedding of the C source):
* A byte buffer (`__u8 *`) is `Buf := Nat → Nat`; a store `dst[i] = v`
  is `wr b i v`, which keeps `v % 256` (the C conversion to `__u8`);
  a load `src[i]` is `rd b i = b i % 256` (a `__u8` read is always < 256).
* Machine-integer arithmetic is translated to `Nat` arithmetic with
  explicit `% 2^w` at the points where the C converts or truncates:
  `x & 0xFF` is `x % 256`, `x >> 8` is `x / 256`, `x << 8` is `x * 256`,
  and bitwise `|` of operands occupying disjoint bit ranges is `+`.
* C structs become Lean structures with `Nat` fields; a fixed-capacity
  C array together with its logical element count becomes a `List`
  (plus the explicit count field where the C stores one).  Reads of
  `list[i]` use `List.getD`; the claims only ever exercise objects whose
  count matches the list length (the C otherwise reads stack garbage).
* Null pointers become `Option`; a dereference of a null pointer (a
  crash / undefined behaviour in the C) makes the modelled function
  return `none`, while a defined return of value `r` becomes `some r`.
* `fmapi_serialize`'s recursive calls always go to a strictly smaller
  fixed object kind, so each `case` of the C `switch` is modelled as its
  own function (`ser<Kind>At` / `des<Kind>At`), and the dispatching
  wrappers `fmapi_serialize` / `fmapi_deserialize` tie them together.
-/

namespace Fmapi

/-! ## Byte buffer model -/

/-- A byte buffer: the contents of memory reachable from a `__u8 *`. -/
abbrev Buf := Nat → Nat

/-- Store one byte: `dst[i] = v` (the C converts `v` to `__u8`). -/
def wr (b : Buf) (i v : Nat) : Buf := fun j => if j = i then v % 256 else b j

/-- Load one byte: `src[i]` (a `__u8` value, always < 256). -/
def rd (b : Buf) (i : Nat) : Nat := b i % 256

/-- Copy `n` bytes of a list into the buffer at `off`:
`memcpy(&dst[off], xs, n)`.  Out-of-range reads of the C array give
`getD`'s default. -/
def copyN (b : Buf) (off : Nat) (xs : List Nat) : Nat → Buf
  | 0 => b
  | n + 1 => wr (copyN b off xs n) (off + n) (xs.getD n 0)

/-- Read `n` bytes starting at `off`: the source side of a `memcpy`. -/
def readBytes (b : Buf) (off n : Nat) : List Nat :=
  (List.range n).map (fun i => rd b (off + i))

/-! ## Protocol constants (fmapi.h) -/

def FM_MAX_PORTS : Nat := 256
def FM_MAX_VCS : Nat := 256
def FM_MAX_VPPBS : Nat := FM_MAX_PORTS
def FM_MAX_VCS_PER_RSP : Nat := 7
def FM_MAX_NUM_LD : Nat := 16
def FM_TLP_HEADER : Nat := 32
def FM_LD_MEM_REQ_LEN : Nat := 4096

def FMLN_HDR : Nat := 12
def FMLN_MSG : Nat := 8192
def FMLN_PAYLOAD : Nat := FMLN_MSG - FMLN_HDR
def FMLN_PSC_IDENTIFY_SWITCH : Nat := 93
def FMLN_PSC_GET_PHY_PORT_REQ : Nat := 1
def FMLN_PSC_GET_PHY_PORT_INFO : Nat := 16
def FMLN_PSC_GET_PHY_PORT_RESP : Nat := 4
def FMLN_PSC_PHY_PORT_CTRL : Nat := 2
def FMLN_PSC_PPB_IO_CFG_REQ : Nat := 8
def FMLN_PSC_PPB_IO_CFG_RESP : Nat := 4
def FMLN_VSC_GET_INFO_REQ : Nat := 3
def FMLN_VSC_PPB_STATUS : Nat := 4
def FMLN_VSC_INFO : Nat := 4
def FMLN_VSC_GET_INFO_RESP : Nat := 4
def FMLN_VSC_BIND : Nat := 6
def FMLN_VSC_UNBIND : Nat := 3
def FMLN_VSC_GEN_AER : Nat := 40
def FMLN_MPC_TUNNEL_CMD_REQ : Nat := 5
def FMLN_MPC_TUNNEL_CMD_RESP : Nat := 5
def FMLN_MPC_TUNNEL_PAYLOAD : Nat := FMLN_PAYLOAD - FMLN_MPC_TUNNEL_CMD_REQ
def FMLN_MPC_LD_IO_CFG_REQ : Nat := 12
def FMLN_MPC_LD_IO_CFG_RESP : Nat := 4
def FMLN_MPC_LD_MEM_REQ : Nat := 16
def FMLN_MPC_LD_MEM_RESP : Nat := 4
def FMLN_MCC_GET_LD_INFO : Nat := 11
def FMLN_MCC_LD_ALLOC_ENTRY : Nat := 16
def FMLN_MCC_GET_LD_ALLOC_REQ : Nat := 2
def FMLN_MCC_GET_LD_ALLOC_RSP : Nat := 4
def FMLN_MCC_SET_LD_ALLOC_REQ : Nat := 4
def FMLN_MCC_SET_LD_ALLOC_RSP : Nat := 4
def FMLN_MCC_QOS_CTRL : Nat := 7
def FMLN_MCC_QOS_STATUS : Nat := 1
def FMLN_MCC_GET_QOS_BW_REQ : Nat := 2
def FMLN_MCC_QOS_BW_ALLOC : Nat := 2
def FMLN_MCC_GET_QOS_BW_LIMIT_REQ : Nat := 2
def FMLN_MCC_QOS_BW_LIMIT : Nat := 2
def FMLN_ISC_ID_RSP : Nat := 17
def FMLN_ISC_MSG_LIMIT : Nat := 1
def FMLN_ISC_BOS : Nat := 8

/-- Object kinds: `enum _FMOB`. -/
def FMOB_NULL : Nat := 0
def FMOB_HDR : Nat := 1
def FMOB_PSC_ID_RSP : Nat := 2
def FMOB_PSC_PORT_REQ : Nat := 3
def FMOB_PSC_PORT_INFO : Nat := 4
def FMOB_PSC_PORT_RSP : Nat := 5
def FMOB_PSC_PORT_CTRL_REQ : Nat := 6
def FMOB_PSC_CFG_REQ : Nat := 7
def FMOB_PSC_CFG_RSP : Nat := 8
def FMOB_VSC_INFO_REQ : Nat := 9
def FMOB_VSC_PPB_STAT_BLK : Nat := 10
def FMOB_VSC_INFO_BLK : Nat := 11
def FMOB_VSC_INFO_RSP : Nat := 12
def FMOB_VSC_BIND_REQ : Nat := 13
def FMOB_VSC_UNBIND_REQ : Nat := 14
def FMOB_VSC_AER_REQ : Nat := 15
def FMOB_MPC_TMC_REQ : Nat := 16
def FMOB_MPC_TMC_RSP : Nat := 17
def FMOB_MPC_CFG_REQ : Nat := 18
def FMOB_MPC_CFG_RSP : Nat := 19
def FMOB_MPC_MEM_REQ : Nat := 20
def FMOB_MPC_MEM_RSP : Nat := 21
def FMOB_MCC_INFO_RSP : Nat := 22
def FMOB_MCC_ALLOC_BLK : Nat := 23
def FMOB_MCC_ALLOC_GET_REQ : Nat := 24
def FMOB_MCC_ALLOC_GET_RSP : Nat := 25
def FMOB_MCC_ALLOC_SET_REQ : Nat := 26
def FMOB_MCC_ALLOC_SET_RSP : Nat := 27
def FMOB_MCC_QOS_CTRL : Nat := 28
def FMOB_MCC_QOS_STAT_RSP : Nat := 29
def FMOB_MCC_QOS_BW_GET_REQ : Nat := 30
def FMOB_MCC_QOS_BW_ALLOC : Nat := 31
def FMOB_MCC_QOS_BW_LIMIT_GET_REQ : Nat := 32
def FMOB_MCC_QOS_BW_LIMIT : Nat := 33
def FMOB_ISC_ID_RSP : Nat := 34
def FMOB_ISC_MSG_LIMIT : Nat := 35
def FMOB_ISC_BOS : Nat := 36
def FMOB_MAX : Nat := 37

/-- Opcodes: `enum _FMOP`. -/
def FMOP_PSC_ID : Nat := 0x5100
def FMOP_PSC_PORT : Nat := 0x5101
def FMOP_PSC_PORT_CTRL : Nat := 0x5102
def FMOP_PSC_CFG : Nat := 0x5103
def FMOP_VSC_INFO : Nat := 0x5200
def FMOP_VSC_BIND : Nat := 0x5201
def FMOP_VSC_UNBIND : Nat := 0x5202
def FMOP_VSC_AER : Nat := 0x5203
def FMOP_MPC_TMC : Nat := 0x5300
def FMOP_MPC_CFG : Nat := 0x5301
def FMOP_MPC_MEM : Nat := 0x5302
def FMOP_MCC_INFO : Nat := 0x5400
def FMOP_MCC_ALLOC_GET : Nat := 0x5401
def FMOP_MCC_ALLOC_SET : Nat := 0x5402
def FMOP_MCC_QOS_CTRL_GET : Nat := 0x5403
def FMOP_MCC_QOS_CTRL_SET : Nat := 0x5404
def FMOP_MCC_QOS_STAT : Nat := 0x5405
def FMOP_MCC_QOS_BW_ALLOC_GET : Nat := 0x5406
def FMOP_MCC_QOS_BW_ALLOC_SET : Nat := 0x5407
def FMOP_MCC_QOS_BW_LIMIT_GET : Nat := 0x5408
def FMOP_MCC_QOS_BW_LIMIT_SET : Nat := 0x5409
def FMOP_ISC_ID : Nat := 0x0001
def FMOP_ISC_BOS : Nat := 0x0002
def FMOP_ISC_MSG_LIMIT_GET : Nat := 0x0003
def FMOP_ISC_MSG_LIMIT_SET : Nat := 0x0004

/-- Link state flag bit positions: `enum _FMLF`. -/
def FMLF_LANE_REVERSAL_BIT : Nat := 0
def FMLF_PERST_STATE_BIT : Nat := 1
def FMLF_PRSNT_STATE_BIT : Nat := 2
def FMLF_PWRCTL_STATE_BIT : Nat := 3

/-- QoS telemetry bit positions: `enum _FMQT`. -/
def FMQT_EGRESS_PORT_CONGESTION_BIT : Nat := 0
def FMQT_TEMP_THROUGHPUT_REDUCTION_BIT : Nat := 1

/-- Header message categories: `enum _FMMT`. -/
def FMMT_REQ : Nat := 0
def FMMT_RESP : Nat := 1

/-! ## Object structures (fmapi.h structs) -/

/-- `struct fmapi_hdr` (bitfields: category 4 bits, background 1 bit,
len 21 bits). -/
structure fmapi_hdr where
  category : Nat
  tag : Nat
  opcode : Nat
  background : Nat
  len : Nat
  return_code : Nat
  ext_status : Nat
  deriving Repr, DecidableEq, Inhabited

/-! ## Header codec (`case FMOB_HDR` of fmapi_serialize / fmapi_deserialize) -/

/-- Serialize a header at offset `off`
(`case FMOB_HDR` of `fmapi_serialize`; `dst[2]` is never written).
Returns the updated buffer and the byte count `rv`. -/
def serHdrAt (b : Buf) (off : Nat) (o : fmapi_hdr) : Buf × Nat :=
  -- dst[0] = (o->category << 4) & 0xF0
  let b := wr b (off + 0) (o.category * 16 / 16 % 16 * 16)
  let b := wr b (off + 1) o.tag
  let b := wr b (off + 3) (o.opcode % 256)
  let b := wr b (off + 4) (o.opcode / 256 % 256)
  let b := wr b (off + 5) (o.len % 256)
  let b := wr b (off + 6) (o.len / 256 % 256)
  -- dst[7] = ((o->len >> 13) & 0xF8) | (o->background & 0x01)
  let b := wr b (off + 7) ((o.len / 8192 / 8 % 32) * 8 + o.background % 2)
  let b := wr b (off + 8) (o.return_code % 256)
  let b := wr b (off + 9) (o.return_code / 256 % 256)
  let b := wr b (off + 10) (o.ext_status % 256)
  let b := wr b (off + 11) (o.ext_status / 256 % 256)
  (b, FMLN_HDR)

/-- Deserialize a header at offset `off`
(`case FMOB_HDR` of `fmapi_deserialize`). -/
def desHdrAt (b : Buf) (off : Nat) : fmapi_hdr × Nat :=
  ({ category := rd b (off + 0) / 16 % 16
     tag := rd b (off + 1)
     opcode := rd b (off + 4) * 256 + rd b (off + 3)
     -- o->len = ((src[7] & 0x00F8) << 13) | (src[6] << 8) | src[5]
     len := (rd b (off + 7) / 8 % 32) * 8 * 8192 + rd b (off + 6) * 256 + rd b (off + 5)
     background := rd b (off + 7) % 2
     return_code := rd b (off + 9) * 256 + rd b (off + 8)
     ext_status := rd b (off + 11) * 256 + rd b (off + 10) }, FMLN_HDR)

/-- Well-formed header: every field within its declared wire width. -/
def hdrWf (o : fmapi_hdr) : Prop :=
  o.category < 16 ∧ o.tag < 256 ∧ o.opcode < 65536 ∧ o.background < 2 ∧
  o.len < 2097152 ∧ o.return_code < 65536 ∧ o.ext_status < 65536

instance (o : fmapi_hdr) : Decidable (hdrWf o) := by
  unfold hdrWf; infer_instance

/-! Buffer helper lemmas -/

theorem rd_wr_self (b : Buf) (i v : Nat) : rd (wr b i v) i = v % 256 := by
  simp [rd, wr]

theorem rd_wr_other (b : Buf) (i j v : Nat) (h : j ≠ i) :
    rd (wr b i v) j = rd b j := by
  simp [rd, wr, h]

theorem serHdr_roundtrip (b : Buf) (off : Nat) (o : fmapi_hdr) (h : hdrWf o) :
    desHdrAt (serHdrAt b off o).1 off = (o, FMLN_HDR) := by
  obtain ⟨cat, tag, opc, bg, len, rc, ext⟩ := o
  obtain ⟨h1, h2, h3, h4, h5, h6, h7⟩ := h
  dsimp only at h1 h2 h3 h4 h5 h6 h7
  simp only [desHdrAt, serHdrAt, FMLN_HDR, rd, wr]
  norm_num [Prod.ext_iff, fmapi_hdr.mk.injEq]
  omega

/-! ## Remaining object structures (fmapi.h) -/

/-- `struct fmapi_isc_id_rsp`. -/
structure fmapi_isc_id_rsp where
  vid : Nat
  did : Nat
  svid : Nat
  ssid : Nat
  sn : Nat
  size : Nat
  deriving Repr, DecidableEq, Inhabited

/-- `struct fmapi_isc_msg_limit`. -/
structure fmapi_isc_msg_limit where
  limit : Nat
  deriving Repr, DecidableEq, Inhabited

/-- `struct fmapi_isc_bos`. -/
structure fmapi_isc_bos where
  running : Nat
  pcnt : Nat
  opcode : Nat
  rc : Nat
  ext : Nat
  deriving Repr, DecidableEq, Inhabited

/-- `struct fmapi_psc_id_rsp` (the two bitmask arrays are 32 bytes each). -/
structure fmapi_psc_id_rsp where
  ingress_port : Nat
  num_ports : Nat
  num_vcss : Nat
  active_ports : List Nat
  active_vcss : List Nat
  num_vppbs : Nat
  active_vppbs : Nat
  num_decoders : Nat
  deriving Repr, DecidableEq, Inhabited

/-- `struct fmapi_psc_port_req` (`ports[FM_MAX_PORTS]`, count `num`). -/
structure fmapi_psc_port_req where
  num : Nat
  ports : List Nat
  deriving Repr, DecidableEq, Inhabited

/-- `struct fmapi_psc_port_info`. -/
structure fmapi_psc_port_info where
  ppid : Nat
  state : Nat
  dv : Nat
  dt : Nat
  cv : Nat
  mlw : Nat
  nlw : Nat
  speeds : Nat
  mls : Nat
  cls : Nat
  ltssm : Nat
  lane : Nat
  lane_rev : Nat
  perst : Nat
  prsnt : Nat
  pwrctrl : Nat
  num_ld : Nat
  deriving Repr, DecidableEq, Inhabited

/-- `struct fmapi_psc_port_rsp`. -/
structure fmapi_psc_port_rsp where
  num : Nat
  list : List fmapi_psc_port_info
  deriving Repr, DecidableEq, Inhabited

/-- `struct fmapi_psc_port_ctrl_req`. -/
structure fmapi_psc_port_ctrl_req where
  ppid : Nat
  opcode : Nat
  deriving Repr, DecidableEq, Inhabited

/-- `struct fmapi_psc_cfg_req` (bitfields: reg 8, ext 4, fdbe 4, type 1). -/
structure fmapi_psc_cfg_req where
  ppid : Nat
  reg : Nat
  ext : Nat
  fdbe : Nat
  type : Nat
  data : List Nat
  deriving Repr, DecidableEq, Inhabited

/-- `struct fmapi_psc_cfg_rsp`. -/
structure fmapi_psc_cfg_rsp where
  data : List Nat
  deriving Repr, DecidableEq, Inhabited

/-- `struct fmapi_vsc_info_req` (`vcss[FM_MAX_VCS]`, count `num`). -/
structure fmapi_vsc_info_req where
  vppbid_start : Nat
  vppbid_limit : Nat
  num : Nat
  vcss : List Nat
  deriving Repr, DecidableEq, Inhabited

/-- `struct fmapi_vsc_ppb_stat_blk`. -/
structure fmapi_vsc_ppb_stat_blk where
  status : Nat
  ppid : Nat
  ldid : Nat
  deriving Repr, DecidableEq, Inhabited

/-- `struct fmapi_vsc_info_blk` (`list[FM_MAX_VPPBS]`, count `num`). -/
structure fmapi_vsc_info_blk where
  vcsid : Nat
  state : Nat
  uspid : Nat
  total : Nat
  num : Nat
  list : List fmapi_vsc_ppb_stat_blk
  deriving Repr, DecidableEq, Inhabited

/-- `struct fmapi_vsc_info_rsp` (`list[FM_MAX_VCS_PER_RSP]`, count `num`). -/
structure fmapi_vsc_info_rsp where
  num : Nat
  list : List fmapi_vsc_info_blk
  deriving Repr, DecidableEq, Inhabited

/-- `struct fmapi_vsc_bind_req`. -/
structure fmapi_vsc_bind_req where
  vcsid : Nat
  vppbid : Nat
  ppid : Nat
  ldid : Nat
  deriving Repr, DecidableEq, Inhabited

/-- `struct fmapi_vsc_unbind_req` (bitfield: option 4 bits). -/
structure fmapi_vsc_unbind_req where
  vcsid : Nat
  vppbid : Nat
  option : Nat
  deriving Repr, DecidableEq, Inhabited

/-- `struct fmapi_vsc_aer_req` (`header[FM_TLP_HEADER]`, 32 bytes). -/
structure fmapi_vsc_aer_req where
  vcsid : Nat
  vppbid : Nat
  error_type : Nat
  header : List Nat
  deriving Repr, DecidableEq, Inhabited

/-- `struct fmapi_mpc_tmc_req` (`msg[FMLN_MPC_TUNNEL_PAYLOAD]`, count `len`). -/
structure fmapi_mpc_tmc_req where
  ppid : Nat
  len : Nat
  type : Nat
  msg : List Nat
  deriving Repr, DecidableEq, Inhabited

/-- `struct fmapi_mpc_tmc_rsp` (`msg[FMLN_MPC_TUNNEL_PAYLOAD]`, count `len`). -/
structure fmapi_mpc_tmc_rsp where
  type : Nat
  len : Nat
  msg : List Nat
  deriving Repr, DecidableEq, Inhabited

/-- `struct fmapi_mpc_cfg_req` (bitfields: ext 4, fdbe 4, type 1). -/
structure fmapi_mpc_cfg_req where
  ppid : Nat
  reg : Nat
  ext : Nat
  fdbe : Nat
  type : Nat
  ldid : Nat
  data : List Nat
  deriving Repr, DecidableEq, Inhabited

/-- `struct fmapi_mpc_cfg_rsp`. -/
structure fmapi_mpc_cfg_rsp where
  data : List Nat
  deriving Repr, DecidableEq, Inhabited

/-- `struct fmapi_mpc_mem_req` (bitfields: fdbe 4, ldbe 4, type 1;
`data[FM_LD_MEM_REQ_LEN]`, count `len`). -/
structure fmapi_mpc_mem_req where
  ppid : Nat
  fdbe : Nat
  ldbe : Nat
  type : Nat
  ldid : Nat
  len : Nat
  offset : Nat
  data : List Nat
  deriving Repr, DecidableEq, Inhabited

/-- `struct fmapi_mpc_mem_rsp` (`data[FM_LD_MEM_REQ_LEN]`, count `len`). -/
structure fmapi_mpc_mem_rsp where
  len : Nat
  data : List Nat
  deriving Repr, DecidableEq, Inhabited

/-- `struct fmapi_mcc_info_rsp`. -/
structure fmapi_mcc_info_rsp where
  size : Nat
  num : Nat
  epc : Nat
  ttr : Nat
  deriving Repr, DecidableEq, Inhabited

/-- `struct fmapi_mcc_alloc_blk`. -/
structure fmapi_mcc_alloc_blk where
  rng1 : Nat
  rng2 : Nat
  deriving Repr, DecidableEq, Inhabited

/-- `struct fmapi_mcc_alloc_get_req`. -/
structure fmapi_mcc_alloc_get_req where
  start : Nat
  limit : Nat
  deriving Repr, DecidableEq, Inhabited

/-- `struct fmapi_mcc_alloc_get_rsp` (`list[FM_MAX_NUM_LD]`, count `num`). -/
structure fmapi_mcc_alloc_get_rsp where
  total : Nat
  granularity : Nat
  start : Nat
  num : Nat
  list : List fmapi_mcc_alloc_blk
  deriving Repr, DecidableEq, Inhabited

/-- `struct fmapi_mcc_alloc_set_req` (`list[FM_MAX_NUM_LD]`, count `num`). -/
structure fmapi_mcc_alloc_set_req where
  num : Nat
  start : Nat
  list : List fmapi_mcc_alloc_blk
  deriving Repr, DecidableEq, Inhabited

/-- `struct fmapi_mcc_alloc_set_rsp` (`list[FM_MAX_NUM_LD]`, count `num`). -/
structure fmapi_mcc_alloc_set_rsp where
  num : Nat
  start : Nat
  list : List fmapi_mcc_alloc_blk
  deriving Repr, DecidableEq, Inhabited

/-- `struct fmapi_mcc_qos_ctrl`. -/
structure fmapi_mcc_qos_ctrl where
  epc_en : Nat
  ttr_en : Nat
  egress_mod_pcnt : Nat
  egress_sev_pcnt : Nat
  sample_interval : Nat
  rcb : Nat
  comp_interval : Nat
  deriving Repr, DecidableEq, Inhabited

/-- `struct fmapi_mcc_qos_stat_rsp`. -/
structure fmapi_mcc_qos_stat_rsp where
  bp_avg_pcnt : Nat
  deriving Repr, DecidableEq, Inhabited

/-- `struct fmapi_mcc_qos_bw_alloc_get_req`. -/
structure fmapi_mcc_qos_bw_alloc_get_req where
  num : Nat
  start : Nat
  deriving Repr, DecidableEq, Inhabited

/-- `struct fmapi_mcc_qos_bw_alloc` (`list[FM_MAX_NUM_LD]`, count `num`). -/
structure fmapi_mcc_qos_bw_alloc where
  num : Nat
  start : Nat
  list : List Nat
  deriving Repr, DecidableEq, Inhabited

/-- `struct fmapi_mcc_qos_bw_limit_get_req`. -/
structure fmapi_mcc_qos_bw_limit_get_req where
  num : Nat
  start : Nat
  deriving Repr, DecidableEq, Inhabited

/-- `struct fmapi_mcc_qos_bw_limit` (`list[FM_MAX_NUM_LD]`, count `num`). -/
structure fmapi_mcc_qos_bw_limit where
  num : Nat
  start : Nat
  list : List Nat
  deriving Repr, DecidableEq, Inhabited

/-! ## Generic list serialization helpers

The C encodes an entry list with `for (i = 0; i < o->num; i++)
rv += fmapi_serialize(&dst[rv], &o->list[i], KIND);` and decodes with the
matching loop over `fmapi_deserialize`.  `takeEntries xs n` is the sequence
of C array reads `o->list[0] .. o->list[n-1]`. -/

/-- The `n` C array reads `xs[0] .. xs[n-1]` (out of range gives `default`,
the C's stack garbage). -/
def takeEntries [Inhabited α] (xs : List α) (n : Nat) : List α :=
  (List.range n).map (fun i => xs.getD i default)

/-- Serialize the entries in sequence, accumulating offsets and `rv`. -/
def serListAt (serE : Buf → Nat → α → Buf × Nat) : Buf → Nat → List α → Buf × Nat
  | b, _, [] => (b, 0)
  | b, off, e :: es =>
    let p := serE b off e
    let q := serListAt serE p.1 (off + p.2) es
    (q.1, p.2 + q.2)

/-- Decode `n` entries in sequence, accumulating offsets and `rv`. -/
def desListAt (desE : Buf → Nat → α × Nat) : Buf → Nat → Nat → List α × Nat
  | _, _, 0 => ([], 0)
  | b, off, n + 1 =>
    let p := desE b off
    let q := desListAt desE b (off + p.2) n
    (p.1 :: q.1, p.2 + q.2)

/-- Decode `n` entries in sequence where each entry decode also sees the
pre-existing entry (`&o->list[i]` is an in/out pointer in the C). -/
def desListPreAt [Inhabited α] (desE : α → Buf → Nat → α × Nat) :
    List α → Buf → Nat → Nat → List α × Nat
  | _, _, _, 0 => ([], 0)
  | pre, b, off, n + 1 =>
    let p := desE (pre.headD default) b off
    let q := desListPreAt desE pre.tail b (off + p.2) n
    (p.1 :: q.1, p.2 + q.2)

/-! ## Per-kind codecs (the `case` arms of fmapi_serialize / fmapi_deserialize) -/

/-- `case FMOB_ISC_BOS` of `fmapi_serialize`
(`dst[0] = (o->pcnt << 1) | (o->running & 0x01)`). -/
def serIscBosAt (b : Buf) (off : Nat) (o : fmapi_isc_bos) : Buf × Nat :=
  let b := wr b (off + 0) (o.pcnt * 2 + o.running % 2)
  let b := wr b (off + 1) 0
  let b := wr b (off + 2) (o.opcode % 256)
  let b := wr b (off + 3) (o.opcode / 256 % 256)
  let b := wr b (off + 4) (o.rc % 256)
  let b := wr b (off + 5) (o.rc / 256 % 256)
  let b := wr b (off + 6) (o.ext % 256)
  let b := wr b (off + 7) (o.ext / 256 % 256)
  (b, FMLN_ISC_BOS)

/-- `case FMOB_ISC_BOS` of `fmapi_deserialize`. -/
def desIscBosAt (b : Buf) (off : Nat) : fmapi_isc_bos × Nat :=
  ({ running := rd b (off + 0) % 2
     pcnt := rd b (off + 0) / 2 % 128
     opcode := rd b (off + 3) * 256 + rd b (off + 2)
     rc := rd b (off + 5) * 256 + rd b (off + 4)
     ext := rd b (off + 7) * 256 + rd b (off + 6) }, FMLN_ISC_BOS)

/-- `case FMOB_ISC_ID_RSP` of `fmapi_serialize`. -/
def serIscIdRspAt (b : Buf) (off : Nat) (o : fmapi_isc_id_rsp) : Buf × Nat :=
  let b := wr b (off + 0) (o.vid % 256)
  let b := wr b (off + 1) (o.vid / 256 % 256)
  let b := wr b (off + 2) (o.did % 256)
  let b := wr b (off + 3) (o.did / 256 % 256)
  let b := wr b (off + 4) (o.svid % 256)
  let b := wr b (off + 5) (o.svid / 256 % 256)
  let b := wr b (off + 6) (o.ssid % 256)
  let b := wr b (off + 7) (o.ssid / 256 % 256)
  let b := wr b (off + 8) (o.sn % 256)
  let b := wr b (off + 9) (o.sn / 256 % 256)
  let b := wr b (off + 10) (o.sn / 65536 % 256)
  let b := wr b (off + 11) (o.sn / 16777216 % 256)
  let b := wr b (off + 12) (o.sn / 4294967296 % 256)
  let b := wr b (off + 13) (o.sn / 1099511627776 % 256)
  let b := wr b (off + 14) (o.sn / 281474976710656 % 256)
  let b := wr b (off + 15) (o.sn / 72057594037927936 % 256)
  let b := wr b (off + 16) o.size
  (b, FMLN_ISC_ID_RSP)

/-- `case FMOB_ISC_ID_RSP` of `fmapi_deserialize`. -/
def desIscIdRspAt (b : Buf) (off : Nat) : fmapi_isc_id_rsp × Nat :=
  ({ vid := rd b (off + 1) * 256 + rd b (off + 0)
     did := rd b (off + 3) * 256 + rd b (off + 2)
     svid := rd b (off + 5) * 256 + rd b (off + 4)
     ssid := rd b (off + 7) * 256 + rd b (off + 6)
     sn := rd b (off + 15) * 72057594037927936 + rd b (off + 14) * 281474976710656 +
           rd b (off + 13) * 1099511627776 + rd b (off + 12) * 4294967296 +
           rd b (off + 11) * 16777216 + rd b (off + 10) * 65536 +
           rd b (off + 9) * 256 + rd b (off + 8)
     size := rd b (off + 16) }, FMLN_ISC_ID_RSP)

/-- `case FMOB_ISC_MSG_LIMIT` of `fmapi_serialize`. -/
def serIscMsgLimitAt (b : Buf) (off : Nat) (o : fmapi_isc_msg_limit) : Buf × Nat :=
  (wr b (off + 0) o.limit, FMLN_ISC_MSG_LIMIT)

/-- `case FMOB_ISC_MSG_LIMIT` of `fmapi_deserialize`. -/
def desIscMsgLimitAt (b : Buf) (off : Nat) : fmapi_isc_msg_limit × Nat :=
  ({ limit := rd b (off + 0) }, FMLN_ISC_MSG_LIMIT)

/-- `case FMOB_PSC_ID_RSP` of `fmapi_serialize` (`dst[1] = 0` is the
reserved byte; the returned length 93 exceeds the last written offset 72). -/
def serPscIdRspAt (b : Buf) (off : Nat) (o : fmapi_psc_id_rsp) : Buf × Nat :=
  let b := wr b (off + 0) o.ingress_port
  let b := wr b (off + 1) 0
  let b := wr b (off + 2) o.num_ports
  let b := wr b (off + 3) o.num_vcss
  let b := copyN b (off + 4) o.active_ports 32
  let b := copyN b (off + 36) o.active_vcss 32
  let b := wr b (off + 68) (o.num_vppbs % 256)
  let b := wr b (off + 69) (o.num_vppbs / 256 % 256)
  let b := wr b (off + 70) (o.active_vppbs % 256)
  let b := wr b (off + 71) (o.active_vppbs / 256 % 256)
  let b := wr b (off + 72) o.num_decoders
  (b, FMLN_PSC_IDENTIFY_SWITCH)

/-- `case FMOB_PSC_ID_RSP` of `fmapi_deserialize`. -/
def desPscIdRspAt (b : Buf) (off : Nat) : fmapi_psc_id_rsp × Nat :=
  ({ ingress_port := rd b (off + 0)
     num_ports := rd b (off + 2)
     num_vcss := rd b (off + 3)
     active_ports := readBytes b (off + 4) 32
     active_vcss := readBytes b (off + 36) 32
     num_vppbs := rd b (off + 69) * 256 + rd b (off + 68)
     active_vppbs := rd b (off + 71) * 256 + rd b (off + 70)
     num_decoders := rd b (off + 72) }, FMLN_PSC_IDENTIFY_SWITCH)

/-- `case FMOB_PSC_PORT_REQ` of `fmapi_serialize`. -/
def serPscPortReqAt (b : Buf) (off : Nat) (o : fmapi_psc_port_req) : Buf × Nat :=
  let b := wr b (off + 0) o.num
  let b := copyN b (off + 1) o.ports o.num
  (b, FMLN_PSC_GET_PHY_PORT_REQ + o.num)

/-- `case FMOB_PSC_PORT_REQ` of `fmapi_deserialize`. -/
def desPscPortReqAt (b : Buf) (off : Nat) : fmapi_psc_port_req × Nat :=
  let num := rd b (off + 0)
  ({ num := num, ports := readBytes b (off + 1) num },
   FMLN_PSC_GET_PHY_PORT_REQ + num)

/-- `case FMOB_PSC_PORT_INFO` of `fmapi_serialize` (byte 3 is never
written; byte 13 packs the four link-state flag bits; `dst[14] = 0`). -/
def serPscPortInfoAt (b : Buf) (off : Nat) (o : fmapi_psc_port_info) : Buf × Nat :=
  let b := wr b (off + 0) o.ppid
  let b := wr b (off + 1) o.state
  let b := wr b (off + 2) o.dv
  let b := wr b (off + 4) o.dt
  let b := wr b (off + 5) o.cv
  let b := wr b (off + 6) o.mlw
  let b := wr b (off + 7) o.nlw
  let b := wr b (off + 8) o.speeds
  let b := wr b (off + 9) o.mls
  let b := wr b (off + 10) o.cls
  let b := wr b (off + 11) o.ltssm
  let b := wr b (off + 12) o.lane
  let b := wr b (off + 13)
    (o.lane_rev % 2 * 1 + o.perst % 2 * 2 + o.prsnt % 2 * 4 + o.pwrctrl % 2 * 8)
  let b := wr b (off + 14) 0
  let b := wr b (off + 15) o.num_ld
  (b, FMLN_PSC_GET_PHY_PORT_INFO)

/-- `case FMOB_PSC_PORT_INFO` of `fmapi_deserialize`. -/
def desPscPortInfoAt (b : Buf) (off : Nat) : fmapi_psc_port_info × Nat :=
  ({ ppid := rd b (off + 0)
     state := rd b (off + 1)
     dv := rd b (off + 2)
     dt := rd b (off + 4)
     cv := rd b (off + 5)
     mlw := rd b (off + 6)
     nlw := rd b (off + 7)
     speeds := rd b (off + 8)
     mls := rd b (off + 9)
     cls := rd b (off + 10)
     ltssm := rd b (off + 11)
     lane := rd b (off + 12)
     lane_rev := rd b (off + 13) / 1 % 2
     perst := rd b (off + 13) / 2 % 2
     prsnt := rd b (off + 13) / 4 % 2
     pwrctrl := rd b (off + 13) / 8 % 2
     num_ld := rd b (off + 15) }, FMLN_PSC_GET_PHY_PORT_INFO)

/-- `case FMOB_PSC_PORT_RSP` of `fmapi_serialize`. -/
def serPscPortRspAt (b : Buf) (off : Nat) (o : fmapi_psc_port_rsp) : Buf × Nat :=
  let b := wr b (off + 0) o.num
  let q := serListAt serPscPortInfoAt b (off + FMLN_PSC_GET_PHY_PORT_RESP)
             (takeEntries o.list o.num)
  (q.1, FMLN_PSC_GET_PHY_PORT_RESP + q.2)

/-- `case FMOB_PSC_PORT_RSP` of `fmapi_deserialize`. -/
def desPscPortRspAt (b : Buf) (off : Nat) : fmapi_psc_port_rsp × Nat :=
  let num := rd b (off + 0)
  let q := desListAt desPscPortInfoAt b (off + FMLN_PSC_GET_PHY_PORT_RESP) num
  ({ num := num, list := q.1 }, FMLN_PSC_GET_PHY_PORT_RESP + q.2)

/-- `case FMOB_PSC_PORT_CTRL_REQ` of `fmapi_serialize`. -/
def serPscPortCtrlReqAt (b : Buf) (off : Nat) (o : fmapi_psc_port_ctrl_req) : Buf × Nat :=
  let b := wr b (off + 0) o.ppid
  let b := wr b (off + 1) o.opcode
  (b, FMLN_PSC_PHY_PORT_CTRL)

/-- `case FMOB_PSC_PORT_CTRL_REQ` of `fmapi_deserialize`. -/
def desPscPortCtrlReqAt (b : Buf) (off : Nat) : fmapi_psc_port_ctrl_req × Nat :=
  ({ ppid := rd b (off + 0), opcode := rd b (off + 1) }, FMLN_PSC_PHY_PORT_CTRL)

/-- `case FMOB_PSC_CFG_REQ` of `fmapi_serialize`
(`dst[2] = ((o->fdbe << 4) & 0xF0) | (o->ext & 0x0F)`,
`dst[3] = (o->type << 7) & 0x80`). -/
def serPscCfgReqAt (b : Buf) (off : Nat) (o : fmapi_psc_cfg_req) : Buf × Nat :=
  let b := wr b (off + 0) o.ppid
  let b := wr b (off + 1) o.reg
  let b := wr b (off + 2) (o.fdbe * 16 / 16 % 16 * 16 + o.ext % 16)
  let b := wr b (off + 3) (o.type * 128 / 128 % 2 * 128)
  -- dst[4] = o->data[0]; ...; dst[7] = o->data[3]
  let b := copyN b (off + 4) o.data 4
  (b, FMLN_PSC_PPB_IO_CFG_REQ)

/-- `case FMOB_PSC_CFG_REQ` of `fmapi_deserialize`. -/
def desPscCfgReqAt (b : Buf) (off : Nat) : fmapi_psc_cfg_req × Nat :=
  ({ ppid := rd b (off + 0)
     reg := rd b (off + 1)
     ext := rd b (off + 2) % 16
     fdbe := rd b (off + 2) / 16 % 16
     type := rd b (off + 3) / 128 % 2
     -- o->data[0] = src[4]; ...; o->data[3] = src[7]
     data := readBytes b (off + 4) 4 },
   FMLN_PSC_PPB_IO_CFG_REQ)

/-- `case FMOB_PSC_CFG_RSP` of `fmapi_serialize`. -/
def serPscCfgRspAt (b : Buf) (off : Nat) (o : fmapi_psc_cfg_rsp) : Buf × Nat :=
  -- dst[0] = o->data[0]; ...; dst[3] = o->data[3]
  (copyN b (off + 0) o.data 4, FMLN_PSC_PPB_IO_CFG_RESP)

/-- `case FMOB_PSC_CFG_RSP` of `fmapi_deserialize`. -/
def desPscCfgRspAt (b : Buf) (off : Nat) : fmapi_psc_cfg_rsp × Nat :=
  ({ data := readBytes b (off + 0) 4 }, FMLN_PSC_PPB_IO_CFG_RESP)

/-- `case FMOB_VSC_INFO_REQ` of `fmapi_serialize`. -/
def serVscInfoReqAt (b : Buf) (off : Nat) (o : fmapi_vsc_info_req) : Buf × Nat :=
  let b := wr b (off + 0) o.vppbid_start
  let b := wr b (off + 1) o.vppbid_limit
  let b := wr b (off + 2) o.num
  let b := copyN b (off + 3) o.vcss o.num
  (b, FMLN_VSC_GET_INFO_REQ + o.num)

/-- `case FMOB_VSC_INFO_REQ` of `fmapi_deserialize`. -/
def desVscInfoReqAt (b : Buf) (off : Nat) : fmapi_vsc_info_req × Nat :=
  let num := rd b (off + 2)
  ({ vppbid_start := rd b (off + 0)
     vppbid_limit := rd b (off + 1)
     num := num
     vcss := readBytes b (off + 3) num }, FMLN_VSC_GET_INFO_REQ + num)

/-- `case FMOB_VSC_PPB_STAT_BLK` of `fmapi_serialize` (writes 3 bytes but
`rv = FMLN_VSC_PPB_STATUS = 4`: the wire block is 4 bytes with a pad). -/
def serVscPpbStatBlkAt (b : Buf) (off : Nat) (o : fmapi_vsc_ppb_stat_blk) : Buf × Nat :=
  let b := wr b (off + 0) o.status
  let b := wr b (off + 1) o.ppid
  let b := wr b (off + 2) o.ldid
  (b, FMLN_VSC_PPB_STATUS)

/-- `case FMOB_VSC_PPB_STAT_BLK` of `fmapi_deserialize`. -/
def desVscPpbStatBlkAt (b : Buf) (off : Nat) : fmapi_vsc_ppb_stat_blk × Nat :=
  ({ status := rd b (off + 0), ppid := rd b (off + 1), ldid := rd b (off + 2) },
   FMLN_VSC_PPB_STATUS)

/-- `case FMOB_VSC_INFO_BLK` of `fmapi_serialize` (the entry count `num`
is *not* written to the wire). -/
def serVscInfoBlkAt (b : Buf) (off : Nat) (o : fmapi_vsc_info_blk) : Buf × Nat :=
  let b := wr b (off + 0) o.vcsid
  let b := wr b (off + 1) o.state
  let b := wr b (off + 2) o.uspid
  let b := wr b (off + 3) o.total
  let q := serListAt serVscPpbStatBlkAt b (off + FMLN_VSC_INFO)
             (takeEntries o.list o.num)
  (q.1, FMLN_VSC_INFO + q.2)

/-- `case FMOB_VSC_INFO_BLK` of `fmapi_deserialize`: with a null request
context the C writes nothing and returns 0; otherwise the entry count is
`o->total - r->vppbid_start` (a `__u8` store, hence mod 256) clamped above
by `r->vppbid_limit`. -/
def desVscInfoBlkAt (pre : fmapi_vsc_info_blk) (param : Option fmapi_vsc_info_req)
    (b : Buf) (off : Nat) : fmapi_vsc_info_blk × Nat :=
  match param with
  | none => (pre, 0)
  | some r =>
    let total := rd b (off + 3)
    let num0 := ((((total : Int) - (r.vppbid_start : Int)) % 256)).toNat
    let num := if r.vppbid_limit < num0 then r.vppbid_limit else num0
    let q := desListAt desVscPpbStatBlkAt b (off + FMLN_VSC_INFO) num
    ({ vcsid := rd b (off + 0)
       state := rd b (off + 1)
       uspid := rd b (off + 2)
       total := total
       num := num
       list := q.1 }, FMLN_VSC_INFO + q.2)

/-- `case FMOB_VSC_INFO_RSP` of `fmapi_serialize` (bytes 1..3 after the
count are never written; entries start at `rv = FMLN_VSC_GET_INFO_RESP`). -/
def serVscInfoRspAt (b : Buf) (off : Nat) (o : fmapi_vsc_info_rsp) : Buf × Nat :=
  let b := wr b (off + 0) o.num
  let q := serListAt serVscInfoBlkAt b (off + FMLN_VSC_GET_INFO_RESP)
             (takeEntries o.list o.num)
  (q.1, FMLN_VSC_GET_INFO_RESP + q.2)

/-- `case FMOB_VSC_INFO_RSP` of `fmapi_deserialize`: `o->num = src[0]` is
written unconditionally; each nested block decode receives the request
context and, when that context is null, leaves the stored entry untouched
and consumes 0 bytes. -/
def desVscInfoRspAt (pre : fmapi_vsc_info_rsp) (param : Option fmapi_vsc_info_req)
    (b : Buf) (off : Nat) : fmapi_vsc_info_rsp × Nat :=
  let num := rd b (off + 0)
  let q := desListPreAt (fun e => desVscInfoBlkAt e param) pre.list b
             (off + FMLN_VSC_GET_INFO_RESP) num
  ({ num := num, list := q.1 }, FMLN_VSC_GET_INFO_RESP + q.2)

/-- `case FMOB_VSC_BIND_REQ` of `fmapi_serialize` (byte 3 is never written). -/
def serVscBindReqAt (b : Buf) (off : Nat) (o : fmapi_vsc_bind_req) : Buf × Nat :=
  let b := wr b (off + 0) o.vcsid
  let b := wr b (off + 1) o.vppbid
  let b := wr b (off + 2) o.ppid
  let b := wr b (off + 4) (o.ldid % 256)
  let b := wr b (off + 5) (o.ldid / 256 % 256)
  (b, FMLN_VSC_BIND)

/-- `case FMOB_VSC_BIND_REQ` of `fmapi_deserialize`. -/
def desVscBindReqAt (b : Buf) (off : Nat) : fmapi_vsc_bind_req × Nat :=
  ({ vcsid := rd b (off + 0)
     vppbid := rd b (off + 1)
     ppid := rd b (off + 2)
     ldid := rd b (off + 5) * 256 + rd b (off + 4) }, FMLN_VSC_BIND)

/-- `case FMOB_VSC_UNBIND_REQ` of `fmapi_serialize`. -/
def serVscUnbindReqAt (b : Buf) (off : Nat) (o : fmapi_vsc_unbind_req) : Buf × Nat :=
  let b := wr b (off + 0) o.vcsid
  let b := wr b (off + 1) o.vppbid
  let b := wr b (off + 2) o.option
  (b, FMLN_VSC_UNBIND)

/-- `case FMOB_VSC_UNBIND_REQ` of `fmapi_deserialize` (`o->option` is a
4-bit bitfield, so the byte is truncated mod 16 on store). -/
def desVscUnbindReqAt (b : Buf) (off : Nat) : fmapi_vsc_unbind_req × Nat :=
  ({ vcsid := rd b (off + 0)
     vppbid := rd b (off + 1)
     option := rd b (off + 2) % 16 }, FMLN_VSC_UNBIND)

/-- `case FMOB_VSC_AER_REQ` of `fmapi_serialize` (bytes 2 and 3 are never
written). -/
def serVscAerReqAt (b : Buf) (off : Nat) (o : fmapi_vsc_aer_req) : Buf × Nat :=
  let b := wr b (off + 0) o.vcsid
  let b := wr b (off + 1) o.vppbid
  let b := wr b (off + 4) (o.error_type % 256)
  let b := wr b (off + 5) (o.error_type / 256 % 256)
  let b := wr b (off + 6) (o.error_type / 65536 % 256)
  let b := wr b (off + 7) (o.error_type / 16777216 % 256)
  let b := copyN b (off + 8) o.header 32
  (b, FMLN_VSC_GEN_AER)

/-- `case FMOB_VSC_AER_REQ` of `fmapi_deserialize`. -/
def desVscAerReqAt (b : Buf) (off : Nat) : fmapi_vsc_aer_req × Nat :=
  ({ vcsid := rd b (off + 0)
     vppbid := rd b (off + 1)
     error_type := rd b (off + 7) * 16777216 + rd b (off + 6) * 65536 +
                   rd b (off + 5) * 256 + rd b (off + 4)
     header := readBytes b (off + 8) 32 }, FMLN_VSC_GEN_AER)

/-- `case FMOB_MPC_TMC_REQ` of `fmapi_serialize` (byte 1 is never written;
the wire length field holds `o->len + 1`). -/
def serMpcTmcReqAt (b : Buf) (off : Nat) (o : fmapi_mpc_tmc_req) : Buf × Nat :=
  let b := wr b (off + 0) o.ppid
  let b := wr b (off + 2) ((o.len + 1) % 256)
  let b := wr b (off + 3) ((o.len + 1) / 256 % 256)
  let b := wr b (off + 4) o.type
  let b := copyN b (off + FMLN_MPC_TUNNEL_CMD_REQ) o.msg o.len
  (b, FMLN_MPC_TUNNEL_CMD_REQ + o.len)

/-- `case FMOB_MPC_TMC_REQ` of `fmapi_deserialize`
(`o->len = ((src[3] << 8) | src[2]) - 1`, a `__u16` store, hence mod 2^16). -/
def desMpcTmcReqAt (b : Buf) (off : Nat) : fmapi_mpc_tmc_req × Nat :=
  let len := ((((rd b (off + 3) * 256 + rd b (off + 2) : Int) - 1) % 65536)).toNat
  ({ ppid := rd b (off + 0)
     len := len
     type := rd b (off + 4)
     msg := readBytes b (off + FMLN_MPC_TUNNEL_CMD_REQ) len },
   FMLN_MPC_TUNNEL_CMD_REQ + len)

/-- `case FMOB_MPC_TMC_RSP` of `fmapi_serialize` (bytes 2 and 3 are never
written; the wire length field at bytes 0..1 holds `o->len + 1`). -/
def serMpcTmcRspAt (b : Buf) (off : Nat) (o : fmapi_mpc_tmc_rsp) : Buf × Nat :=
  let b := wr b (off + 0) ((o.len + 1) % 256)
  let b := wr b (off + 1) ((o.len + 1) / 256 % 256)
  let b := wr b (off + 4) o.type
  let b := copyN b (off + FMLN_MPC_TUNNEL_CMD_REQ) o.msg o.len
  (b, FMLN_MPC_TUNNEL_CMD_RESP + o.len)

/-- `case FMOB_MPC_TMC_RSP` of `fmapi_deserialize`
(`o->len = ((src[1] << 8) | src[0]) - 1`, a `__u16` store). -/
def desMpcTmcRspAt (b : Buf) (off : Nat) : fmapi_mpc_tmc_rsp × Nat :=
  let len := ((((rd b (off + 1) * 256 + rd b (off + 0) : Int) - 1) % 65536)).toNat
  ({ type := rd b (off + 4)
     len := len
     msg := readBytes b (off + FMLN_MPC_TUNNEL_CMD_REQ) len },
   FMLN_MPC_TUNNEL_CMD_RESP + len)

/-- `case FMOB_MPC_CFG_REQ` of `fmapi_serialize` (bytes 6 and 7 are never
written). -/
def serMpcCfgReqAt (b : Buf) (off : Nat) (o : fmapi_mpc_cfg_req) : Buf × Nat :=
  let b := wr b (off + 0) o.ppid
  let b := wr b (off + 1) o.reg
  let b := wr b (off + 2) (o.fdbe * 16 / 16 % 16 * 16 + o.ext % 16)
  let b := wr b (off + 3) (o.type * 128 / 128 % 2 * 128)
  let b := wr b (off + 4) (o.ldid % 256)
  let b := wr b (off + 5) (o.ldid / 256 % 256)
  -- dst[8] = o->data[0]; ...; dst[11] = o->data[3]
  let b := copyN b (off + 8) o.data 4
  (b, FMLN_MPC_LD_IO_CFG_REQ)

/-- `case FMOB_MPC_CFG_REQ` of `fmapi_deserialize`. -/
def desMpcCfgReqAt (b : Buf) (off : Nat) : fmapi_mpc_cfg_req × Nat :=
  ({ ppid := rd b (off + 0)
     reg := rd b (off + 1)
     ext := rd b (off + 2) % 16
     fdbe := rd b (off + 2) / 16 % 16
     type := rd b (off + 3) / 128 % 2
     ldid := rd b (off + 5) * 256 + rd b (off + 4)
     data := readBytes b (off + 8) 4 },
   FMLN_MPC_LD_IO_CFG_REQ)

/-- `case FMOB_MPC_CFG_RSP` of `fmapi_serialize`. -/
def serMpcCfgRspAt (b : Buf) (off : Nat) (o : fmapi_mpc_cfg_rsp) : Buf × Nat :=
  (copyN b (off + 0) o.data 4, FMLN_MPC_LD_IO_CFG_RESP)

/-- `case FMOB_MPC_CFG_RSP` of `fmapi_deserialize`. -/
def desMpcCfgRspAt (b : Buf) (off : Nat) : fmapi_mpc_cfg_rsp × Nat :=
  ({ data := readBytes b (off + 0) 4 }, FMLN_MPC_LD_IO_CFG_RESP)

/-- `case FMOB_MPC_MEM_REQ` of `fmapi_serialize` (byte 1 is never written;
`dst[3] = ((o->type << 7) & 0x0080) | (o->ldbe & 0x000F)`). -/
def serMpcMemReqAt (b : Buf) (off : Nat) (o : fmapi_mpc_mem_req) : Buf × Nat :=
  let b := wr b (off + 0) o.ppid
  let b := wr b (off + 2) (o.fdbe * 16 / 16 % 16 * 16)
  let b := wr b (off + 3) (o.type * 128 / 128 % 2 * 128 + o.ldbe % 16)
  let b := wr b (off + 4) (o.ldid % 256)
  let b := wr b (off + 5) (o.ldid / 256 % 256)
  let b := wr b (off + 6) (o.len % 256)
  let b := wr b (off + 7) (o.len / 256 % 256)
  let b := wr b (off + 8) (o.offset % 256)
  let b := wr b (off + 9) (o.offset / 256 % 256)
  let b := wr b (off + 10) (o.offset / 65536 % 256)
  let b := wr b (off + 11) (o.offset / 16777216 % 256)
  let b := wr b (off + 12) (o.offset / 4294967296 % 256)
  let b := wr b (off + 13) (o.offset / 1099511627776 % 256)
  let b := wr b (off + 14) (o.offset / 281474976710656 % 256)
  let b := wr b (off + 15) (o.offset / 72057594037927936 % 256)
  let b := copyN b (off + FMLN_MPC_LD_MEM_REQ) o.data o.len
  (b, FMLN_MPC_LD_MEM_REQ + o.len)

/-- `case FMOB_MPC_MEM_REQ` of `fmapi_deserialize`. -/
def desMpcMemReqAt (b : Buf) (off : Nat) : fmapi_mpc_mem_req × Nat :=
  let len := rd b (off + 7) * 256 + rd b (off + 6)
  ({ ppid := rd b (off + 0)
     fdbe := rd b (off + 2) / 16 % 16
     ldbe := rd b (off + 3) % 16
     type := rd b (off + 3) / 128 % 2
     ldid := rd b (off + 5) * 256 + rd b (off + 4)
     len := len
     offset := rd b (off + 15) * 72057594037927936 + rd b (off + 14) * 281474976710656 +
               rd b (off + 13) * 1099511627776 + rd b (off + 12) * 4294967296 +
               rd b (off + 11) * 16777216 + rd b (off + 10) * 65536 +
               rd b (off + 9) * 256 + rd b (off + 8)
     data := readBytes b (off + FMLN_MPC_LD_MEM_REQ) len },
   FMLN_MPC_LD_MEM_REQ + len)

/-- `case FMOB_MPC_MEM_RSP` of `fmapi_serialize` (bytes 2 and 3 are never
written). -/
def serMpcMemRspAt (b : Buf) (off : Nat) (o : fmapi_mpc_mem_rsp) : Buf × Nat :=
  let b := wr b (off + 0) (o.len % 256)
  let b := wr b (off + 1) (o.len / 256 % 256)
  let b := copyN b (off + FMLN_MPC_LD_MEM_RESP) o.data o.len
  (b, FMLN_MPC_LD_MEM_RESP + o.len)

/-- `case FMOB_MPC_MEM_RSP` of `fmapi_deserialize`. -/
def desMpcMemRspAt (b : Buf) (off : Nat) : fmapi_mpc_mem_rsp × Nat :=
  let len := rd b (off + 1) * 256 + rd b (off + 0)
  ({ len := len, data := readBytes b (off + FMLN_MPC_LD_MEM_RESP) len },
   FMLN_MPC_LD_MEM_RESP + len)

/-- `case FMOB_MCC_INFO_RSP` of `fmapi_serialize`. -/
def serMccInfoRspAt (b : Buf) (off : Nat) (o : fmapi_mcc_info_rsp) : Buf × Nat :=
  let b := wr b (off + 0) (o.size % 256)
  let b := wr b (off + 1) (o.size / 256 % 256)
  let b := wr b (off + 2) (o.size / 65536 % 256)
  let b := wr b (off + 3) (o.size / 16777216 % 256)
  let b := wr b (off + 4) (o.size / 4294967296 % 256)
  let b := wr b (off + 5) (o.size / 1099511627776 % 256)
  let b := wr b (off + 6) (o.size / 281474976710656 % 256)
  let b := wr b (off + 7) (o.size / 72057594037927936 % 256)
  let b := wr b (off + 8) (o.num % 256)
  let b := wr b (off + 9) (o.num / 256 % 256)
  let b := wr b (off + 10) (o.epc % 2 * 1 + o.ttr % 2 * 2)
  (b, FMLN_MCC_GET_LD_INFO)

/-- `case FMOB_MCC_INFO_RSP` of `fmapi_deserialize`. -/
def desMccInfoRspAt (b : Buf) (off : Nat) : fmapi_mcc_info_rsp × Nat :=
  ({ size := rd b (off + 7) * 72057594037927936 + rd b (off + 6) * 281474976710656 +
             rd b (off + 5) * 1099511627776 + rd b (off + 4) * 4294967296 +
             rd b (off + 3) * 16777216 + rd b (off + 2) * 65536 +
             rd b (off + 1) * 256 + rd b (off + 0)
     num := rd b (off + 9) * 256 + rd b (off + 8)
     epc := rd b (off + 10) / 1 % 2
     ttr := rd b (off + 10) / 2 % 2 }, FMLN_MCC_GET_LD_INFO)

/-- `case FMOB_MCC_ALLOC_BLK` of `fmapi_serialize`. -/
def serMccAllocBlkAt (b : Buf) (off : Nat) (o : fmapi_mcc_alloc_blk) : Buf × Nat :=
  let b := wr b (off + 0) (o.rng1 % 256)
  let b := wr b (off + 1) (o.rng1 / 256 % 256)
  let b := wr b (off + 2) (o.rng1 / 65536 % 256)
  let b := wr b (off + 3) (o.rng1 / 16777216 % 256)
  let b := wr b (off + 4) (o.rng1 / 4294967296 % 256)
  let b := wr b (off + 5) (o.rng1 / 1099511627776 % 256)
  let b := wr b (off + 6) (o.rng1 / 281474976710656 % 256)
  let b := wr b (off + 7) (o.rng1 / 72057594037927936 % 256)
  let b := wr b (off + 8) (o.rng2 % 256)
  let b := wr b (off + 9) (o.rng2 / 256 % 256)
  let b := wr b (off + 10) (o.rng2 / 65536 % 256)
  let b := wr b (off + 11) (o.rng2 / 16777216 % 256)
  let b := wr b (off + 12) (o.rng2 / 4294967296 % 256)
  let b := wr b (off + 13) (o.rng2 / 1099511627776 % 256)
  let b := wr b (off + 14) (o.rng2 / 281474976710656 % 256)
  let b := wr b (off + 15) (o.rng2 / 72057594037927936 % 256)
  (b, FMLN_MCC_LD_ALLOC_ENTRY)

/-- `case FMOB_MCC_ALLOC_BLK` of `fmapi_deserialize`. -/
def desMccAllocBlkAt (b : Buf) (off : Nat) : fmapi_mcc_alloc_blk × Nat :=
  ({ rng1 := rd b (off + 7) * 72057594037927936 + rd b (off + 6) * 281474976710656 +
             rd b (off + 5) * 1099511627776 + rd b (off + 4) * 4294967296 +
             rd b (off + 3) * 16777216 + rd b (off + 2) * 65536 +
             rd b (off + 1) * 256 + rd b (off + 0)
     rng2 := rd b (off + 15) * 72057594037927936 + rd b (off + 14) * 281474976710656 +
             rd b (off + 13) * 1099511627776 + rd b (off + 12) * 4294967296 +
             rd b (off + 11) * 16777216 + rd b (off + 10) * 65536 +
             rd b (off + 9) * 256 + rd b (off + 8) }, FMLN_MCC_LD_ALLOC_ENTRY)

/-- `case FMOB_MCC_ALLOC_GET_REQ` of `fmapi_serialize`. -/
def serMccAllocGetReqAt (b : Buf) (off : Nat) (o : fmapi_mcc_alloc_get_req) : Buf × Nat :=
  let b := wr b (off + 0) o.start
  let b := wr b (off + 1) o.limit
  (b, FMLN_MCC_GET_LD_ALLOC_REQ)

/-- `case FMOB_MCC_ALLOC_GET_REQ` of `fmapi_deserialize`. -/
def desMccAllocGetReqAt (b : Buf) (off : Nat) : fmapi_mcc_alloc_get_req × Nat :=
  ({ start := rd b (off + 0), limit := rd b (off + 1) }, FMLN_MCC_GET_LD_ALLOC_REQ)

/-- `case FMOB_MCC_ALLOC_GET_RSP` of `fmapi_serialize`. -/
def serMccAllocGetRspAt (b : Buf) (off : Nat) (o : fmapi_mcc_alloc_get_rsp) : Buf × Nat :=
  let b := wr b (off + 0) o.total
  let b := wr b (off + 1) o.granularity
  let b := wr b (off + 2) o.start
  let b := wr b (off + 3) o.num
  let q := serListAt serMccAllocBlkAt b (off + FMLN_MCC_GET_LD_ALLOC_RSP)
             (takeEntries o.list o.num)
  (q.1, FMLN_MCC_GET_LD_ALLOC_RSP + q.2)

/-- `case FMOB_MCC_ALLOC_GET_RSP` of `fmapi_deserialize`. -/
def desMccAllocGetRspAt (b : Buf) (off : Nat) : fmapi_mcc_alloc_get_rsp × Nat :=
  let num := rd b (off + 3)
  let q := desListAt desMccAllocBlkAt b (off + FMLN_MCC_GET_LD_ALLOC_RSP) num
  ({ total := rd b (off + 0)
     granularity := rd b (off + 1)
     start := rd b (off + 2)
     num := num
     list := q.1 }, FMLN_MCC_GET_LD_ALLOC_RSP + q.2)

/-- `case FMOB_MCC_ALLOC_SET_REQ` of `fmapi_serialize` (bytes 2 and 3 are
never written; entries start at `rv = FMLN_MCC_SET_LD_ALLOC_REQ = 4`). -/
def serMccAllocSetReqAt (b : Buf) (off : Nat) (o : fmapi_mcc_alloc_set_req) : Buf × Nat :=
  let b := wr b (off + 0) o.num
  let b := wr b (off + 1) o.start
  let q := serListAt serMccAllocBlkAt b (off + FMLN_MCC_SET_LD_ALLOC_REQ)
             (takeEntries o.list o.num)
  (q.1, FMLN_MCC_SET_LD_ALLOC_REQ + q.2)

/-- `case FMOB_MCC_ALLOC_SET_REQ` of `fmapi_deserialize`. -/
def desMccAllocSetReqAt (b : Buf) (off : Nat) : fmapi_mcc_alloc_set_req × Nat :=
  let num := rd b (off + 0)
  let q := desListAt desMccAllocBlkAt b (off + FMLN_MCC_SET_LD_ALLOC_REQ) num
  ({ num := num, start := rd b (off + 1), list := q.1 },
   FMLN_MCC_SET_LD_ALLOC_REQ + q.2)

/-- `case FMOB_MCC_ALLOC_SET_RSP` of `fmapi_serialize`. -/
def serMccAllocSetRspAt (b : Buf) (off : Nat) (o : fmapi_mcc_alloc_set_rsp) : Buf × Nat :=
  let b := wr b (off + 0) o.num
  let b := wr b (off + 1) o.start
  let q := serListAt serMccAllocBlkAt b (off + FMLN_MCC_SET_LD_ALLOC_RSP)
             (takeEntries o.list o.num)
  (q.1, FMLN_MCC_SET_LD_ALLOC_RSP + q.2)

/-- `case FMOB_MCC_ALLOC_SET_RSP` of `fmapi_deserialize`. -/
def desMccAllocSetRspAt (b : Buf) (off : Nat) : fmapi_mcc_alloc_set_rsp × Nat :=
  let num := rd b (off + 0)
  let q := desListAt desMccAllocBlkAt b (off + FMLN_MCC_SET_LD_ALLOC_RSP) num
  ({ num := num, start := rd b (off + 1), list := q.1 },
   FMLN_MCC_SET_LD_ALLOC_RSP + q.2)

/-- `case FMOB_MCC_QOS_CTRL` of `fmapi_serialize` (`dst[0]` is built with
two unmasked `|=` of `o->epc_en << 0` and `o->ttr_en << 1`). -/
def serMccQosCtrlAt (b : Buf) (off : Nat) (o : fmapi_mcc_qos_ctrl) : Buf × Nat :=
  let b := wr b (off + 0) (Nat.lor (o.epc_en % 256) (o.ttr_en * 2))
  let b := wr b (off + 1) o.egress_mod_pcnt
  let b := wr b (off + 2) o.egress_sev_pcnt
  let b := wr b (off + 3) o.sample_interval
  let b := wr b (off + 4) (o.rcb % 256)
  let b := wr b (off + 5) (o.rcb / 256 % 256)
  let b := wr b (off + 6) o.comp_interval
  (b, FMLN_MCC_QOS_CTRL)

/-- `case FMOB_MCC_QOS_CTRL` of `fmapi_deserialize`. -/
def desMccQosCtrlAt (b : Buf) (off : Nat) : fmapi_mcc_qos_ctrl × Nat :=
  ({ epc_en := rd b (off + 0) / 1 % 2
     ttr_en := rd b (off + 0) / 2 % 2
     egress_mod_pcnt := rd b (off + 1)
     egress_sev_pcnt := rd b (off + 2)
     sample_interval := rd b (off + 3)
     rcb := rd b (off + 5) * 256 + rd b (off + 4)
     comp_interval := rd b (off + 6) }, FMLN_MCC_QOS_CTRL)

/-- `case FMOB_MCC_QOS_STAT_RSP` of `fmapi_serialize`. -/
def serMccQosStatRspAt (b : Buf) (off : Nat) (o : fmapi_mcc_qos_stat_rsp) : Buf × Nat :=
  (wr b (off + 0) o.bp_avg_pcnt, FMLN_MCC_QOS_STATUS)

/-- `case FMOB_MCC_QOS_STAT_RSP` of `fmapi_deserialize`. -/
def desMccQosStatRspAt (b : Buf) (off : Nat) : fmapi_mcc_qos_stat_rsp × Nat :=
  ({ bp_avg_pcnt := rd b (off + 0) }, FMLN_MCC_QOS_STATUS)

/-- `case FMOB_MCC_QOS_BW_GET_REQ` of `fmapi_serialize`. -/
def serMccQosBwGetReqAt (b : Buf) (off : Nat) (o : fmapi_mcc_qos_bw_alloc_get_req) :
    Buf × Nat :=
  let b := wr b (off + 0) o.num
  let b := wr b (off + 1) o.start
  (b, FMLN_MCC_GET_QOS_BW_REQ)

/-- `case FMOB_MCC_QOS_BW_GET_REQ` of `fmapi_deserialize`. -/
def desMccQosBwGetReqAt (b : Buf) (off : Nat) : fmapi_mcc_qos_bw_alloc_get_req × Nat :=
  ({ num := rd b (off + 0), start := rd b (off + 1) }, FMLN_MCC_GET_QOS_BW_REQ)

/-- `case FMOB_MCC_QOS_BW_ALLOC` of `fmapi_serialize` (the byte loop
`dst[rv + i] = o->list[i]` is a byte copy). -/
def serMccQosBwAllocAt (b : Buf) (off : Nat) (o : fmapi_mcc_qos_bw_alloc) : Buf × Nat :=
  let b := wr b (off + 0) o.num
  let b := wr b (off + 1) o.start
  let b := copyN b (off + FMLN_MCC_QOS_BW_ALLOC) o.list o.num
  (b, FMLN_MCC_QOS_BW_ALLOC + o.num)

/-- `case FMOB_MCC_QOS_BW_ALLOC` of `fmapi_deserialize`. -/
def desMccQosBwAllocAt (b : Buf) (off : Nat) : fmapi_mcc_qos_bw_alloc × Nat :=
  let num := rd b (off + 0)
  ({ num := num
     start := rd b (off + 1)
     list := readBytes b (off + FMLN_MCC_QOS_BW_ALLOC) num },
   FMLN_MCC_QOS_BW_ALLOC + num)

/-- `case FMOB_MCC_QOS_BW_LIMIT_GET_REQ` of `fmapi_serialize`. -/
def serMccQosBwLimitGetReqAt (b : Buf) (off : Nat) (o : fmapi_mcc_qos_bw_limit_get_req) :
    Buf × Nat :=
  let b := wr b (off + 0) o.num
  let b := wr b (off + 1) o.start
  (b, FMLN_MCC_GET_QOS_BW_LIMIT_REQ)

/-- `case FMOB_MCC_QOS_BW_LIMIT_GET_REQ` of `fmapi_deserialize`. -/
def desMccQosBwLimitGetReqAt (b : Buf) (off : Nat) :
    fmapi_mcc_qos_bw_limit_get_req × Nat :=
  ({ num := rd b (off + 0), start := rd b (off + 1) }, FMLN_MCC_GET_QOS_BW_LIMIT_REQ)

/-- `case FMOB_MCC_QOS_BW_LIMIT` of `fmapi_serialize`. -/
def serMccQosBwLimitAt (b : Buf) (off : Nat) (o : fmapi_mcc_qos_bw_limit) : Buf × Nat :=
  let b := wr b (off + 0) o.num
  let b := wr b (off + 1) o.start
  let b := copyN b (off + FMLN_MCC_QOS_BW_LIMIT) o.list o.num
  (b, FMLN_MCC_QOS_BW_LIMIT + o.num)

/-- `case FMOB_MCC_QOS_BW_LIMIT` of `fmapi_deserialize`. -/
def desMccQosBwLimitAt (b : Buf) (off : Nat) : fmapi_mcc_qos_bw_limit × Nat :=
  let num := rd b (off + 0)
  ({ num := num
     start := rd b (off + 1)
     list := readBytes b (off + FMLN_MCC_QOS_BW_LIMIT) num },
   FMLN_MCC_QOS_BW_LIMIT + num)

/-! ## The payload sum type and the dispatching entry points -/

/-- The union of all payload object types, tagged by kind
(the `void *` + `unsigned type` pair of the C API). -/
inductive FmObj where
  | hdr (o : fmapi_hdr)
  | psc_id_rsp (o : fmapi_psc_id_rsp)
  | psc_port_req (o : fmapi_psc_port_req)
  | psc_port_info (o : fmapi_psc_port_info)
  | psc_port_rsp (o : fmapi_psc_port_rsp)
  | psc_port_ctrl_req (o : fmapi_psc_port_ctrl_req)
  | psc_cfg_req (o : fmapi_psc_cfg_req)
  | psc_cfg_rsp (o : fmapi_psc_cfg_rsp)
  | vsc_info_req (o : fmapi_vsc_info_req)
  | vsc_ppb_stat_blk (o : fmapi_vsc_ppb_stat_blk)
  | vsc_info_blk (o : fmapi_vsc_info_blk)
  | vsc_info_rsp (o : fmapi_vsc_info_rsp)
  | vsc_bind_req (o : fmapi_vsc_bind_req)
  | vsc_unbind_req (o : fmapi_vsc_unbind_req)
  | vsc_aer_req (o : fmapi_vsc_aer_req)
  | mpc_tmc_req (o : fmapi_mpc_tmc_req)
  | mpc_tmc_rsp (o : fmapi_mpc_tmc_rsp)
  | mpc_cfg_req (o : fmapi_mpc_cfg_req)
  | mpc_cfg_rsp (o : fmapi_mpc_cfg_rsp)
  | mpc_mem_req (o : fmapi_mpc_mem_req)
  | mpc_mem_rsp (o : fmapi_mpc_mem_rsp)
  | mcc_info_rsp (o : fmapi_mcc_info_rsp)
  | mcc_alloc_blk (o : fmapi_mcc_alloc_blk)
  | mcc_alloc_get_req (o : fmapi_mcc_alloc_get_req)
  | mcc_alloc_get_rsp (o : fmapi_mcc_alloc_get_rsp)
  | mcc_alloc_set_req (o : fmapi_mcc_alloc_set_req)
  | mcc_alloc_set_rsp (o : fmapi_mcc_alloc_set_rsp)
  | mcc_qos_ctrl (o : fmapi_mcc_qos_ctrl)
  | mcc_qos_stat_rsp (o : fmapi_mcc_qos_stat_rsp)
  | mcc_qos_bw_get_req (o : fmapi_mcc_qos_bw_alloc_get_req)
  | mcc_qos_bw_alloc (o : fmapi_mcc_qos_bw_alloc)
  | mcc_qos_bw_limit_get_req (o : fmapi_mcc_qos_bw_limit_get_req)
  | mcc_qos_bw_limit (o : fmapi_mcc_qos_bw_limit)
  | isc_id_rsp (o : fmapi_isc_id_rsp)
  | isc_msg_limit (o : fmapi_isc_msg_limit)
  | isc_bos (o : fmapi_isc_bos)
  deriving Repr, DecidableEq, Inhabited

/-- The `enum _FMOB` value of the variant. -/
def kindOf : FmObj → Nat
  | .hdr _ => FMOB_HDR
  | .psc_id_rsp _ => FMOB_PSC_ID_RSP
  | .psc_port_req _ => FMOB_PSC_PORT_REQ
  | .psc_port_info _ => FMOB_PSC_PORT_INFO
  | .psc_port_rsp _ => FMOB_PSC_PORT_RSP
  | .psc_port_ctrl_req _ => FMOB_PSC_PORT_CTRL_REQ
  | .psc_cfg_req _ => FMOB_PSC_CFG_REQ
  | .psc_cfg_rsp _ => FMOB_PSC_CFG_RSP
  | .vsc_info_req _ => FMOB_VSC_INFO_REQ
  | .vsc_ppb_stat_blk _ => FMOB_VSC_PPB_STAT_BLK
  | .vsc_info_blk _ => FMOB_VSC_INFO_BLK
  | .vsc_info_rsp _ => FMOB_VSC_INFO_RSP
  | .vsc_bind_req _ => FMOB_VSC_BIND_REQ
  | .vsc_unbind_req _ => FMOB_VSC_UNBIND_REQ
  | .vsc_aer_req _ => FMOB_VSC_AER_REQ
  | .mpc_tmc_req _ => FMOB_MPC_TMC_REQ
  | .mpc_tmc_rsp _ => FMOB_MPC_TMC_RSP
  | .mpc_cfg_req _ => FMOB_MPC_CFG_REQ
  | .mpc_cfg_rsp _ => FMOB_MPC_CFG_RSP
  | .mpc_mem_req _ => FMOB_MPC_MEM_REQ
  | .mpc_mem_rsp _ => FMOB_MPC_MEM_RSP
  | .mcc_info_rsp _ => FMOB_MCC_INFO_RSP
  | .mcc_alloc_blk _ => FMOB_MCC_ALLOC_BLK
  | .mcc_alloc_get_req _ => FMOB_MCC_ALLOC_GET_REQ
  | .mcc_alloc_get_rsp _ => FMOB_MCC_ALLOC_GET_RSP
  | .mcc_alloc_set_req _ => FMOB_MCC_ALLOC_SET_REQ
  | .mcc_alloc_set_rsp _ => FMOB_MCC_ALLOC_SET_RSP
  | .mcc_qos_ctrl _ => FMOB_MCC_QOS_CTRL
  | .mcc_qos_stat_rsp _ => FMOB_MCC_QOS_STAT_RSP
  | .mcc_qos_bw_get_req _ => FMOB_MCC_QOS_BW_GET_REQ
  | .mcc_qos_bw_alloc _ => FMOB_MCC_QOS_BW_ALLOC
  | .mcc_qos_bw_limit_get_req _ => FMOB_MCC_QOS_BW_LIMIT_GET_REQ
  | .mcc_qos_bw_limit _ => FMOB_MCC_QOS_BW_LIMIT
  | .isc_id_rsp _ => FMOB_ISC_ID_RSP
  | .isc_msg_limit _ => FMOB_ISC_MSG_LIMIT
  | .isc_bos _ => FMOB_ISC_BOS

/-- The body of `fmapi_serialize`'s `switch` for a matched object/kind pair. -/
def serializeAt (b : Buf) (off : Nat) : FmObj → Buf × Nat
  | .hdr o => serHdrAt b off o
  | .psc_id_rsp o => serPscIdRspAt b off o
  | .psc_port_req o => serPscPortReqAt b off o
  | .psc_port_info o => serPscPortInfoAt b off o
  | .psc_port_rsp o => serPscPortRspAt b off o
  | .psc_port_ctrl_req o => serPscPortCtrlReqAt b off o
  | .psc_cfg_req o => serPscCfgReqAt b off o
  | .psc_cfg_rsp o => serPscCfgRspAt b off o
  | .vsc_info_req o => serVscInfoReqAt b off o
  | .vsc_ppb_stat_blk o => serVscPpbStatBlkAt b off o
  | .vsc_info_blk o => serVscInfoBlkAt b off o
  | .vsc_info_rsp o => serVscInfoRspAt b off o
  | .vsc_bind_req o => serVscBindReqAt b off o
  | .vsc_unbind_req o => serVscUnbindReqAt b off o
  | .vsc_aer_req o => serVscAerReqAt b off o
  | .mpc_tmc_req o => serMpcTmcReqAt b off o
  | .mpc_tmc_rsp o => serMpcTmcRspAt b off o
  | .mpc_cfg_req o => serMpcCfgReqAt b off o
  | .mpc_cfg_rsp o => serMpcCfgRspAt b off o
  | .mpc_mem_req o => serMpcMemReqAt b off o
  | .mpc_mem_rsp o => serMpcMemRspAt b off o
  | .mcc_info_rsp o => serMccInfoRspAt b off o
  | .mcc_alloc_blk o => serMccAllocBlkAt b off o
  | .mcc_alloc_get_req o => serMccAllocGetReqAt b off o
  | .mcc_alloc_get_rsp o => serMccAllocGetRspAt b off o
  | .mcc_alloc_set_req o => serMccAllocSetReqAt b off o
  | .mcc_alloc_set_rsp o => serMccAllocSetRspAt b off o
  | .mcc_qos_ctrl o => serMccQosCtrlAt b off o
  | .mcc_qos_stat_rsp o => serMccQosStatRspAt b off o
  | .mcc_qos_bw_get_req o => serMccQosBwGetReqAt b off o
  | .mcc_qos_bw_alloc o => serMccQosBwAllocAt b off o
  | .mcc_qos_bw_limit_get_req o => serMccQosBwLimitGetReqAt b off o
  | .mcc_qos_bw_limit o => serMccQosBwLimitAt b off o
  | .isc_id_rsp o => serIscIdRspAt b off o
  | .isc_msg_limit o => serIscMsgLimitAt b off o
  | .isc_bos o => serIscBosAt b off o

/-- `int fmapi_serialize(__u8 *dst, void *src, unsigned type)`.
The C validates only the kind (`type == FMOB_NULL || type >= FMOB_MAX`
returns 0 before any access); it never null-checks `dst` or `src`, so a
null pointer with a valid kind is a crash (`none`).  A `src` whose actual
variant differs from `type` is a C union reinterpretation, outside the
model (`none`). -/
def fmapi_serialize (dst : Option Buf) (src : Option FmObj) (type : Nat) :
    Option (Option Buf × Int) :=
  if type = FMOB_NULL ∨ FMOB_MAX ≤ type then some (dst, 0)
  else match dst, src with
    | some b, some x =>
      if kindOf x = type then
        let p := serializeAt b 0 x
        some (some p.1, (p.2 : Int))
      else none
    | _, _ => none

/-- The body of `fmapi_deserialize`'s `switch` for a valid nonzero kind.
`pre` is the object the destination pointer holds before the call; only
the two context-dependent kinds ever read it.  A mismatched prestate
variant for `FMOB_VSC_INFO_RSP` would be a C union reinterpretation,
outside the model (`none`). -/
def deserializeAt (pre : FmObj) (b : Buf) (off : Nat) (type : Nat)
    (param : Option fmapi_vsc_info_req) : Option (FmObj × Nat) :=
  if type = FMOB_HDR then
    let p := desHdrAt b off; some (.hdr p.1, p.2)
  else if type = FMOB_PSC_ID_RSP then
    let p := desPscIdRspAt b off; some (.psc_id_rsp p.1, p.2)
  else if type = FMOB_PSC_PORT_REQ then
    let p := desPscPortReqAt b off; some (.psc_port_req p.1, p.2)
  else if type = FMOB_PSC_PORT_INFO then
    let p := desPscPortInfoAt b off; some (.psc_port_info p.1, p.2)
  else if type = FMOB_PSC_PORT_RSP then
    let p := desPscPortRspAt b off; some (.psc_port_rsp p.1, p.2)
  else if type = FMOB_PSC_PORT_CTRL_REQ then
    let p := desPscPortCtrlReqAt b off; some (.psc_port_ctrl_req p.1, p.2)
  else if type = FMOB_PSC_CFG_REQ then
    let p := desPscCfgReqAt b off; some (.psc_cfg_req p.1, p.2)
  else if type = FMOB_PSC_CFG_RSP then
    let p := desPscCfgRspAt b off; some (.psc_cfg_rsp p.1, p.2)
  else if type = FMOB_VSC_INFO_REQ then
    let p := desVscInfoReqAt b off; some (.vsc_info_req p.1, p.2)
  else if type = FMOB_VSC_PPB_STAT_BLK then
    let p := desVscPpbStatBlkAt b off; some (.vsc_ppb_stat_blk p.1, p.2)
  else if type = FMOB_VSC_INFO_BLK then
    -- the C checks the request context before writing any field and
    -- returns rv = 0 with the destination untouched when it is null
    match param with
    | none => some (pre, 0)
    | some _ =>
      let p := desVscInfoBlkAt default param b off
      some (.vsc_info_blk p.1, p.2)
  else if type = FMOB_VSC_INFO_RSP then
    match pre with
    | .vsc_info_rsp o =>
      let p := desVscInfoRspAt o param b off
      some (.vsc_info_rsp p.1, p.2)
    | _ => none
  else if type = FMOB_VSC_BIND_REQ then
    let p := desVscBindReqAt b off; some (.vsc_bind_req p.1, p.2)
  else if type = FMOB_VSC_UNBIND_REQ then
    let p := desVscUnbindReqAt b off; some (.vsc_unbind_req p.1, p.2)
  else if type = FMOB_VSC_AER_REQ then
    let p := desVscAerReqAt b off; some (.vsc_aer_req p.1, p.2)
  else if type = FMOB_MPC_TMC_REQ then
    let p := desMpcTmcReqAt b off; some (.mpc_tmc_req p.1, p.2)
  else if type = FMOB_MPC_TMC_RSP then
    let p := desMpcTmcRspAt b off; some (.mpc_tmc_rsp p.1, p.2)
  else if type = FMOB_MPC_CFG_REQ then
    let p := desMpcCfgReqAt b off; some (.mpc_cfg_req p.1, p.2)
  else if type = FMOB_MPC_CFG_RSP then
    let p := desMpcCfgRspAt b off; some (.mpc_cfg_rsp p.1, p.2)
  else if type = FMOB_MPC_MEM_REQ then
    let p := desMpcMemReqAt b off; some (.mpc_mem_req p.1, p.2)
  else if type = FMOB_MPC_MEM_RSP then
    let p := desMpcMemRspAt b off; some (.mpc_mem_rsp p.1, p.2)
  else if type = FMOB_MCC_INFO_RSP then
    let p := desMccInfoRspAt b off; some (.mcc_info_rsp p.1, p.2)
  else if type = FMOB_MCC_ALLOC_BLK then
    let p := desMccAllocBlkAt b off; some (.mcc_alloc_blk p.1, p.2)
  else if type = FMOB_MCC_ALLOC_GET_REQ then
    let p := desMccAllocGetReqAt b off; some (.mcc_alloc_get_req p.1, p.2)
  else if type = FMOB_MCC_ALLOC_GET_RSP then
    let p := desMccAllocGetRspAt b off; some (.mcc_alloc_get_rsp p.1, p.2)
  else if type = FMOB_MCC_ALLOC_SET_REQ then
    let p := desMccAllocSetReqAt b off; some (.mcc_alloc_set_req p.1, p.2)
  else if type = FMOB_MCC_ALLOC_SET_RSP then
    let p := desMccAllocSetRspAt b off; some (.mcc_alloc_set_rsp p.1, p.2)
  else if type = FMOB_MCC_QOS_CTRL then
    let p := desMccQosCtrlAt b off; some (.mcc_qos_ctrl p.1, p.2)
  else if type = FMOB_MCC_QOS_STAT_RSP then
    let p := desMccQosStatRspAt b off; some (.mcc_qos_stat_rsp p.1, p.2)
  else if type = FMOB_MCC_QOS_BW_GET_REQ then
    let p := desMccQosBwGetReqAt b off; some (.mcc_qos_bw_get_req p.1, p.2)
  else if type = FMOB_MCC_QOS_BW_ALLOC then
    let p := desMccQosBwAllocAt b off; some (.mcc_qos_bw_alloc p.1, p.2)
  else if type = FMOB_MCC_QOS_BW_LIMIT_GET_REQ then
    let p := desMccQosBwLimitGetReqAt b off; some (.mcc_qos_bw_limit_get_req p.1, p.2)
  else if type = FMOB_MCC_QOS_BW_LIMIT then
    let p := desMccQosBwLimitAt b off; some (.mcc_qos_bw_limit p.1, p.2)
  else if type = FMOB_ISC_ID_RSP then
    let p := desIscIdRspAt b off; some (.isc_id_rsp p.1, p.2)
  else if type = FMOB_ISC_MSG_LIMIT then
    let p := desIscMsgLimitAt b off; some (.isc_msg_limit p.1, p.2)
  else if type = FMOB_ISC_BOS then
    let p := desIscBosAt b off; some (.isc_bos p.1, p.2)
  else some (pre, 0)

/-- `int fmapi_deserialize(void *dst, __u8 *src, unsigned type, void *param)`.
The C checks `dst == NULL || type >= FMOB_MAX` and returns -1 before any
byte access.  `FMOB_NULL` returns 0 without touching `src`.  `src` is
never null-checked: a null `src` with a non-`FMOB_NULL` kind is a crash
(`none`). -/
def fmapi_deserialize (dst : Option FmObj) (src : Option Buf) (type : Nat)
    (param : Option fmapi_vsc_info_req) : Option (Option FmObj × Int) :=
  if dst = none ∨ FMOB_MAX ≤ type then some (dst, -1)
  else if type = FMOB_NULL then some (dst, 0)
  else match dst, src with
    | some pre, some b =>
      match deserializeAt pre b 0 type param with
      | some (x, n) => some (some x, (n : Int))
      | none => none
    | _, _ => none

/-! ## Kind registry (fmapi_fmob_req / fmapi_fmob_rsp) -/

/-- `int fmapi_fmob_req(unsigned int opcode)`: the payload kind carried by
a request with this opcode (default: `FMOB_NULL`). -/
def fmapi_fmob_req (opcode : Nat) : Nat :=
  if opcode = FMOP_PSC_ID then FMOB_NULL
  else if opcode = FMOP_PSC_PORT then FMOB_PSC_PORT_REQ
  else if opcode = FMOP_PSC_PORT_CTRL then FMOB_PSC_PORT_CTRL_REQ
  else if opcode = FMOP_PSC_CFG then FMOB_PSC_CFG_REQ
  else if opcode = FMOP_VSC_INFO then FMOB_VSC_INFO_REQ
  else if opcode = FMOP_VSC_BIND then FMOB_VSC_BIND_REQ
  else if opcode = FMOP_VSC_UNBIND then FMOB_VSC_UNBIND_REQ
  else if opcode = FMOP_VSC_AER then FMOB_VSC_AER_REQ
  else if opcode = FMOP_MPC_TMC then FMOB_MPC_TMC_REQ
  else if opcode = FMOP_MPC_CFG then FMOB_MPC_CFG_REQ
  else if opcode = FMOP_MPC_MEM then FMOB_MPC_MEM_REQ
  else if opcode = FMOP_MCC_INFO then FMOB_NULL
  else if opcode = FMOP_MCC_ALLOC_GET then FMOB_MCC_ALLOC_GET_REQ
  else if opcode = FMOP_MCC_ALLOC_SET then FMOB_MCC_ALLOC_SET_REQ
  else if opcode = FMOP_MCC_QOS_CTRL_GET then FMOB_NULL
  else if opcode = FMOP_MCC_QOS_CTRL_SET then FMOB_MCC_QOS_CTRL
  else if opcode = FMOP_MCC_QOS_STAT then FMOB_NULL
  else if opcode = FMOP_MCC_QOS_BW_ALLOC_GET then FMOB_MCC_QOS_BW_GET_REQ
  else if opcode = FMOP_MCC_QOS_BW_ALLOC_SET then FMOB_MCC_QOS_BW_ALLOC
  else if opcode = FMOP_MCC_QOS_BW_LIMIT_GET then FMOB_MCC_QOS_BW_LIMIT_GET_REQ
  else if opcode = FMOP_MCC_QOS_BW_LIMIT_SET then FMOB_MCC_QOS_BW_LIMIT
  else if opcode = FMOP_ISC_ID then FMOB_NULL
  else if opcode = FMOP_ISC_BOS then FMOB_NULL
  else if opcode = FMOP_ISC_MSG_LIMIT_GET then FMOB_NULL
  else if opcode = FMOP_ISC_MSG_LIMIT_SET then FMOB_ISC_MSG_LIMIT
  else FMOB_NULL

/-- `int fmapi_fmob_rsp(unsigned int opcode)`: the payload kind carried by
a response with this opcode (default: `FMOB_NULL`). -/
def fmapi_fmob_rsp (opcode : Nat) : Nat :=
  if opcode = FMOP_PSC_ID then FMOB_PSC_ID_RSP
  else if opcode = FMOP_PSC_PORT then FMOB_PSC_PORT_RSP
  else if opcode = FMOP_PSC_PORT_CTRL then FMOB_NULL
  else if opcode = FMOP_PSC_CFG then FMOB_PSC_CFG_RSP
  else if opcode = FMOP_VSC_INFO then FMOB_VSC_INFO_RSP
  else if opcode = FMOP_VSC_BIND then FMOB_NULL
  else if opcode = FMOP_VSC_UNBIND then FMOB_NULL
  else if opcode = FMOP_VSC_AER then FMOB_NULL
  else if opcode = FMOP_MPC_TMC then FMOB_MPC_TMC_RSP
  else if opcode = FMOP_MPC_CFG then FMOB_MPC_CFG_RSP
  else if opcode = FMOP_MPC_MEM then FMOB_MPC_MEM_RSP
  else if opcode = FMOP_MCC_INFO then FMOB_MCC_INFO_RSP
  else if opcode = FMOP_MCC_ALLOC_GET then FMOB_MCC_ALLOC_GET_RSP
  else if opcode = FMOP_MCC_ALLOC_SET then FMOB_MCC_ALLOC_SET_RSP
  else if opcode = FMOP_MCC_QOS_CTRL_GET then FMOB_MCC_QOS_CTRL
  else if opcode = FMOP_MCC_QOS_CTRL_SET then FMOB_MCC_QOS_CTRL
  else if opcode = FMOP_MCC_QOS_STAT then FMOB_MCC_QOS_STAT_RSP
  else if opcode = FMOP_MCC_QOS_BW_ALLOC_GET then FMOB_MCC_QOS_BW_ALLOC
  else if opcode = FMOP_MCC_QOS_BW_ALLOC_SET then FMOB_MCC_QOS_BW_ALLOC
  else if opcode = FMOP_MCC_QOS_BW_LIMIT_GET then FMOB_MCC_QOS_BW_LIMIT
  else if opcode = FMOP_MCC_QOS_BW_LIMIT_SET then FMOB_MCC_QOS_BW_LIMIT
  else if opcode = FMOP_ISC_ID then FMOB_ISC_ID_RSP
  else if opcode = FMOP_ISC_BOS then FMOB_ISC_BOS
  else if opcode = FMOP_ISC_MSG_LIMIT_GET then FMOB_ISC_MSG_LIMIT
  else if opcode = FMOP_ISC_MSG_LIMIT_SET then FMOB_ISC_MSG_LIMIT
  else FMOB_NULL

/-- The opcodes appearing as `case` labels in the two registry functions. -/
def knownOpcodes : List Nat :=
  [FMOP_PSC_ID, FMOP_PSC_PORT, FMOP_PSC_PORT_CTRL, FMOP_PSC_CFG,
   FMOP_VSC_INFO, FMOP_VSC_BIND, FMOP_VSC_UNBIND, FMOP_VSC_AER,
   FMOP_MPC_TMC, FMOP_MPC_CFG, FMOP_MPC_MEM,
   FMOP_MCC_INFO, FMOP_MCC_ALLOC_GET, FMOP_MCC_ALLOC_SET,
   FMOP_MCC_QOS_CTRL_GET, FMOP_MCC_QOS_CTRL_SET, FMOP_MCC_QOS_STAT,
   FMOP_MCC_QOS_BW_ALLOC_GET, FMOP_MCC_QOS_BW_ALLOC_SET,
   FMOP_MCC_QOS_BW_LIMIT_GET, FMOP_MCC_QOS_BW_LIMIT_SET,
   FMOP_ISC_ID, FMOP_ISC_BOS, FMOP_ISC_MSG_LIMIT_GET, FMOP_ISC_MSG_LIMIT_SET]

/-! ## Message builders (fmapi_fill_*) -/

/-- `struct fmapi_msg`: header plus payload union.  The `buf` pointer
member is an aliasing scratch pointer; it carries no logical content of
its own and is not modelled as a field (the one place it is written,
`fmapi_fill_mpc_tmc`, is modelled explicitly). -/
structure FmapiMsg where
  hdr : fmapi_hdr
  obj : FmObj
  deriving Repr, DecidableEq, Inhabited

/-- A header with every field zero (the result of
`memset(&m->hdr, 0, sizeof(struct fmapi_hdr))`). -/
def zeroHdr : fmapi_hdr :=
  { category := 0, tag := 0, opcode := 0, background := 0, len := 0,
    return_code := 0, ext_status := 0 }

/-- The `n` bytes `xs[0] .. xs[n-1]` read from a caller-supplied `__u8`
array (a `memcpy` or byte loop into a struct field). -/
def takeBytes (xs : List Nat) (n : Nat) : List Nat :=
  (List.range n).map (fun i => xs.getD i 0 % 256)

/-- `int fmapi_fill_hdr(struct fmapi_hdr *fh, ...)`: returns 0 on a null
handle, otherwise stores each argument (truncated to its bitfield width)
and returns `FMLN_HDR + len`. -/
def fmapi_fill_hdr (fh : Option fmapi_hdr) (category tag opcode background len
    return_code ext_status : Nat) : Option fmapi_hdr × Int :=
  match fh with
  | none => (none, 0)
  | some _ =>
    (some { category := category % 16
            tag := tag % 256
            opcode := opcode % 65536
            background := background % 2
            len := len % 2097152
            return_code := return_code % 65536
            ext_status := ext_status % 65536 },
     ((FMLN_HDR : Nat) : Int) + ((len % 4294967296 : Nat) : Int))

/-- `int fmapi_fill_isc_bos(struct fmapi_msg *m)`. -/
def fmapi_fill_isc_bos (m : Option FmapiMsg) : Option (Option FmapiMsg × Int) :=
  match m with
  | none => some (none, 1)
  | some msg =>
    some (some { msg with hdr := { zeroHdr with opcode := FMOP_ISC_BOS } }, 0)

/-- `int fmapi_fill_isc_get_msg_limit(struct fmapi_msg *m)`. -/
def fmapi_fill_isc_get_msg_limit (m : Option FmapiMsg) :
    Option (Option FmapiMsg × Int) :=
  match m with
  | none => some (none, 1)
  | some msg =>
    some (some { msg with hdr := { zeroHdr with opcode := FMOP_ISC_MSG_LIMIT_GET } }, 0)

/-- `int fmapi_fill_isc_id(struct fmapi_msg *m)`. -/
def fmapi_fill_isc_id (m : Option FmapiMsg) : Option (Option FmapiMsg × Int) :=
  match m with
  | none => some (none, 1)
  | some msg =>
    some (some { msg with hdr := { zeroHdr with opcode := FMOP_ISC_ID } }, 0)

/-- `int fmapi_fill_isc_set_msg_limit(struct fmapi_msg *m, __u8 limit)`. -/
def fmapi_fill_isc_set_msg_limit (m : Option FmapiMsg) (limit : Nat) :
    Option (Option FmapiMsg × Int) :=
  match m with
  | none => some (none, 1)
  | some _ =>
    some (some { hdr := { zeroHdr with opcode := FMOP_ISC_MSG_LIMIT_SET }
                 obj := .isc_msg_limit { limit := limit % 256 } }, 0)

/-- `int fmapi_fill_mcc_get_alloc(struct fmapi_msg *m, int start, int limit)`
(`limit == 0` defaults to 255). -/
def fmapi_fill_mcc_get_alloc (m : Option FmapiMsg) (start limit : Nat) :
    Option (Option FmapiMsg × Int) :=
  let limit := if limit = 0 then 255 else limit
  match m with
  | none => some (none, 1)
  | some _ =>
    some (some { hdr := { zeroHdr with opcode := FMOP_MCC_ALLOC_GET }
                 obj := .mcc_alloc_get_req { start := start % 256, limit := limit % 256 } },
      0)

/-- `int fmapi_fill_mcc_get_info(struct fmapi_msg *m)`. -/
def fmapi_fill_mcc_get_info (m : Option FmapiMsg) : Option (Option FmapiMsg × Int) :=
  match m with
  | none => some (none, 1)
  | some msg =>
    some (some { msg with hdr := { zeroHdr with opcode := FMOP_MCC_INFO } }, 0)

/-- `int fmapi_fill_mcc_get_qos_alloc(struct fmapi_msg *m, int start, int limit)`
(`limit == 0` defaults to 255; the limit is stored in the `num` field). -/
def fmapi_fill_mcc_get_qos_alloc (m : Option FmapiMsg) (start limit : Nat) :
    Option (Option FmapiMsg × Int) :=
  let limit := if limit = 0 then 255 else limit
  match m with
  | none => some (none, 1)
  | some _ =>
    some (some { hdr := { zeroHdr with opcode := FMOP_MCC_QOS_BW_ALLOC_GET }
                 obj := .mcc_qos_bw_get_req { num := limit % 256, start := start % 256 } },
      0)

/-- `int fmapi_fill_mcc_get_qos_ctrl(struct fmapi_msg *m)`. -/
def fmapi_fill_mcc_get_qos_ctrl (m : Option FmapiMsg) :
    Option (Option FmapiMsg × Int) :=
  match m with
  | none => some (none, 1)
  | some msg =>
    some (some { msg with hdr := { zeroHdr with opcode := FMOP_MCC_QOS_CTRL_GET } }, 0)

/-- `int fmapi_fill_mcc_get_qos_limit(struct fmapi_msg *m, int start, int limit)`
(`limit == 0` defaults to 16). -/
def fmapi_fill_mcc_get_qos_limit (m : Option FmapiMsg) (start limit : Nat) :
    Option (Option FmapiMsg × Int) :=
  let limit := if limit = 0 then 16 else limit
  match m with
  | none => some (none, 1)
  | some _ =>
    some (some { hdr := { zeroHdr with opcode := FMOP_MCC_QOS_BW_LIMIT_GET }
                 obj := .mcc_qos_bw_limit_get_req { num := limit % 256, start := start % 256 } },
      0)

/-- `int fmapi_fill_mcc_get_qos_status(struct fmapi_msg *m)`. -/
def fmapi_fill_mcc_get_qos_status (m : Option FmapiMsg) :
    Option (Option FmapiMsg × Int) :=
  match m with
  | none => some (none, 1)
  | some msg =>
    some (some { msg with hdr := { zeroHdr with opcode := FMOP_MCC_QOS_STAT } }, 0)

/-- `int fmapi_fill_mcc_set_alloc(struct fmapi_msg *m, int start, int num,
__u64 *rng1, __u64 *rng2)`. -/
def fmapi_fill_mcc_set_alloc (m : Option FmapiMsg) (start num : Nat)
    (rng1 rng2 : List Nat) : Option (Option FmapiMsg × Int) :=
  match m with
  | none => some (none, 1)
  | some _ =>
    some (some { hdr := { zeroHdr with opcode := FMOP_MCC_ALLOC_SET }
                 obj := .mcc_alloc_set_req
                   { num := num % 256
                     start := start % 256
                     list := (List.range num).map (fun i =>
                       { rng1 := rng1.getD i 0 % 18446744073709551616
                         rng2 := rng2.getD i 0 % 18446744073709551616 }) } }, 0)

/-- `int fmapi_fill_mcc_set_qos_alloc(struct fmapi_msg *m, int start, int num,
__u8 *list)`. -/
def fmapi_fill_mcc_set_qos_alloc (m : Option FmapiMsg) (start num : Nat)
    (list : List Nat) : Option (Option FmapiMsg × Int) :=
  match m with
  | none => some (none, 1)
  | some _ =>
    some (some { hdr := { zeroHdr with opcode := FMOP_MCC_QOS_BW_ALLOC_SET }
                 obj := .mcc_qos_bw_alloc
                   { num := num % 256, start := start % 256, list := takeBytes list num } },
      0)

/-- `int fmapi_fill_mcc_set_qos_ctrl(struct fmapi_msg *m, int epc, int ttr,
int mod, int sev, int si, int rcb, int ci)`. -/
def fmapi_fill_mcc_set_qos_ctrl (m : Option FmapiMsg)
    (epc ttr mod sev si rcb ci : Nat) : Option (Option FmapiMsg × Int) :=
  match m with
  | none => some (none, 1)
  | some _ =>
    some (some { hdr := { zeroHdr with opcode := FMOP_MCC_QOS_CTRL_SET }
                 obj := .mcc_qos_ctrl
                   { epc_en := epc % 256
                     ttr_en := ttr % 256
                     egress_mod_pcnt := mod % 256
                     egress_sev_pcnt := sev % 256
                     sample_interval := si % 256
                     rcb := rcb % 65536
                     comp_interval := ci % 256 } }, 0)

/-- `int fmapi_fill_mcc_set_qos_limit(struct fmapi_msg *m, int start, int num,
__u8 *list)`. -/
def fmapi_fill_mcc_set_qos_limit (m : Option FmapiMsg) (start num : Nat)
    (list : List Nat) : Option (Option FmapiMsg × Int) :=
  match m with
  | none => some (none, 1)
  | some _ =>
    some (some { hdr := { zeroHdr with opcode := FMOP_MCC_QOS_BW_LIMIT_SET }
                 obj := .mcc_qos_bw_limit
                   { num := num % 256, start := start % 256, list := takeBytes list num } },
      0)

/-- `int fmapi_fill_mpc_cfg(struct fmapi_msg *m, int ppid, int ldid, int reg,
int ext, int fdbe, int type, __u8 *data)`. -/
def fmapi_fill_mpc_cfg (m : Option FmapiMsg) (ppid ldid reg ext fdbe type_ : Nat)
    (data : List Nat) : Option (Option FmapiMsg × Int) :=
  match m with
  | none => some (none, 1)
  | some _ =>
    some (some { hdr := { zeroHdr with opcode := FMOP_MPC_CFG }
                 obj := .mpc_cfg_req
                   { ppid := ppid % 256
                     reg := reg % 256
                     ext := ext % 16
                     fdbe := fdbe % 16
                     type := type_ % 2
                     ldid := ldid % 65536
                     data := takeBytes data 4 } }, 0)

/-- `int fmapi_fill_mpc_mem(struct fmapi_msg *m, int ppid, int ldid,
__u64 offset, int len, int fdbe, int ldbe, int type, __u8 *data)`. -/
def fmapi_fill_mpc_mem (m : Option FmapiMsg) (ppid ldid offset len fdbe ldbe type_ : Nat)
    (data : List Nat) : Option (Option FmapiMsg × Int) :=
  match m with
  | none => some (none, 1)
  | some _ =>
    some (some { hdr := { zeroHdr with opcode := FMOP_MPC_MEM }
                 obj := .mpc_mem_req
                   { ppid := ppid % 256
                     fdbe := fdbe % 16
                     ldbe := ldbe % 16
                     type := type_ % 2
                     ldid := ldid % 65536
                     len := len % 65536
                     offset := offset % 18446744073709551616
                     data := takeBytes data len } }, 0)

/-- `int fmapi_fill_psc_id(struct fmapi_msg *m)`. -/
def fmapi_fill_psc_id (m : Option FmapiMsg) : Option (Option FmapiMsg × Int) :=
  match m with
  | none => some (none, 1)
  | some msg =>
    some (some { msg with hdr := { zeroHdr with opcode := FMOP_PSC_ID } }, 0)

/-- `int fmapi_fill_psc_get_all_ports(struct fmapi_msg *m)`: requests the
state of every port by filling `num = 255` and `ports[i] = i` for
`i = 0 .. 254`. -/
def fmapi_fill_psc_get_all_ports (m : Option FmapiMsg) :
    Option (Option FmapiMsg × Int) :=
  match m with
  | none => some (none, 1)
  | some _ =>
    some (some { hdr := { zeroHdr with opcode := FMOP_PSC_PORT }
                 obj := .psc_port_req { num := 255, ports := List.range 255 } }, 0)

/-- `int fmapi_fill_psc_get_port(struct fmapi_msg *m, __u8 port)`. -/
def fmapi_fill_psc_get_port (m : Option FmapiMsg) (port : Nat) :
    Option (Option FmapiMsg × Int) :=
  match m with
  | none => some (none, 1)
  | some _ =>
    some (some { hdr := { zeroHdr with opcode := FMOP_PSC_PORT }
                 obj := .psc_port_req { num := 1, ports := [port % 256] } }, 0)

/-- `int fmapi_fill_psc_get_ports(struct fmapi_msg *m, int num, __u8 *list)`. -/
def fmapi_fill_psc_get_ports (m : Option FmapiMsg) (num : Nat) (list : List Nat) :
    Option (Option FmapiMsg × Int) :=
  match m with
  | none => some (none, 1)
  | some _ =>
    some (some { hdr := { zeroHdr with opcode := FMOP_PSC_PORT }
                 obj := .psc_port_req { num := num % 256, ports := takeBytes list num } },
      0)

/-- `int fmapi_fill_psc_cfg(struct fmapi_msg *m, int ppid, int reg, int ext,
int fdbe, int type, __u8 *data)`: `data` is copied only when non-null;
with a null `data` the C leaves the union's previous `data` bytes (kept
here when the union already held this variant, unspecified otherwise). -/
def fmapi_fill_psc_cfg (m : Option FmapiMsg) (ppid reg ext fdbe type_ : Nat)
    (data : Option (List Nat)) : Option (Option FmapiMsg × Int) :=
  match m with
  | none => some (none, 1)
  | some msg =>
    let preData := match msg.obj with
      | .psc_cfg_req p => p.data
      | _ => []
    some (some { hdr := { zeroHdr with opcode := FMOP_PSC_CFG }
                 obj := .psc_cfg_req
                   { ppid := ppid % 256
                     reg := reg % 256
                     ext := ext % 16
                     fdbe := fdbe % 16
                     type := type_ % 2
                     data := match data with
                       | some d => takeBytes d 4
                       | none => preData } }, 0)

/-- `int fmapi_fill_psc_port_ctrl(struct fmapi_msg *m, int ppid, int opcode)`. -/
def fmapi_fill_psc_port_ctrl (m : Option FmapiMsg) (ppid opcode : Nat) :
    Option (Option FmapiMsg × Int) :=
  match m with
  | none => some (none, 1)
  | some _ =>
    some (some { hdr := { zeroHdr with opcode := FMOP_PSC_PORT_CTRL }
                 obj := .psc_port_ctrl_req { ppid := ppid % 256, opcode := opcode % 256 } },
      0)

/-- `int fmapi_fill_vsc_aer(struct fmapi_msg *m, int vcsid, int vppbid,
__u32 type, __u8 *header)`. -/
def fmapi_fill_vsc_aer (m : Option FmapiMsg) (vcsid vppbid type_ : Nat)
    (header : List Nat) : Option (Option FmapiMsg × Int) :=
  match m with
  | none => some (none, 1)
  | some _ =>
    some (some { hdr := { zeroHdr with opcode := FMOP_VSC_AER }
                 obj := .vsc_aer_req
                   { vcsid := vcsid % 256
                     vppbid := vppbid % 256
                     error_type := type_ % 4294967296
                     header := takeBytes header 32 } }, 0)

/-- `int fmapi_fill_vsc_bind(struct fmapi_msg *m, int vcsid, int vppbid,
int ppid, int ldid)`. -/
def fmapi_fill_vsc_bind (m : Option FmapiMsg) (vcsid vppbid ppid ldid : Nat) :
    Option (Option FmapiMsg × Int) :=
  match m with
  | none => some (none, 1)
  | some _ =>
    some (some { hdr := { zeroHdr with opcode := FMOP_VSC_BIND }
                 obj := .vsc_bind_req
                   { vcsid := vcsid % 256
                     vppbid := vppbid % 256
                     ppid := ppid % 256
                     ldid := ldid % 65536 } }, 0)

/-- `int fmapi_fill_vsc_get_vcs(struct fmapi_msg *m, int vcsid, int start,
int limit)`. -/
def fmapi_fill_vsc_get_vcs (m : Option FmapiMsg) (vcsid start limit : Nat) :
    Option (Option FmapiMsg × Int) :=
  match m with
  | none => some (none, 1)
  | some _ =>
    some (some { hdr := { zeroHdr with opcode := FMOP_VSC_INFO }
                 obj := .vsc_info_req
                   { vppbid_start := start % 256
                     vppbid_limit := limit % 256
                     num := 1
                     vcss := [vcsid % 256] } }, 0)

/-- `int fmapi_fill_vsc_unbind(struct fmapi_msg *m, int vcsid, int vppbid,
int option)` (`option` is a 4-bit bitfield). -/
def fmapi_fill_vsc_unbind (m : Option FmapiMsg) (vcsid vppbid option : Nat) :
    Option (Option FmapiMsg × Int) :=
  match m with
  | none => some (none, 1)
  | some _ =>
    some (some { hdr := { zeroHdr with opcode := FMOP_VSC_UNBIND }
                 obj := .vsc_unbind_req
                   { vcsid := vcsid % 256
                     vppbid := vppbid % 256
                     option := option % 16 } }, 0)

/-- `int fmapi_fill_mpc_tmc(struct fmapi_msg *m, int ppid, int type,
struct fmapi_msg *sub)`.

The statement `sub->buf = (struct fmapi_buf*) m->obj.mpc_tmc_req.msg;`
executes *before* the `m == NULL` check: a store through a null `sub` is a
crash regardless of `m` (with `m` null and `sub` non-null the stored value
is an address computed from a null base, which faults on neither store nor
check, so the C still reaches `return 1`).  With both handles valid the
inner message is serialized into `m`'s tunnel payload bytes (header at
offsets 0..11, payload from offset 12), the inner header's `len` is
recomputed from the encoded payload length, and the outer `len` field is
`FMLN_HDR + len`.  The C also mutates `sub->hdr` in place; that side
effect is not carried in the return value here (no claim depends on it). -/
def fmapi_fill_mpc_tmc (m : Option FmapiMsg) (ppid type_ : Nat)
    (sub : Option FmapiMsg) : Option (Option FmapiMsg × Int) :=
  match sub with
  | none => none
  | some s =>
    match m with
    | none => some (none, 1)
    | some msg =>
      -- the tunnel payload bytes the union currently holds (union memory
      -- reinterpretation gives unspecified bytes for other variants)
      let preMsg : Buf := fun i =>
        match msg.obj with
        | .mpc_tmc_req p => p.msg.getD i 0 % 256
        | _ => 0
      let kind := fmapi_fmob_req s.hdr.opcode
      -- len = fmapi_serialize(sub->buf->payload, &sub->obj, kind)
      match fmapi_serialize (some (fun i => preMsg (FMLN_HDR + i))) (some s.obj) kind with
      | none => none
      | some (pb, len0) =>
        let len := len0.toNat
        let payloadBuf := pb.getD (fun i => preMsg (FMLN_HDR + i))
        -- m->obj.mpc_tmc_req.len = fmapi_fill_hdr(&sub->hdr, FMMT_REQ, 0,
        --                                         sub->hdr.opcode, 0, len, 0, 0)
        let hp := fmapi_fill_hdr (some s.hdr) FMMT_REQ 0 s.hdr.opcode 0 len 0 0
        let subHdr := (hp.1).getD zeroHdr
        let tmcLen := hp.2.toNat % 65536
        -- fmapi_serialize((__u8*)&sub->buf->hdr, &sub->hdr, FMOB_HDR)
        let msgBuf : Buf := fun i => if FMLN_HDR ≤ i then payloadBuf (i - FMLN_HDR) else preMsg i
        let msgBuf := (serHdrAt msgBuf 0 subHdr).1
        some (some { hdr := { zeroHdr with opcode := FMOP_MPC_TMC }
                     obj := .mpc_tmc_req
                       { ppid := ppid % 256
                         len := tmcLen
                         type := type_ % 256
                         msg := readBytes msgBuf 0 tmcLen } }, 0)

/-! ## Well-formedness: every field within its declared wire width, every
list count within the kind's capacity, counts matching list lengths -/

/-- Every element is a byte value. -/
def bytesWf (xs : List Nat) : Prop := ∀ v ∈ xs, v < 256

instance (xs : List Nat) : Decidable (bytesWf xs) := by
  unfold bytesWf; infer_instance

def iscIdRspWf (o : fmapi_isc_id_rsp) : Prop :=
  o.vid < 65536 ∧ o.did < 65536 ∧ o.svid < 65536 ∧ o.ssid < 65536 ∧
  o.sn < 18446744073709551616 ∧ o.size < 256

def iscMsgLimitWf (o : fmapi_isc_msg_limit) : Prop := o.limit < 256

def iscBosWf (o : fmapi_isc_bos) : Prop :=
  o.running < 2 ∧ o.pcnt < 128 ∧ o.opcode < 65536 ∧ o.rc < 65536 ∧ o.ext < 65536

def pscIdRspWf (o : fmapi_psc_id_rsp) : Prop :=
  o.ingress_port < 256 ∧ o.num_ports < 256 ∧ o.num_vcss < 256 ∧
  o.active_ports.length = 32 ∧ bytesWf o.active_ports ∧
  o.active_vcss.length = 32 ∧ bytesWf o.active_vcss ∧
  o.num_vppbs < 65536 ∧ o.active_vppbs < 65536 ∧ o.num_decoders < 256

def pscPortReqWf (o : fmapi_psc_port_req) : Prop :=
  o.num < 256 ∧ o.ports.length = o.num ∧ bytesWf o.ports

def pscPortInfoWf (o : fmapi_psc_port_info) : Prop :=
  o.ppid < 256 ∧ o.state < 256 ∧ o.dv < 256 ∧ o.dt < 256 ∧ o.cv < 256 ∧
  o.mlw < 256 ∧ o.nlw < 256 ∧ o.speeds < 256 ∧ o.mls < 256 ∧ o.cls < 256 ∧
  o.ltssm < 256 ∧ o.lane < 256 ∧ o.lane_rev < 2 ∧ o.perst < 2 ∧ o.prsnt < 2 ∧
  o.pwrctrl < 2 ∧ o.num_ld < 256

def pscPortRspWf (o : fmapi_psc_port_rsp) : Prop :=
  o.num < 256 ∧ o.list.length = o.num ∧ ∀ e ∈ o.list, pscPortInfoWf e

def pscPortCtrlReqWf (o : fmapi_psc_port_ctrl_req) : Prop :=
  o.ppid < 256 ∧ o.opcode < 256

def pscCfgReqWf (o : fmapi_psc_cfg_req) : Prop :=
  o.ppid < 256 ∧ o.reg < 256 ∧ o.ext < 16 ∧ o.fdbe < 16 ∧ o.type < 2 ∧
  o.data.length = 4 ∧ bytesWf o.data

def pscCfgRspWf (o : fmapi_psc_cfg_rsp) : Prop :=
  o.data.length = 4 ∧ bytesWf o.data

def vscInfoReqWf (o : fmapi_vsc_info_req) : Prop :=
  o.vppbid_start < 256 ∧ o.vppbid_limit < 256 ∧ o.num < 256 ∧
  o.vcss.length = o.num ∧ bytesWf o.vcss

def vscPpbStatBlkWf (o : fmapi_vsc_ppb_stat_blk) : Prop :=
  o.status < 256 ∧ o.ppid < 256 ∧ o.ldid < 256

def vscInfoBlkWf (o : fmapi_vsc_info_blk) : Prop :=
  o.vcsid < 256 ∧ o.state < 256 ∧ o.uspid < 256 ∧ o.total < 256 ∧ o.num < 256 ∧
  o.list.length = o.num ∧ ∀ e ∈ o.list, vscPpbStatBlkWf e

def vscInfoRspWf (o : fmapi_vsc_info_rsp) : Prop :=
  o.num < 256 ∧ o.num ≤ FM_MAX_VCS_PER_RSP ∧ o.list.length = o.num ∧
  ∀ e ∈ o.list, vscInfoBlkWf e

def vscBindReqWf (o : fmapi_vsc_bind_req) : Prop :=
  o.vcsid < 256 ∧ o.vppbid < 256 ∧ o.ppid < 256 ∧ o.ldid < 65536

def vscUnbindReqWf (o : fmapi_vsc_unbind_req) : Prop :=
  o.vcsid < 256 ∧ o.vppbid < 256 ∧ o.option < 16

def vscAerReqWf (o : fmapi_vsc_aer_req) : Prop :=
  o.vcsid < 256 ∧ o.vppbid < 256 ∧ o.error_type < 4294967296 ∧
  o.header.length = 32 ∧ bytesWf o.header

def mpcTmcReqWf (o : fmapi_mpc_tmc_req) : Prop :=
  o.ppid < 256 ∧ o.type < 256 ∧ o.len ≤ FMLN_MPC_TUNNEL_PAYLOAD ∧
  o.msg.length = o.len ∧ bytesWf o.msg

def mpcTmcRspWf (o : fmapi_mpc_tmc_rsp) : Prop :=
  o.type < 256 ∧ o.len ≤ FMLN_MPC_TUNNEL_PAYLOAD ∧
  o.msg.length = o.len ∧ bytesWf o.msg

def mpcCfgReqWf (o : fmapi_mpc_cfg_req) : Prop :=
  o.ppid < 256 ∧ o.reg < 256 ∧ o.ext < 16 ∧ o.fdbe < 16 ∧ o.type < 2 ∧
  o.ldid < 65536 ∧ o.data.length = 4 ∧ bytesWf o.data

def mpcCfgRspWf (o : fmapi_mpc_cfg_rsp) : Prop :=
  o.data.length = 4 ∧ bytesWf o.data

def mpcMemReqWf (o : fmapi_mpc_mem_req) : Prop :=
  o.ppid < 256 ∧ o.fdbe < 16 ∧ o.ldbe < 16 ∧ o.type < 2 ∧ o.ldid < 65536 ∧
  o.len ≤ FM_LD_MEM_REQ_LEN ∧ o.offset < 18446744073709551616 ∧
  o.data.length = o.len ∧ bytesWf o.data

def mpcMemRspWf (o : fmapi_mpc_mem_rsp) : Prop :=
  o.len ≤ FM_LD_MEM_REQ_LEN ∧ o.data.length = o.len ∧ bytesWf o.data

def mccInfoRspWf (o : fmapi_mcc_info_rsp) : Prop :=
  o.size < 18446744073709551616 ∧ o.num < 65536 ∧ o.epc < 2 ∧ o.ttr < 2

def mccAllocBlkWf (o : fmapi_mcc_alloc_blk) : Prop :=
  o.rng1 < 18446744073709551616 ∧ o.rng2 < 18446744073709551616

def mccAllocGetReqWf (o : fmapi_mcc_alloc_get_req) : Prop :=
  o.start < 256 ∧ o.limit < 256

def mccAllocGetRspWf (o : fmapi_mcc_alloc_get_rsp) : Prop :=
  o.total < 256 ∧ o.granularity < 256 ∧ o.start < 256 ∧
  o.num ≤ FM_MAX_NUM_LD ∧ o.list.length = o.num ∧ ∀ e ∈ o.list, mccAllocBlkWf e

def mccAllocSetReqWf (o : fmapi_mcc_alloc_set_req) : Prop :=
  o.num ≤ FM_MAX_NUM_LD ∧ o.start < 256 ∧ o.list.length = o.num ∧
  ∀ e ∈ o.list, mccAllocBlkWf e

def mccAllocSetRspWf (o : fmapi_mcc_alloc_set_rsp) : Prop :=
  o.num ≤ FM_MAX_NUM_LD ∧ o.start < 256 ∧ o.list.length = o.num ∧
  ∀ e ∈ o.list, mccAllocBlkWf e

def mccQosCtrlWf (o : fmapi_mcc_qos_ctrl) : Prop :=
  o.epc_en < 2 ∧ o.ttr_en < 2 ∧ o.egress_mod_pcnt < 256 ∧
  o.egress_sev_pcnt < 256 ∧ o.sample_interval < 256 ∧ o.rcb < 65536 ∧
  o.comp_interval < 256

def mccQosStatRspWf (o : fmapi_mcc_qos_stat_rsp) : Prop := o.bp_avg_pcnt < 256

def mccQosBwGetReqWf (o : fmapi_mcc_qos_bw_alloc_get_req) : Prop :=
  o.num < 256 ∧ o.start < 256

def mccQosBwAllocWf (o : fmapi_mcc_qos_bw_alloc) : Prop :=
  o.num ≤ FM_MAX_NUM_LD ∧ o.start < 256 ∧ o.list.length = o.num ∧ bytesWf o.list

def mccQosBwLimitGetReqWf (o : fmapi_mcc_qos_bw_limit_get_req) : Prop :=
  o.num < 256 ∧ o.start < 256

def mccQosBwLimitWf (o : fmapi_mcc_qos_bw_limit) : Prop :=
  o.num ≤ FM_MAX_NUM_LD ∧ o.start < 256 ∧ o.list.length = o.num ∧ bytesWf o.list

/-- Well-formedness of a tagged payload object. -/
def wfObj : FmObj → Prop
  | .hdr o => hdrWf o
  | .psc_id_rsp o => pscIdRspWf o
  | .psc_port_req o => pscPortReqWf o
  | .psc_port_info o => pscPortInfoWf o
  | .psc_port_rsp o => pscPortRspWf o
  | .psc_port_ctrl_req o => pscPortCtrlReqWf o
  | .psc_cfg_req o => pscCfgReqWf o
  | .psc_cfg_rsp o => pscCfgRspWf o
  | .vsc_info_req o => vscInfoReqWf o
  | .vsc_ppb_stat_blk o => vscPpbStatBlkWf o
  | .vsc_info_blk o => vscInfoBlkWf o
  | .vsc_info_rsp o => vscInfoRspWf o
  | .vsc_bind_req o => vscBindReqWf o
  | .vsc_unbind_req o => vscUnbindReqWf o
  | .vsc_aer_req o => vscAerReqWf o
  | .mpc_tmc_req o => mpcTmcReqWf o
  | .mpc_tmc_rsp o => mpcTmcRspWf o
  | .mpc_cfg_req o => mpcCfgReqWf o
  | .mpc_cfg_rsp o => mpcCfgRspWf o
  | .mpc_mem_req o => mpcMemReqWf o
  | .mpc_mem_rsp o => mpcMemRspWf o
  | .mcc_info_rsp o => mccInfoRspWf o
  | .mcc_alloc_blk o => mccAllocBlkWf o
  | .mcc_alloc_get_req o => mccAllocGetReqWf o
  | .mcc_alloc_get_rsp o => mccAllocGetRspWf o
  | .mcc_alloc_set_req o => mccAllocSetReqWf o
  | .mcc_alloc_set_rsp o => mccAllocSetRspWf o
  | .mcc_qos_ctrl o => mccQosCtrlWf o
  | .mcc_qos_stat_rsp o => mccQosStatRspWf o
  | .mcc_qos_bw_get_req o => mccQosBwGetReqWf o
  | .mcc_qos_bw_alloc o => mccQosBwAllocWf o
  | .mcc_qos_bw_limit_get_req o => mccQosBwLimitGetReqWf o
  | .mcc_qos_bw_limit o => mccQosBwLimitWf o
  | .isc_id_rsp o => iscIdRspWf o
  | .isc_msg_limit o => iscMsgLimitWf o
  | .isc_bos o => iscBosWf o

/-- The decode context matches a virtual-switch info block: the request is
within range (`vppbid_start ≤ total`) and its clamp
`min(vppbid_limit, total - vppbid_start)` equals the stored entry count. -/
def blkCtx (r : fmapi_vsc_info_req) (o : fmapi_vsc_info_blk) : Prop :=
  r.vppbid_start < 256 ∧ r.vppbid_limit < 256 ∧ r.vppbid_start ≤ o.total ∧
  min r.vppbid_limit (o.total - r.vppbid_start) = o.num

/-- The decode-context requirement of a kind: only the two virtual-switch
info kinds need the originating request. -/
def ctxOk (param : Option fmapi_vsc_info_req) : FmObj → Prop
  | .vsc_info_blk o =>
    match param with
    | some r => blkCtx r o
    | none => False
  | .vsc_info_rsp o =>
    match param with
    | some r => ∀ e ∈ o.list, blkCtx r e
    | none => False
  | _ => True

/-! ## Buffer lemmas -/

theorem copyN_apply (b : Buf) (off : Nat) (xs : List Nat) :
    ∀ n j, copyN b off xs n j =
      if off ≤ j ∧ j < off + n then xs.getD (j - off) 0 % 256 else b j := by
  intro n
  induction n with
  | zero => intro j; simp only [copyN]; rw [if_neg (by omega)]
  | succ m ih =>
    intro j
    simp only [copyN, wr]
    rcases Nat.lt_trichotomy j (off + m) with h | h | h
    · rw [if_neg (by omega), ih]
      by_cases h2 : off ≤ j ∧ j < off + m
      · rw [if_pos h2, if_pos ⟨h2.1, by omega⟩]
      · rw [if_neg h2, if_neg (by omega)]
    · have h3 : j - off = m := by omega
      rw [if_pos (by omega), if_pos (by omega), h3]
    · rw [if_neg (by omega), ih, if_neg (by omega), if_neg (by omega)]

theorem copyN_out (b : Buf) (off : Nat) (xs : List Nat) (n j : Nat)
    (h : j < off ∨ off + n ≤ j) : copyN b off xs n j = b j := by
  rw [copyN_apply, if_neg (by omega)]

theorem getD_range_map [Inhabited α] (d : α) :
    ∀ xs : List α, (List.range xs.length).map (fun i => xs.getD i d) = xs := by
  intro xs
  induction xs with
  | nil => simp
  | cons x t ih =>
    rw [List.length_cons, List.range_succ_eq_map, List.map_cons, List.map_map]
    have h1 : ((fun i => (x :: t).getD i d) ∘ Nat.succ) = (fun i => t.getD i d) := by
      funext i
      simp [List.getD_cons_succ]
    rw [h1, ih]
    simp [List.getD_cons_zero]

theorem takeEntries_self [Inhabited α] (xs : List α) :
    takeEntries xs xs.length = xs := by
  simpa [takeEntries] using getD_range_map default xs

theorem readBytes_congr (b1 b2 : Buf) (off n : Nat)
    (h : ∀ i, i < n → b1 (off + i) = b2 (off + i)) :
    readBytes b1 off n = readBytes b2 off n := by
  simp only [readBytes]
  exact List.map_congr_left (fun i hi => by
    simp only [rd]
    rw [h i (List.mem_range.mp hi)])

theorem readBytes_copyN (b : Buf) (off : Nat) (xs : List Nat) (n : Nat)
    (hlen : xs.length = n) (hb : bytesWf xs) :
    readBytes (copyN b off xs n) off n = xs := by
  subst hlen
  apply List.ext_getElem (by simp [readBytes])
  intro i h1 h2
  simp only [readBytes, List.getElem_map, List.getElem_range, rd, copyN_apply]
  rw [if_pos (by constructor <;> omega)]
  have h3 : off + i - off = i := by omega
  rw [h3, List.getD_eq_getElem xs 0 h2]
  have h4 : xs[i] < 256 := hb _ (List.getElem_mem h2)
  omega

theorem readBytes_wr_out (b : Buf) (off n i v : Nat) (h : i < off ∨ off + n ≤ i) :
    readBytes (wr b i v) off n = readBytes b off n := by
  apply readBytes_congr
  intro j hj
  simp only [wr]
  rw [if_neg (by omega)]

/-! ## Generic entry-list lemmas -/

theorem sum_map_const (xs : List α) (c : Nat) :
    (xs.map (fun _ => c)).sum = xs.length * c := by
  induction xs with
  | nil => simp
  | cons x t ih => simp [ih, Nat.succ_mul, Nat.add_comm]

theorem serListAt_sz (serE : Buf → Nat → α → Buf × Nat) (sz : α → Nat)
    (hsz : ∀ b off x, (serE b off x).2 = sz x) :
    ∀ (xs : List α) (b : Buf) (off : Nat),
      (serListAt serE b off xs).2 = (xs.map sz).sum := by
  intro xs
  induction xs with
  | nil => intro b off; simp [serListAt]
  | cons x t ih => intro b off; simp [serListAt, hsz, ih]

theorem serListAt_out (serE : Buf → Nat → α → Buf × Nat) (sz : α → Nat)
    (hsz : ∀ b off x, (serE b off x).2 = sz x)
    (hout : ∀ b off x j, j < off ∨ off + sz x ≤ j → (serE b off x).1 j = b j) :
    ∀ (xs : List α) (b : Buf) (off j : Nat),
      (j < off ∨ off + (xs.map sz).sum ≤ j) → (serListAt serE b off xs).1 j = b j := by
  intro xs
  induction xs with
  | nil => intro b off j _; simp [serListAt]
  | cons x t ih =>
    intro b off j h
    simp only [serListAt]
    have hx := hsz b off x
    simp only [List.map_cons, List.sum_cons] at h
    rcases h with h | h
    · rw [ih _ _ _ (Or.inl (by omega)), hout b off x j (Or.inl h)]
    · rw [ih _ _ _ (Or.inr (by omega)), hout b off x j (Or.inr (by omega))]

theorem desListAt_const (desE : Buf → Nat → α × Nat) (c : Nat)
    (h : ∀ b off, (desE b off).2 = c) :
    ∀ (n : Nat) (b : Buf) (off : Nat),
      (desListAt desE b off n).2 = n * c ∧ (desListAt desE b off n).1.length = n := by
  intro n
  induction n with
  | zero => intro b off; simp [desListAt]
  | succ m ih =>
    intro b off
    have := ih b (off + (desE b off).2)
    simp only [desListAt, h] at *
    constructor
    · rw [this.1]; ring
    · simp [this.2]

theorem desListAt_serListAt (serE : Buf → Nat → α → Buf × Nat)
    (desE : Buf → Nat → α × Nat) (sz : α → Nat) (P : α → Prop)
    (hsz : ∀ b off x, (serE b off x).2 = sz x)
    (hout : ∀ b off x j, j < off ∨ off + sz x ≤ j → (serE b off x).1 j = b j)
    (hrt : ∀ b off x, P x → desE (serE b off x).1 off = (x, sz x))
    (hframe : ∀ b1 b2 off, (∀ j, off ≤ j → j < off + (desE b1 off).2 → b2 j = b1 j) →
      desE b2 off = desE b1 off) :
    ∀ (xs : List α) (b : Buf) (off : Nat), (∀ x ∈ xs, P x) →
      desListAt desE (serListAt serE b off xs).1 off xs.length =
        (xs, (xs.map sz).sum) := by
  intro xs
  induction xs with
  | nil => intro b off _; simp [serListAt, desListAt]
  | cons x t ih =>
    intro b off h
    simp only [serListAt, List.length_cons, desListAt, List.map_cons, List.sum_cons]
    have hx := hsz b off x
    have hd1 : desE (serE b off x).1 off = (x, sz x) := hrt b off x (h x (by simp))
    have hagree : ∀ j, off ≤ j →
        j < off + (desE (serE b off x).1 off).2 →
        (serListAt serE (serE b off x).1 (off + (serE b off x).2) t).1 j =
          (serE b off x).1 j := by
      intro j hj1 hj2
      rw [hd1] at hj2
      exact serListAt_out serE sz hsz hout t _ _ _ (Or.inl (by omega))
    have hde : desE (serListAt serE (serE b off x).1 (off + (serE b off x).2) t).1 off =
        (x, sz x) := by
      rw [hframe (serE b off x).1 _ off hagree, hd1]
    rw [hde]
    have htail := ih (serE b off x).1 (off + (serE b off x).2) (fun y hy => h y (by simp [hy]))
    rw [hx] at htail ⊢
    rw [htail]

/-! ## Per-kind round-trip lemmas -/

theorem serPscPortInfo_out (b : Buf) (off : Nat) (o : fmapi_psc_port_info) (j : Nat)
    (h : j < off ∨ off + 16 ≤ j) : (serPscPortInfoAt b off o).1 j = b j := by
  simp only [serPscPortInfoAt, wr]
  repeat rw [if_neg (by omega)]

theorem rt_pscPortInfo (b : Buf) (off : Nat) (o : fmapi_psc_port_info)
    (h : pscPortInfoWf o) :
    desPscPortInfoAt (serPscPortInfoAt b off o).1 off = (o, 16) := by
  obtain ⟨f1, f2, f3, f4, f5, f6, f7, f8, f9, f10, f11, f12, f13, f14, f15, f16, f17⟩ := o
  obtain ⟨h1, h2, h3, h4, h5, h6, h7, h8, h9, h10, h11, h12, h13, h14, h15, h16, h17⟩ := h
  dsimp only at h1 h2 h3 h4 h5 h6 h7 h8 h9 h10 h11 h12 h13 h14 h15 h16 h17
  simp only [desPscPortInfoAt, serPscPortInfoAt, FMLN_PSC_GET_PHY_PORT_INFO, rd, wr]
  norm_num [Prod.ext_iff, fmapi_psc_port_info.mk.injEq]
  omega

theorem desPscPortInfo_frame (b1 b2 : Buf) (off : Nat)
    (h : ∀ j, off ≤ j → j < off + (desPscPortInfoAt b1 off).2 → b2 j = b1 j) :
    desPscPortInfoAt b2 off = desPscPortInfoAt b1 off := by
  have hj : ∀ k, k < 16 → b2 (off + k) = b1 (off + k) := fun k hk =>
    h _ (by omega) (by simp only [desPscPortInfoAt, FMLN_PSC_GET_PHY_PORT_INFO]; omega)
  simp only [desPscPortInfoAt, rd]
  rw [hj 0 (by norm_num), hj 1 (by norm_num), hj 2 (by norm_num), hj 4 (by norm_num),
      hj 5 (by norm_num), hj 6 (by norm_num), hj 7 (by norm_num), hj 8 (by norm_num),
      hj 9 (by norm_num), hj 10 (by norm_num), hj 11 (by norm_num), hj 12 (by norm_num),
      hj 13 (by norm_num), hj 15 (by norm_num)]

theorem rt_pscPortRsp (b : Buf) (off : Nat) (o : fmapi_psc_port_rsp)
    (h : pscPortRspWf o) :
    desPscPortRspAt (serPscPortRspAt b off o).1 off =
      (o, (serPscPortRspAt b off o).2) := by
  obtain ⟨num, list⟩ := o
  obtain ⟨h1, h2, h3⟩ := h
  dsimp only at h1 h2 h3
  subst h2
  have hents : takeEntries list list.length = list := takeEntries_self list
  simp only [serPscPortRspAt, desPscPortRspAt, FMLN_PSC_GET_PHY_PORT_RESP, hents]
  have e1 : rd (serListAt serPscPortInfoAt (wr b (off + 0) list.length) (off + 4) list).1
      (off + 0) = list.length := by
    rw [rd, serListAt_out serPscPortInfoAt (fun _ => 16) (fun _ _ _ => rfl)
          serPscPortInfo_out list _ _ _ (Or.inl (by omega))]
    simp only [wr]
    rw [if_true]
    omega
  rw [e1]
  rw [desListAt_serListAt serPscPortInfoAt desPscPortInfoAt (fun _ => 16)
    pscPortInfoWf (fun _ _ _ => rfl) serPscPortInfo_out rt_pscPortInfo
    desPscPortInfo_frame list (wr b (off + 0) list.length) (off + 4) h3]
  rw [serListAt_sz serPscPortInfoAt (fun _ => 16) (fun _ _ _ => rfl)]

theorem rd_copyN_out (b : Buf) (off2 : Nat) (xs : List Nat) (n2 j : Nat)
    (h : j < off2 ∨ off2 + n2 ≤ j) : rd (copyN b off2 xs n2) j = rd b j := by
  rw [rd, copyN_out _ _ _ _ _ h, rd]

theorem readBytes_copyN_out (b : Buf) (off n off2 : Nat) (xs : List Nat) (n2 : Nat)
    (h : off + n ≤ off2 ∨ off2 + n2 ≤ off) :
    readBytes (copyN b off2 xs n2) off n = readBytes b off n := by
  apply readBytes_congr
  intro i hi
  exact copyN_out _ _ _ _ _ (by omega)

theorem rt_pscPortReq (b : Buf) (off : Nat) (o : fmapi_psc_port_req)
    (h : pscPortReqWf o) :
    desPscPortReqAt (serPscPortReqAt b off o).1 off = (o, 1 + o.num) := by
  obtain ⟨num, ports⟩ := o
  obtain ⟨h1, h2, h3⟩ := h
  dsimp only at h1 h2 h3 ⊢
  subst h2
  simp only [serPscPortReqAt, desPscPortReqAt, FMLN_PSC_GET_PHY_PORT_REQ]
  have e1 : rd (copyN (wr b (off + 0) ports.length) (off + 1) ports ports.length)
      (off + 0) = ports.length := by
    rw [rd_copyN_out _ _ _ _ _ (by omega), rd_wr_self]
    omega
  rw [e1, readBytes_copyN _ _ _ _ rfl h3]

theorem rt_pscIdRsp (b : Buf) (off : Nat) (o : fmapi_psc_id_rsp)
    (h : pscIdRspWf o) :
    desPscIdRspAt (serPscIdRspAt b off o).1 off = (o, 93) := by
  obtain ⟨f1, f2, f3, ap, av, f6, f7, f8⟩ := o
  obtain ⟨h1, h2, h3, h4, h5, h6, h7, h8, h9, h10⟩ := h
  dsimp only at h1 h2 h3 h4 h5 h6 h7 h8 h9 h10
  simp only [serPscIdRspAt, desPscIdRspAt, FMLN_PSC_IDENTIFY_SWITCH]
  simp (disch := omega) only [rd_wr_other, rd_copyN_out, readBytes_wr_out,
    readBytes_copyN_out, rd_wr_self]
  rw [readBytes_copyN _ _ _ _ h4 h5, readBytes_copyN _ _ _ _ h6 h7]
  norm_num [Prod.ext_iff, fmapi_psc_id_rsp.mk.injEq]
  omega

theorem rt_iscBos (b : Buf) (off : Nat) (o : fmapi_isc_bos) (h : iscBosWf o) :
    desIscBosAt (serIscBosAt b off o).1 off = (o, 8) := by
  obtain ⟨f1, f2, f3, f4, f5⟩ := o
  obtain ⟨h1, h2, h3, h4, h5⟩ := h
  dsimp only at h1 h2 h3 h4 h5
  simp only [serIscBosAt, desIscBosAt, FMLN_ISC_BOS]
  simp (disch := omega) only [rd_wr_other, rd_wr_self]
  norm_num [Prod.ext_iff, fmapi_isc_bos.mk.injEq]
  omega

theorem rt_iscIdRsp (b : Buf) (off : Nat) (o : fmapi_isc_id_rsp) (h : iscIdRspWf o) :
    desIscIdRspAt (serIscIdRspAt b off o).1 off = (o, 17) := by
  obtain ⟨f1, f2, f3, f4, f5, f6⟩ := o
  obtain ⟨h1, h2, h3, h4, h5, h6⟩ := h
  dsimp only at h1 h2 h3 h4 h5 h6
  simp only [serIscIdRspAt, desIscIdRspAt, FMLN_ISC_ID_RSP]
  simp (disch := omega) only [rd_wr_other, rd_wr_self]
  norm_num [Prod.ext_iff, fmapi_isc_id_rsp.mk.injEq]
  omega

theorem rt_iscMsgLimit (b : Buf) (off : Nat) (o : fmapi_isc_msg_limit)
    (h : iscMsgLimitWf o) :
    desIscMsgLimitAt (serIscMsgLimitAt b off o).1 off = (o, 1) := by
  obtain ⟨f1⟩ := o
  simp only [iscMsgLimitWf] at h
  simp only [serIscMsgLimitAt, desIscMsgLimitAt, FMLN_ISC_MSG_LIMIT]
  simp (disch := omega) only [rd_wr_self]
  norm_num [Prod.ext_iff, fmapi_isc_msg_limit.mk.injEq]
  omega

theorem rt_pscPortCtrlReq (b : Buf) (off : Nat) (o : fmapi_psc_port_ctrl_req)
    (h : pscPortCtrlReqWf o) :
    desPscPortCtrlReqAt (serPscPortCtrlReqAt b off o).1 off = (o, 2) := by
  obtain ⟨f1, f2⟩ := o
  obtain ⟨h1, h2⟩ := h
  dsimp only at h1 h2
  simp only [serPscPortCtrlReqAt, desPscPortCtrlReqAt, FMLN_PSC_PHY_PORT_CTRL]
  simp (disch := omega) only [rd_wr_other, rd_wr_self]
  norm_num [Prod.ext_iff, fmapi_psc_port_ctrl_req.mk.injEq]
  omega

theorem rt_pscCfgReq (b : Buf) (off : Nat) (o : fmapi_psc_cfg_req)
    (h : pscCfgReqWf o) :
    desPscCfgReqAt (serPscCfgReqAt b off o).1 off = (o, 8) := by
  obtain ⟨f1, f2, f3, f4, f5, data⟩ := o
  obtain ⟨h1, h2, h3, h4, h5, h6, h7⟩ := h
  dsimp only at h1 h2 h3 h4 h5 h6 h7
  simp only [serPscCfgReqAt, desPscCfgReqAt, FMLN_PSC_PPB_IO_CFG_REQ]
  simp (disch := omega) only [rd_wr_other, rd_copyN_out, readBytes_wr_out, rd_wr_self]
  rw [readBytes_copyN _ _ _ _ h6 h7]
  norm_num [Prod.ext_iff, fmapi_psc_cfg_req.mk.injEq]
  omega

theorem rt_pscCfgRsp (b : Buf) (off : Nat) (o : fmapi_psc_cfg_rsp)
    (h : pscCfgRspWf o) :
    desPscCfgRspAt (serPscCfgRspAt b off o).1 off = (o, 4) := by
  obtain ⟨data⟩ := o
  obtain ⟨h1, h2⟩ := h
  dsimp only at h1 h2
  simp only [serPscCfgRspAt, desPscCfgRspAt, FMLN_PSC_PPB_IO_CFG_RESP]
  rw [readBytes_copyN _ _ _ _ h1 h2]

theorem rt_vscInfoReq (b : Buf) (off : Nat) (o : fmapi_vsc_info_req)
    (h : vscInfoReqWf o) :
    desVscInfoReqAt (serVscInfoReqAt b off o).1 off = (o, 3 + o.num) := by
  obtain ⟨f1, f2, num, vcss⟩ := o
  obtain ⟨h1, h2, h3, h4, h5⟩ := h
  dsimp only at h1 h2 h3 h4 h5 ⊢
  subst h4
  simp only [serVscInfoReqAt, desVscInfoReqAt, FMLN_VSC_GET_INFO_REQ]
  simp (disch := omega) only [rd_wr_other, rd_copyN_out, rd_wr_self]
  have e1 : vcss.length % 256 = vcss.length := by omega
  rw [e1, readBytes_copyN _ _ _ _ rfl h5]
  norm_num [Prod.ext_iff, fmapi_vsc_info_req.mk.injEq]
  omega

theorem rt_vscPpbStatBlk (b : Buf) (off : Nat) (o : fmapi_vsc_ppb_stat_blk)
    (h : vscPpbStatBlkWf o) :
    desVscPpbStatBlkAt (serVscPpbStatBlkAt b off o).1 off = (o, 4) := by
  obtain ⟨f1, f2, f3⟩ := o
  obtain ⟨h1, h2, h3⟩ := h
  dsimp only at h1 h2 h3
  simp only [serVscPpbStatBlkAt, desVscPpbStatBlkAt, FMLN_VSC_PPB_STATUS]
  simp (disch := omega) only [rd_wr_other, rd_wr_self]
  norm_num [Prod.ext_iff, fmapi_vsc_ppb_stat_blk.mk.injEq]
  omega

theorem rt_vscBindReq (b : Buf) (off : Nat) (o : fmapi_vsc_bind_req)
    (h : vscBindReqWf o) :
    desVscBindReqAt (serVscBindReqAt b off o).1 off = (o, 6) := by
  obtain ⟨f1, f2, f3, f4⟩ := o
  obtain ⟨h1, h2, h3, h4⟩ := h
  dsimp only at h1 h2 h3 h4
  simp only [serVscBindReqAt, desVscBindReqAt, FMLN_VSC_BIND]
  simp (disch := omega) only [rd_wr_other, rd_wr_self]
  norm_num [Prod.ext_iff, fmapi_vsc_bind_req.mk.injEq]
  omega

theorem rt_vscUnbindReq (b : Buf) (off : Nat) (o : fmapi_vsc_unbind_req)
    (h : vscUnbindReqWf o) :
    desVscUnbindReqAt (serVscUnbindReqAt b off o).1 off = (o, 3) := by
  obtain ⟨f1, f2, f3⟩ := o
  obtain ⟨h1, h2, h3⟩ := h
  dsimp only at h1 h2 h3
  simp only [serVscUnbindReqAt, desVscUnbindReqAt, FMLN_VSC_UNBIND]
  simp (disch := omega) only [rd_wr_other, rd_wr_self]
  norm_num [Prod.ext_iff, fmapi_vsc_unbind_req.mk.injEq]
  omega

theorem rt_vscAerReq (b : Buf) (off : Nat) (o : fmapi_vsc_aer_req)
    (h : vscAerReqWf o) :
    desVscAerReqAt (serVscAerReqAt b off o).1 off = (o, 40) := by
  obtain ⟨f1, f2, f3, hdr⟩ := o
  obtain ⟨h1, h2, h3, h4, h5⟩ := h
  dsimp only at h1 h2 h3 h4 h5
  simp only [serVscAerReqAt, desVscAerReqAt, FMLN_VSC_GEN_AER]
  simp (disch := omega) only [rd_wr_other, rd_copyN_out, readBytes_wr_out, rd_wr_self]
  rw [readBytes_copyN _ _ _ _ h4 h5]
  norm_num [Prod.ext_iff, fmapi_vsc_aer_req.mk.injEq]
  omega

theorem rt_mpcTmcReq (b : Buf) (off : Nat) (o : fmapi_mpc_tmc_req)
    (h : mpcTmcReqWf o) :
    desMpcTmcReqAt (serMpcTmcReqAt b off o).1 off = (o, 5 + o.len) := by
  obtain ⟨f1, len, f3, msg⟩ := o
  obtain ⟨h1, h2, h3, h4, h5⟩ := h
  simp only [FMLN_MPC_TUNNEL_PAYLOAD, FMLN_PAYLOAD, FMLN_MSG, FMLN_HDR,
    FMLN_MPC_TUNNEL_CMD_REQ] at h3
  dsimp only at h1 h2 h3 h4 h5 ⊢
  subst h4
  simp only [serMpcTmcReqAt, desMpcTmcReqAt, FMLN_MPC_TUNNEL_CMD_REQ,
    FMLN_MPC_TUNNEL_CMD_RESP]
  simp (disch := omega) only [rd_wr_other, rd_copyN_out, rd_wr_self]
  have e1 : ((((((msg.length + 1) / 256 % 256 % 256 : Nat) : Int) * 256 +
      (((msg.length + 1) % 256 % 256 : Nat) : Int) - 1) % 65536)).toNat
      = msg.length := by omega
  rw [e1, readBytes_copyN _ _ _ _ rfl h5]
  norm_num [Prod.ext_iff, fmapi_mpc_tmc_req.mk.injEq]
  omega

theorem rt_mpcTmcRsp (b : Buf) (off : Nat) (o : fmapi_mpc_tmc_rsp)
    (h : mpcTmcRspWf o) :
    desMpcTmcRspAt (serMpcTmcRspAt b off o).1 off = (o, 5 + o.len) := by
  obtain ⟨f1, len, msg⟩ := o
  obtain ⟨h1, h2, h3, h4⟩ := h
  simp only [FMLN_MPC_TUNNEL_PAYLOAD, FMLN_PAYLOAD, FMLN_MSG, FMLN_HDR,
    FMLN_MPC_TUNNEL_CMD_REQ] at h2
  dsimp only at h1 h2 h3 h4 ⊢
  subst h3
  simp only [serMpcTmcRspAt, desMpcTmcRspAt, FMLN_MPC_TUNNEL_CMD_REQ,
    FMLN_MPC_TUNNEL_CMD_RESP]
  simp (disch := omega) only [rd_wr_other, rd_copyN_out, rd_wr_self]
  have e1 : ((((((msg.length + 1) / 256 % 256 % 256 : Nat) : Int) * 256 +
      (((msg.length + 1) % 256 % 256 : Nat) : Int) - 1) % 65536)).toNat
      = msg.length := by omega
  rw [e1, readBytes_copyN _ _ _ _ rfl h4]
  norm_num [Prod.ext_iff, fmapi_mpc_tmc_rsp.mk.injEq]
  omega

theorem rt_mpcCfgReq (b : Buf) (off : Nat) (o : fmapi_mpc_cfg_req)
    (h : mpcCfgReqWf o) :
    desMpcCfgReqAt (serMpcCfgReqAt b off o).1 off = (o, 12) := by
  obtain ⟨f1, f2, f3, f4, f5, f6, data⟩ := o
  obtain ⟨h1, h2, h3, h4, h5, h6, h7, h8⟩ := h
  dsimp only at h1 h2 h3 h4 h5 h6 h7 h8
  simp only [serMpcCfgReqAt, desMpcCfgReqAt, FMLN_MPC_LD_IO_CFG_REQ]
  simp (disch := omega) only [rd_wr_other, rd_copyN_out, readBytes_wr_out, rd_wr_self]
  rw [readBytes_copyN _ _ _ _ h7 h8]
  norm_num [Prod.ext_iff, fmapi_mpc_cfg_req.mk.injEq]
  omega

theorem rt_mpcCfgRsp (b : Buf) (off : Nat) (o : fmapi_mpc_cfg_rsp)
    (h : mpcCfgRspWf o) :
    desMpcCfgRspAt (serMpcCfgRspAt b off o).1 off = (o, 4) := by
  obtain ⟨data⟩ := o
  obtain ⟨h1, h2⟩ := h
  dsimp only at h1 h2
  simp only [serMpcCfgRspAt, desMpcCfgRspAt, FMLN_MPC_LD_IO_CFG_RESP]
  rw [readBytes_copyN _ _ _ _ h1 h2]

theorem rt_mpcMemReq (b : Buf) (off : Nat) (o : fmapi_mpc_mem_req)
    (h : mpcMemReqWf o) :
    desMpcMemReqAt (serMpcMemReqAt b off o).1 off = (o, 16 + o.len) := by
  obtain ⟨f1, f2, f3, f4, f5, len, f7, data⟩ := o
  obtain ⟨h1, h2, h3, h4, h5, h6, h7, h8, h9⟩ := h
  simp only [FM_LD_MEM_REQ_LEN] at h6
  dsimp only at h1 h2 h3 h4 h5 h6 h7 h8 h9 ⊢
  subst h8
  simp only [serMpcMemReqAt, desMpcMemReqAt, FMLN_MPC_LD_MEM_REQ]
  simp (disch := omega) only [rd_wr_other, rd_copyN_out, rd_wr_self]
  have e1 : data.length / 256 % 256 % 256 * 256 + data.length % 256 % 256
      = data.length := by omega
  rw [e1, readBytes_copyN _ _ _ _ rfl h9]
  norm_num [Prod.ext_iff, fmapi_mpc_mem_req.mk.injEq]
  omega

theorem rt_mpcMemRsp (b : Buf) (off : Nat) (o : fmapi_mpc_mem_rsp)
    (h : mpcMemRspWf o) :
    desMpcMemRspAt (serMpcMemRspAt b off o).1 off = (o, 4 + o.len) := by
  obtain ⟨len, data⟩ := o
  obtain ⟨h1, h2, h3⟩ := h
  simp only [FM_LD_MEM_REQ_LEN] at h1
  dsimp only at h1 h2 h3 ⊢
  subst h2
  simp only [serMpcMemRspAt, desMpcMemRspAt, FMLN_MPC_LD_MEM_RESP]
  simp (disch := omega) only [rd_wr_other, rd_copyN_out, rd_wr_self]
  have e1 : data.length / 256 % 256 % 256 * 256 + data.length % 256 % 256
      = data.length := by omega
  rw [e1, readBytes_copyN _ _ _ _ rfl h3]

theorem rt_mccInfoRsp (b : Buf) (off : Nat) (o : fmapi_mcc_info_rsp)
    (h : mccInfoRspWf o) :
    desMccInfoRspAt (serMccInfoRspAt b off o).1 off = (o, 11) := by
  obtain ⟨f1, f2, f3, f4⟩ := o
  obtain ⟨h1, h2, h3, h4⟩ := h
  dsimp only at h1 h2 h3 h4
  simp only [serMccInfoRspAt, desMccInfoRspAt, FMLN_MCC_GET_LD_INFO]
  simp (disch := omega) only [rd_wr_other, rd_wr_self]
  norm_num [Prod.ext_iff, fmapi_mcc_info_rsp.mk.injEq]
  omega

theorem rt_mccAllocBlk (b : Buf) (off : Nat) (o : fmapi_mcc_alloc_blk)
    (h : mccAllocBlkWf o) :
    desMccAllocBlkAt (serMccAllocBlkAt b off o).1 off = (o, 16) := by
  obtain ⟨f1, f2⟩ := o
  obtain ⟨h1, h2⟩ := h
  dsimp only at h1 h2
  simp only [serMccAllocBlkAt, desMccAllocBlkAt, FMLN_MCC_LD_ALLOC_ENTRY]
  simp (disch := omega) only [rd_wr_other, rd_wr_self]
  norm_num [Prod.ext_iff, fmapi_mcc_alloc_blk.mk.injEq]
  omega

theorem rt_mccAllocGetReq (b : Buf) (off : Nat) (o : fmapi_mcc_alloc_get_req)
    (h : mccAllocGetReqWf o) :
    desMccAllocGetReqAt (serMccAllocGetReqAt b off o).1 off = (o, 2) := by
  obtain ⟨f1, f2⟩ := o
  obtain ⟨h1, h2⟩ := h
  dsimp only at h1 h2
  simp only [serMccAllocGetReqAt, desMccAllocGetReqAt, FMLN_MCC_GET_LD_ALLOC_REQ]
  simp (disch := omega) only [rd_wr_other, rd_wr_self]
  norm_num [Prod.ext_iff, fmapi_mcc_alloc_get_req.mk.injEq]
  omega

theorem rt_mccQosCtrl (b : Buf) (off : Nat) (o : fmapi_mcc_qos_ctrl)
    (h : mccQosCtrlWf o) :
    desMccQosCtrlAt (serMccQosCtrlAt b off o).1 off = (o, 7) := by
  obtain ⟨f1, f2, f3, f4, f5, f6, f7⟩ := o
  obtain ⟨h1, h2, h3, h4, h5, h6, h7⟩ := h
  dsimp only at h1 h2 h3 h4 h5 h6 h7
  simp only [serMccQosCtrlAt, desMccQosCtrlAt, FMLN_MCC_QOS_CTRL]
  simp (disch := omega) only [rd_wr_other, rd_wr_self]
  have hl00 : Nat.lor 0 0 = 0 := by decide
  have hl02 : Nat.lor 0 2 = 2 := by decide
  have hl10 : Nat.lor 1 0 = 1 := by decide
  have hl12 : Nat.lor 1 2 = 3 := by decide
  interval_cases f1 <;> interval_cases f2 <;>
    · norm_num [Prod.ext_iff, fmapi_mcc_qos_ctrl.mk.injEq, hl00, hl02, hl10, hl12]
      omega

theorem rt_mccQosStatRsp (b : Buf) (off : Nat) (o : fmapi_mcc_qos_stat_rsp)
    (h : mccQosStatRspWf o) :
    desMccQosStatRspAt (serMccQosStatRspAt b off o).1 off = (o, 1) := by
  obtain ⟨f1⟩ := o
  simp only [mccQosStatRspWf] at h
  simp only [serMccQosStatRspAt, desMccQosStatRspAt, FMLN_MCC_QOS_STATUS]
  simp (disch := omega) only [rd_wr_self]
  norm_num [Prod.ext_iff, fmapi_mcc_qos_stat_rsp.mk.injEq]
  omega

theorem rt_mccQosBwGetReq (b : Buf) (off : Nat) (o : fmapi_mcc_qos_bw_alloc_get_req)
    (h : mccQosBwGetReqWf o) :
    desMccQosBwGetReqAt (serMccQosBwGetReqAt b off o).1 off = (o, 2) := by
  obtain ⟨f1, f2⟩ := o
  obtain ⟨h1, h2⟩ := h
  dsimp only at h1 h2
  simp only [serMccQosBwGetReqAt, desMccQosBwGetReqAt, FMLN_MCC_GET_QOS_BW_REQ]
  simp (disch := omega) only [rd_wr_other, rd_wr_self]
  norm_num [Prod.ext_iff, fmapi_mcc_qos_bw_alloc_get_req.mk.injEq]
  omega

theorem rt_mccQosBwAlloc (b : Buf) (off : Nat) (o : fmapi_mcc_qos_bw_alloc)
    (h : mccQosBwAllocWf o) :
    desMccQosBwAllocAt (serMccQosBwAllocAt b off o).1 off = (o, 2 + o.num) := by
  obtain ⟨num, f2, list⟩ := o
  obtain ⟨h1, h2, h3, h4⟩ := h
  simp only [FM_MAX_NUM_LD] at h1
  dsimp only at h1 h2 h3 h4 ⊢
  subst h3
  simp only [serMccQosBwAllocAt, desMccQosBwAllocAt, FMLN_MCC_QOS_BW_ALLOC]
  simp (disch := omega) only [rd_wr_other, rd_copyN_out, rd_wr_self]
  have e1 : list.length % 256 = list.length := by omega
  rw [e1, readBytes_copyN _ _ _ _ rfl h4]
  norm_num [Prod.ext_iff, fmapi_mcc_qos_bw_alloc.mk.injEq]
  omega

theorem rt_mccQosBwLimitGetReq (b : Buf) (off : Nat)
    (o : fmapi_mcc_qos_bw_limit_get_req) (h : mccQosBwLimitGetReqWf o) :
    desMccQosBwLimitGetReqAt (serMccQosBwLimitGetReqAt b off o).1 off = (o, 2) := by
  obtain ⟨f1, f2⟩ := o
  obtain ⟨h1, h2⟩ := h
  dsimp only at h1 h2
  simp only [serMccQosBwLimitGetReqAt, desMccQosBwLimitGetReqAt,
    FMLN_MCC_GET_QOS_BW_LIMIT_REQ]
  simp (disch := omega) only [rd_wr_other, rd_wr_self]
  norm_num [Prod.ext_iff, fmapi_mcc_qos_bw_limit_get_req.mk.injEq]
  omega

theorem rt_mccQosBwLimit (b : Buf) (off : Nat) (o : fmapi_mcc_qos_bw_limit)
    (h : mccQosBwLimitWf o) :
    desMccQosBwLimitAt (serMccQosBwLimitAt b off o).1 off = (o, 2 + o.num) := by
  obtain ⟨num, f2, list⟩ := o
  obtain ⟨h1, h2, h3, h4⟩ := h
  simp only [FM_MAX_NUM_LD] at h1
  dsimp only at h1 h2 h3 h4 ⊢
  subst h3
  simp only [serMccQosBwLimitAt, desMccQosBwLimitAt, FMLN_MCC_QOS_BW_LIMIT]
  simp (disch := omega) only [rd_wr_other, rd_copyN_out, rd_wr_self]
  have e1 : list.length % 256 = list.length := by omega
  rw [e1, readBytes_copyN _ _ _ _ rfl h4]
  norm_num [Prod.ext_iff, fmapi_mcc_qos_bw_limit.mk.injEq]
  omega

theorem serVscPpbStatBlk_out (b : Buf) (off : Nat) (o : fmapi_vsc_ppb_stat_blk)
    (j : Nat) (h : j < off ∨ off + 4 ≤ j) : (serVscPpbStatBlkAt b off o).1 j = b j := by
  simp only [serVscPpbStatBlkAt, wr]
  repeat rw [if_neg (by omega)]

theorem desVscPpbStatBlk_frame (b1 b2 : Buf) (off : Nat)
    (h : ∀ j, off ≤ j → j < off + (desVscPpbStatBlkAt b1 off).2 → b2 j = b1 j) :
    desVscPpbStatBlkAt b2 off = desVscPpbStatBlkAt b1 off := by
  have hj : ∀ k, k < 4 → b2 (off + k) = b1 (off + k) := fun k hk =>
    h _ (by omega) (by simp only [desVscPpbStatBlkAt, FMLN_VSC_PPB_STATUS]; omega)
  simp only [desVscPpbStatBlkAt, rd]
  rw [hj 0 (by norm_num), hj 1 (by norm_num), hj 2 (by norm_num)]

theorem serMccAllocBlk_out (b : Buf) (off : Nat) (o : fmapi_mcc_alloc_blk)
    (j : Nat) (h : j < off ∨ off + 16 ≤ j) : (serMccAllocBlkAt b off o).1 j = b j := by
  simp only [serMccAllocBlkAt, wr]
  repeat rw [if_neg (by omega)]

theorem desMccAllocBlk_frame (b1 b2 : Buf) (off : Nat)
    (h : ∀ j, off ≤ j → j < off + (desMccAllocBlkAt b1 off).2 → b2 j = b1 j) :
    desMccAllocBlkAt b2 off = desMccAllocBlkAt b1 off := by
  have hj : ∀ k, k < 16 → b2 (off + k) = b1 (off + k) := fun k hk =>
    h _ (by omega) (by simp only [desMccAllocBlkAt, FMLN_MCC_LD_ALLOC_ENTRY]; omega)
  simp only [desMccAllocBlkAt, rd]
  rw [hj 0 (by norm_num), hj 1 (by norm_num), hj 2 (by norm_num), hj 3 (by norm_num),
      hj 4 (by norm_num), hj 5 (by norm_num), hj 6 (by norm_num), hj 7 (by norm_num),
      hj 8 (by norm_num), hj 9 (by norm_num), hj 10 (by norm_num), hj 11 (by norm_num),
      hj 12 (by norm_num), hj 13 (by norm_num), hj 14 (by norm_num), hj 15 (by norm_num)]

theorem rt_mccAllocGetRsp (b : Buf) (off : Nat) (o : fmapi_mcc_alloc_get_rsp)
    (h : mccAllocGetRspWf o) :
    desMccAllocGetRspAt (serMccAllocGetRspAt b off o).1 off =
      (o, (serMccAllocGetRspAt b off o).2) := by
  obtain ⟨f1, f2, f3, num, list⟩ := o
  obtain ⟨h1, h2, h3, h4, h5, h6⟩ := h
  simp only [FM_MAX_NUM_LD] at h4
  dsimp only at h1 h2 h3 h4 h5 h6
  subst h5
  have hents : takeEntries list list.length = list := takeEntries_self list
  simp only [serMccAllocGetRspAt, desMccAllocGetRspAt, FMLN_MCC_GET_LD_ALLOC_RSP, hents]
  have hout := serListAt_out serMccAllocBlkAt (fun _ => 16) (fun _ _ _ => rfl)
    serMccAllocBlk_out list
  have e0 : ∀ k, k < 4 →
      rd (serListAt serMccAllocBlkAt
        (wr (wr (wr (wr b (off + 0) f1) (off + 1) f2) (off + 2) f3) (off + 3) list.length)
        (off + 4) list).1 (off + k) =
      rd (wr (wr (wr (wr b (off + 0) f1) (off + 1) f2) (off + 2) f3) (off + 3) list.length)
        (off + k) := by
    intro k hk
    rw [rd, hout _ _ _ (Or.inl (by omega)), rd]
  rw [e0 3 (by norm_num)]
  simp (disch := omega) only [rd_wr_other, rd_wr_self]
  have e1 : list.length % 256 = list.length := by omega
  rw [e1]
  rw [desListAt_serListAt serMccAllocBlkAt desMccAllocBlkAt (fun _ => 16)
    mccAllocBlkWf (fun _ _ _ => rfl) serMccAllocBlk_out rt_mccAllocBlk
    desMccAllocBlk_frame list _ (off + 4) h6]
  rw [e0 0 (by norm_num), e0 1 (by norm_num), e0 2 (by norm_num)]
  simp (disch := omega) only [rd_wr_other, rd_wr_self]
  rw [serListAt_sz serMccAllocBlkAt (fun _ => 16) (fun _ _ _ => rfl)]
  norm_num [Prod.ext_iff, fmapi_mcc_alloc_get_rsp.mk.injEq]
  omega

theorem rt_mccAllocSetReq (b : Buf) (off : Nat) (o : fmapi_mcc_alloc_set_req)
    (h : mccAllocSetReqWf o) :
    desMccAllocSetReqAt (serMccAllocSetReqAt b off o).1 off =
      (o, (serMccAllocSetReqAt b off o).2) := by
  obtain ⟨num, f2, list⟩ := o
  obtain ⟨h1, h2, h3, h4⟩ := h
  simp only [FM_MAX_NUM_LD] at h1
  dsimp only at h1 h2 h3 h4
  subst h3
  have hents : takeEntries list list.length = list := takeEntries_self list
  simp only [serMccAllocSetReqAt, desMccAllocSetReqAt, FMLN_MCC_SET_LD_ALLOC_REQ, hents]
  have hout := serListAt_out serMccAllocBlkAt (fun _ => 16) (fun _ _ _ => rfl)
    serMccAllocBlk_out list
  have e0 : ∀ k, k < 4 →
      rd (serListAt serMccAllocBlkAt
        (wr (wr b (off + 0) list.length) (off + 1) f2) (off + 4) list).1 (off + k) =
      rd (wr (wr b (off + 0) list.length) (off + 1) f2) (off + k) := by
    intro k hk
    rw [rd, hout _ _ _ (Or.inl (by omega)), rd]
  rw [e0 0 (by norm_num)]
  simp (disch := omega) only [rd_wr_other, rd_wr_self]
  have e1 : list.length % 256 = list.length := by omega
  rw [e1]
  rw [desListAt_serListAt serMccAllocBlkAt desMccAllocBlkAt (fun _ => 16)
    mccAllocBlkWf (fun _ _ _ => rfl) serMccAllocBlk_out rt_mccAllocBlk
    desMccAllocBlk_frame list _ (off + 4) h4]
  rw [e0 1 (by norm_num)]
  simp (disch := omega) only [rd_wr_other, rd_wr_self]
  rw [serListAt_sz serMccAllocBlkAt (fun _ => 16) (fun _ _ _ => rfl)]
  norm_num [Prod.ext_iff, fmapi_mcc_alloc_set_req.mk.injEq]
  omega

theorem rt_mccAllocSetRsp (b : Buf) (off : Nat) (o : fmapi_mcc_alloc_set_rsp)
    (h : mccAllocSetRspWf o) :
    desMccAllocSetRspAt (serMccAllocSetRspAt b off o).1 off =
      (o, (serMccAllocSetRspAt b off o).2) := by
  obtain ⟨num, f2, list⟩ := o
  obtain ⟨h1, h2, h3, h4⟩ := h
  simp only [FM_MAX_NUM_LD] at h1
  dsimp only at h1 h2 h3 h4
  subst h3
  have hents : takeEntries list list.length = list := takeEntries_self list
  simp only [serMccAllocSetRspAt, desMccAllocSetRspAt, FMLN_MCC_SET_LD_ALLOC_RSP, hents]
  have hout := serListAt_out serMccAllocBlkAt (fun _ => 16) (fun _ _ _ => rfl)
    serMccAllocBlk_out list
  have e0 : ∀ k, k < 4 →
      rd (serListAt serMccAllocBlkAt
        (wr (wr b (off + 0) list.length) (off + 1) f2) (off + 4) list).1 (off + k) =
      rd (wr (wr b (off + 0) list.length) (off + 1) f2) (off + k) := by
    intro k hk
    rw [rd, hout _ _ _ (Or.inl (by omega)), rd]
  rw [e0 0 (by norm_num)]
  simp (disch := omega) only [rd_wr_other, rd_wr_self]
  have e1 : list.length % 256 = list.length := by omega
  rw [e1]
  rw [desListAt_serListAt serMccAllocBlkAt desMccAllocBlkAt (fun _ => 16)
    mccAllocBlkWf (fun _ _ _ => rfl) serMccAllocBlk_out rt_mccAllocBlk
    desMccAllocBlk_frame list _ (off + 4) h4]
  rw [e0 1 (by norm_num)]
  simp (disch := omega) only [rd_wr_other, rd_wr_self]
  rw [serListAt_sz serMccAllocBlkAt (fun _ => 16) (fun _ _ _ => rfl)]
  norm_num [Prod.ext_iff, fmapi_mcc_alloc_set_rsp.mk.injEq]
  omega

theorem takeEntries_length [Inhabited α] (xs : List α) (n : Nat) :
    (takeEntries xs n).length = n := by
  simp [takeEntries]

theorem desListAt_frame (desE : Buf → Nat → α × Nat)
    (hf : ∀ b1 b2 off, (∀ j, off ≤ j → j < off + (desE b1 off).2 → b2 j = b1 j) →
      desE b2 off = desE b1 off) :
    ∀ (n : Nat) (b1 b2 : Buf) (off : Nat),
      (∀ j, off ≤ j → j < off + (desListAt desE b1 off n).2 → b2 j = b1 j) →
      desListAt desE b2 off n = desListAt desE b1 off n := by
  intro n
  induction n with
  | zero => intro b1 b2 off _; rfl
  | succ m ih =>
    intro b1 b2 off h
    simp only [desListAt] at h ⊢
    have h1 : desE b2 off = desE b1 off :=
      hf b1 b2 off (fun j hj1 hj2 => h j hj1 (by omega))
    rw [h1, ih b1 b2 (off + (desE b1 off).2) (fun j hj1 hj2 => h j (by omega) (by omega))]

theorem serVscInfoBlk_sz (b : Buf) (off : Nat) (o : fmapi_vsc_info_blk) :
    (serVscInfoBlkAt b off o).2 = 4 + o.num * 4 := by
  simp only [serVscInfoBlkAt, FMLN_VSC_INFO]
  rw [serListAt_sz serVscPpbStatBlkAt (fun _ => 4) (fun _ _ _ => rfl), sum_map_const,
    takeEntries_length]

theorem serVscInfoBlk_out (b : Buf) (off : Nat) (o : fmapi_vsc_info_blk) (j : Nat)
    (h : j < off ∨ off + (4 + o.num * 4) ≤ j) : (serVscInfoBlkAt b off o).1 j = b j := by
  simp only [serVscInfoBlkAt, FMLN_VSC_INFO]
  rw [serListAt_out serVscPpbStatBlkAt (fun _ => 4) (fun _ _ _ => rfl)
    serVscPpbStatBlk_out _ _ _ _ (by rw [sum_map_const, takeEntries_length]; omega)]
  simp only [wr]
  repeat rw [if_neg (by omega)]

theorem desVscInfoBlk_cnt (pre : fmapi_vsc_info_blk) (r : fmapi_vsc_info_req)
    (b : Buf) (off : Nat) :
    (desVscInfoBlkAt pre (some r) b off).2 =
      4 + (if r.vppbid_limit <
          ((((rd b (off + 3) : Int) - (r.vppbid_start : Int)) % 256)).toNat
        then r.vppbid_limit
        else ((((rd b (off + 3) : Int) - (r.vppbid_start : Int)) % 256)).toNat) * 4 := by
  simp only [desVscInfoBlkAt, FMLN_VSC_INFO]
  rw [(desListAt_const desVscPpbStatBlkAt 4 (fun _ _ => rfl) _ _ _).1]

theorem desVscInfoBlk_frame (pre1 pre2 : fmapi_vsc_info_blk) (r : fmapi_vsc_info_req) :
    ∀ (b1 b2 : Buf) (off : Nat),
      (∀ j, off ≤ j → j < off + (desVscInfoBlkAt pre1 (some r) b1 off).2 → b2 j = b1 j) →
      desVscInfoBlkAt pre2 (some r) b2 off = desVscInfoBlkAt pre1 (some r) b1 off := by
  intro b1 b2 off h
  have hcnt := desVscInfoBlk_cnt pre1 r b1 off
  have h4 : ∀ k, k < 4 → b2 (off + k) = b1 (off + k) := fun k hk =>
    h _ (by omega) (by omega)
  have er : ∀ k, k < 4 → rd b2 (off + k) = rd b1 (off + k) := by
    intro k hk
    rw [rd, h4 k hk, rd]
  have hlen := (desListAt_const desVscPpbStatBlkAt 4 (fun _ _ => rfl)
    (if r.vppbid_limit < ((((rd b1 (off + 3) : Int) - (r.vppbid_start : Int)) % 256)).toNat
     then r.vppbid_limit
     else ((((rd b1 (off + 3) : Int) - (r.vppbid_start : Int)) % 256)).toNat)
    b1 (off + 4)).1
  have hag : ∀ j, off + 4 ≤ j →
      j < off + 4 + (desListAt desVscPpbStatBlkAt b1 (off + 4)
        (if r.vppbid_limit <
            ((((rd b1 (off + 3) : Int) - (r.vppbid_start : Int)) % 256)).toNat
         then r.vppbid_limit
         else ((((rd b1 (off + 3) : Int) - (r.vppbid_start : Int)) % 256)).toNat)).2 →
      b2 j = b1 j := by
    intro j hj1 hj2
    refine h j (by omega) ?_
    rw [hcnt]
    omega
  have hlist := desListAt_frame desVscPpbStatBlkAt desVscPpbStatBlk_frame _ b1 b2
    (off + 4) hag
  simp only [desVscInfoBlkAt, FMLN_VSC_INFO, er 0 (by norm_num), er 1 (by norm_num),
    er 2 (by norm_num), er 3 (by norm_num)]
  rw [hlist]

theorem rt_vscInfoBlk (b : Buf) (off : Nat) (o : fmapi_vsc_info_blk)
    (r : fmapi_vsc_info_req) (pre : fmapi_vsc_info_blk) (h : vscInfoBlkWf o)
    (hc : blkCtx r o) :
    desVscInfoBlkAt pre (some r) (serVscInfoBlkAt b off o).1 off =
      (o, 4 + o.num * 4) := by
  obtain ⟨vcsid, state, uspid, total, num, list⟩ := o
  obtain ⟨h1, h2, h3, h4, h5, h6, h7⟩ := h
  obtain ⟨hc1, hc2, hc3, hc4⟩ := hc
  dsimp only at h1 h2 h3 h4 h5 h6 h7 hc3 hc4 ⊢
  subst h6
  have hents : takeEntries list list.length = list := takeEntries_self list
  simp only [serVscInfoBlkAt, desVscInfoBlkAt, FMLN_VSC_INFO, hents]
  have hout := serListAt_out serVscPpbStatBlkAt (fun _ => 4) (fun _ _ _ => rfl)
    serVscPpbStatBlk_out list
  have e0 : ∀ k, k < 4 →
      rd (serListAt serVscPpbStatBlkAt
        (wr (wr (wr (wr b (off + 0) vcsid) (off + 1) state) (off + 2) uspid)
          (off + 3) total) (off + 4) list).1 (off + k) =
      rd (wr (wr (wr (wr b (off + 0) vcsid) (off + 1) state) (off + 2) uspid)
          (off + 3) total) (off + k) := by
    intro k hk
    rw [rd, hout _ _ _ (Or.inl (by omega)), rd]
  rw [e0 0 (by norm_num), e0 1 (by norm_num), e0 2 (by norm_num), e0 3 (by norm_num)]
  simp (disch := omega) only [rd_wr_other, rd_wr_self]
  have en : (((((total % 256 : Nat) : Int)) - (r.vppbid_start : Int)) % 256).toNat
      = total - r.vppbid_start := by omega
  rw [en]
  have eif : (if r.vppbid_limit < total - r.vppbid_start then r.vppbid_limit
      else total - r.vppbid_start) = list.length := by
    rcases Nat.lt_or_ge r.vppbid_limit (total - r.vppbid_start) with hl | hl
    · rw [if_pos hl]; omega
    · rw [if_neg (by omega)]; omega
  rw [eif]
  rw [desListAt_serListAt serVscPpbStatBlkAt desVscPpbStatBlkAt (fun _ => 4)
    vscPpbStatBlkWf (fun _ _ _ => rfl) serVscPpbStatBlk_out rt_vscPpbStatBlk
    desVscPpbStatBlk_frame list _ (off + 4) h7]
  rw [sum_map_const]
  norm_num [Prod.ext_iff, fmapi_vsc_info_blk.mk.injEq]
  omega

theorem desListPreAt_ignore [Inhabited α] (desE : α → Buf → Nat → α × Nat)
    (hig : ∀ e1 e2 b off, desE e1 b off = desE e2 b off) :
    ∀ (n : Nat) (pre : List α) (b : Buf) (off : Nat),
      desListPreAt desE pre b off n = desListAt (desE default) b off n := by
  intro n
  induction n with
  | zero => intro pre b off; rfl
  | succ m ih =>
    intro pre b off
    simp only [desListPreAt, desListAt, hig (pre.headD default) default]
    rw [ih]

theorem rt_vscInfoRsp (b : Buf) (off : Nat) (o : fmapi_vsc_info_rsp)
    (r : fmapi_vsc_info_req) (pre : fmapi_vsc_info_rsp) (h : vscInfoRspWf o)
    (hc : ∀ e ∈ o.list, blkCtx r e) :
    desVscInfoRspAt pre (some r) (serVscInfoRspAt b off o).1 off =
      (o, (serVscInfoRspAt b off o).2) := by
  obtain ⟨num, list⟩ := o
  obtain ⟨h1, h2, h3, h4⟩ := h
  dsimp only at h1 h2 h3 h4 hc
  subst h3
  have hents : takeEntries list list.length = list := takeEntries_self list
  simp only [serVscInfoRspAt, desVscInfoRspAt, FMLN_VSC_GET_INFO_RESP, hents]
  rw [desListPreAt_ignore (fun e => desVscInfoBlkAt e (some r))
    (fun e1 e2 b off => rfl)]
  have hsz : ∀ (b : Buf) (off : Nat) (x : fmapi_vsc_info_blk),
      (serVscInfoBlkAt b off x).2 = 4 + x.num * 4 := fun b off x =>
    serVscInfoBlk_sz b off x
  have e1 : rd (serListAt serVscInfoBlkAt (wr b (off + 0) list.length)
      (off + 4) list).1 (off + 0) = list.length := by
    rw [rd, serListAt_out serVscInfoBlkAt (fun x => 4 + x.num * 4) hsz
      serVscInfoBlk_out list _ _ _ (Or.inl (by omega))]
    simp only [wr]
    rw [if_true]
    omega
  rw [e1]
  rw [desListAt_serListAt serVscInfoBlkAt
    (fun b off => desVscInfoBlkAt default (some r) b off)
    (fun x => 4 + x.num * 4) (fun x => vscInfoBlkWf x ∧ blkCtx r x) hsz
    serVscInfoBlk_out
    (fun b off x hx => rt_vscInfoBlk b off x r default hx.1 hx.2)
    (fun b1 b2 off hh => desVscInfoBlk_frame default default r b1 b2 off hh)
    list _ (off + 4) (fun x hx => ⟨h4 x hx, hc x hx⟩)]
  rw [serListAt_sz serVscInfoBlkAt (fun x => 4 + x.num * 4) hsz]

theorem kindOf_pos_lt (x : FmObj) : kindOf x ≠ 0 ∧ kindOf x < 37 := by
  cases x <;> exact ⟨by norm_num [kindOf, FMOB_HDR, FMOB_PSC_ID_RSP, FMOB_PSC_PORT_REQ,
    FMOB_PSC_PORT_INFO, FMOB_PSC_PORT_RSP, FMOB_PSC_PORT_CTRL_REQ, FMOB_PSC_CFG_REQ,
    FMOB_PSC_CFG_RSP, FMOB_VSC_INFO_REQ, FMOB_VSC_PPB_STAT_BLK, FMOB_VSC_INFO_BLK,
    FMOB_VSC_INFO_RSP, FMOB_VSC_BIND_REQ, FMOB_VSC_UNBIND_REQ, FMOB_VSC_AER_REQ,
    FMOB_MPC_TMC_REQ, FMOB_MPC_TMC_RSP, FMOB_MPC_CFG_REQ, FMOB_MPC_CFG_RSP,
    FMOB_MPC_MEM_REQ, FMOB_MPC_MEM_RSP, FMOB_MCC_INFO_RSP, FMOB_MCC_ALLOC_BLK,
    FMOB_MCC_ALLOC_GET_REQ, FMOB_MCC_ALLOC_GET_RSP, FMOB_MCC_ALLOC_SET_REQ,
    FMOB_MCC_ALLOC_SET_RSP, FMOB_MCC_QOS_CTRL, FMOB_MCC_QOS_STAT_RSP,
    FMOB_MCC_QOS_BW_GET_REQ, FMOB_MCC_QOS_BW_ALLOC, FMOB_MCC_QOS_BW_LIMIT_GET_REQ,
    FMOB_MCC_QOS_BW_LIMIT, FMOB_ISC_ID_RSP, FMOB_ISC_MSG_LIMIT, FMOB_ISC_BOS],
    by norm_num [kindOf, FMOB_HDR, FMOB_PSC_ID_RSP, FMOB_PSC_PORT_REQ,
    FMOB_PSC_PORT_INFO, FMOB_PSC_PORT_RSP, FMOB_PSC_PORT_CTRL_REQ, FMOB_PSC_CFG_REQ,
    FMOB_PSC_CFG_RSP, FMOB_VSC_INFO_REQ, FMOB_VSC_PPB_STAT_BLK, FMOB_VSC_INFO_BLK,
    FMOB_VSC_INFO_RSP, FMOB_VSC_BIND_REQ, FMOB_VSC_UNBIND_REQ, FMOB_VSC_AER_REQ,
    FMOB_MPC_TMC_REQ, FMOB_MPC_TMC_RSP, FMOB_MPC_CFG_REQ, FMOB_MPC_CFG_RSP,
    FMOB_MPC_MEM_REQ, FMOB_MPC_MEM_RSP, FMOB_MCC_INFO_RSP, FMOB_MCC_ALLOC_BLK,
    FMOB_MCC_ALLOC_GET_REQ, FMOB_MCC_ALLOC_GET_RSP, FMOB_MCC_ALLOC_SET_REQ,
    FMOB_MCC_ALLOC_SET_RSP, FMOB_MCC_QOS_CTRL, FMOB_MCC_QOS_STAT_RSP,
    FMOB_MCC_QOS_BW_GET_REQ, FMOB_MCC_QOS_BW_ALLOC, FMOB_MCC_QOS_BW_LIMIT_GET_REQ,
    FMOB_MCC_QOS_BW_LIMIT, FMOB_ISC_ID_RSP, FMOB_ISC_MSG_LIMIT, FMOB_ISC_BOS]⟩

theorem fmapi_serialize_val (b : Buf) (x : FmObj) :
    fmapi_serialize (some b) (some x) (kindOf x) =
      some (some (serializeAt b 0 x).1, ((serializeAt b 0 x).2 : Int)) := by
  have h := kindOf_pos_lt x
  simp only [fmapi_serialize, FMOB_NULL, FMOB_MAX]
  rw [if_neg (by omega), if_true]

theorem fmapi_deserialize_val (pre : FmObj) (s : Buf) (k : Nat)
    (param : Option fmapi_vsc_info_req) (hk : k < 37) (hk0 : k ≠ 0)
    (x : FmObj) (n : Nat)
    (hd : deserializeAt pre s 0 k param = some (x, n)) :
    fmapi_deserialize (some pre) (some s) k param = some (some x, (n : Int)) := by
  simp only [fmapi_deserialize, FMOB_NULL, FMOB_MAX]
  rw [if_neg (by simp; omega), if_neg hk0, hd]

/-- Claim C1: for every kind in the enumeration and every well-formed
in-memory instance of that kind (fields within wire widths, list counts
within capacity and matching the stored lists, and, for the two
context-dependent virtual-switch info kinds, a decode context whose
min(limit, total - start) clamp matches each stored list length),
serializing with `fmapi_serialize` and deserializing the produced bytes
with `fmapi_deserialize` for the same kind yields the original object, and
the byte count returned by deserialize equals the byte count returned by
serialize.  `pre` is the arbitrary prior content of the destination object
(matching the kind, as the C API requires). -/
theorem fmapi_object_roundtrip (x pre : FmObj) (b : Buf)
    (param : Option fmapi_vsc_info_req)
    (hwf : wfObj x) (hctx : ctxOk param x) (hpre : kindOf pre = kindOf x) :
    ∃ (bout : Buf) (n : Int),
      fmapi_serialize (some b) (some x) (kindOf x) = some (some bout, n) ∧
      fmapi_deserialize (some pre) (some bout) (kindOf x) param =
        some (some x, n) := by
  cases x with
  | hdr o =>
    refine ⟨(serializeAt b 0 (FmObj.hdr o)).1, ((serializeAt b 0 (FmObj.hdr o)).2 : Int),
      fmapi_serialize_val b (FmObj.hdr o), ?_⟩
    refine fmapi_deserialize_val pre _ _ param (kindOf_pos_lt _).2 (kindOf_pos_lt _).1
      _ _ ?_
    show some (FmObj.hdr (desHdrAt (serHdrAt b 0 o).1 0).1, (desHdrAt (serHdrAt b 0 o).1 0).2) = _
    rw [serHdr_roundtrip b 0 o hwf]
    rfl
  | psc_id_rsp o =>
    refine ⟨(serializeAt b 0 (FmObj.psc_id_rsp o)).1, ((serializeAt b 0 (FmObj.psc_id_rsp o)).2 : Int),
      fmapi_serialize_val b (FmObj.psc_id_rsp o), ?_⟩
    refine fmapi_deserialize_val pre _ _ param (kindOf_pos_lt _).2 (kindOf_pos_lt _).1
      _ _ ?_
    show some (FmObj.psc_id_rsp (desPscIdRspAt (serPscIdRspAt b 0 o).1 0).1, (desPscIdRspAt (serPscIdRspAt b 0 o).1 0).2) = _
    rw [rt_pscIdRsp b 0 o hwf]
    rfl
  | psc_port_req o =>
    refine ⟨(serializeAt b 0 (FmObj.psc_port_req o)).1, ((serializeAt b 0 (FmObj.psc_port_req o)).2 : Int),
      fmapi_serialize_val b (FmObj.psc_port_req o), ?_⟩
    refine fmapi_deserialize_val pre _ _ param (kindOf_pos_lt _).2 (kindOf_pos_lt _).1
      _ _ ?_
    show some (FmObj.psc_port_req (desPscPortReqAt (serPscPortReqAt b 0 o).1 0).1, (desPscPortReqAt (serPscPortReqAt b 0 o).1 0).2) = _
    rw [rt_pscPortReq b 0 o hwf]
    rfl
  | psc_port_info o =>
    refine ⟨(serializeAt b 0 (FmObj.psc_port_info o)).1, ((serializeAt b 0 (FmObj.psc_port_info o)).2 : Int),
      fmapi_serialize_val b (FmObj.psc_port_info o), ?_⟩
    refine fmapi_deserialize_val pre _ _ param (kindOf_pos_lt _).2 (kindOf_pos_lt _).1
      _ _ ?_
    show some (FmObj.psc_port_info (desPscPortInfoAt (serPscPortInfoAt b 0 o).1 0).1, (desPscPortInfoAt (serPscPortInfoAt b 0 o).1 0).2) = _
    rw [rt_pscPortInfo b 0 o hwf]
    rfl
  | psc_port_rsp o =>
    refine ⟨(serializeAt b 0 (FmObj.psc_port_rsp o)).1, ((serializeAt b 0 (FmObj.psc_port_rsp o)).2 : Int),
      fmapi_serialize_val b (FmObj.psc_port_rsp o), ?_⟩
    refine fmapi_deserialize_val pre _ _ param (kindOf_pos_lt _).2 (kindOf_pos_lt _).1
      _ _ ?_
    show some (FmObj.psc_port_rsp (desPscPortRspAt (serPscPortRspAt b 0 o).1 0).1, (desPscPortRspAt (serPscPortRspAt b 0 o).1 0).2) = _
    rw [rt_pscPortRsp b 0 o hwf]
    rfl
  | psc_port_ctrl_req o =>
    refine ⟨(serializeAt b 0 (FmObj.psc_port_ctrl_req o)).1, ((serializeAt b 0 (FmObj.psc_port_ctrl_req o)).2 : Int),
      fmapi_serialize_val b (FmObj.psc_port_ctrl_req o), ?_⟩
    refine fmapi_deserialize_val pre _ _ param (kindOf_pos_lt _).2 (kindOf_pos_lt _).1
      _ _ ?_
    show some (FmObj.psc_port_ctrl_req (desPscPortCtrlReqAt (serPscPortCtrlReqAt b 0 o).1 0).1, (desPscPortCtrlReqAt (serPscPortCtrlReqAt b 0 o).1 0).2) = _
    rw [rt_pscPortCtrlReq b 0 o hwf]
    rfl
  | psc_cfg_req o =>
    refine ⟨(serializeAt b 0 (FmObj.psc_cfg_req o)).1, ((serializeAt b 0 (FmObj.psc_cfg_req o)).2 : Int),
      fmapi_serialize_val b (FmObj.psc_cfg_req o), ?_⟩
    refine fmapi_deserialize_val pre _ _ param (kindOf_pos_lt _).2 (kindOf_pos_lt _).1
      _ _ ?_
    show some (FmObj.psc_cfg_req (desPscCfgReqAt (serPscCfgReqAt b 0 o).1 0).1, (desPscCfgReqAt (serPscCfgReqAt b 0 o).1 0).2) = _
    rw [rt_pscCfgReq b 0 o hwf]
    rfl
  | psc_cfg_rsp o =>
    refine ⟨(serializeAt b 0 (FmObj.psc_cfg_rsp o)).1, ((serializeAt b 0 (FmObj.psc_cfg_rsp o)).2 : Int),
      fmapi_serialize_val b (FmObj.psc_cfg_rsp o), ?_⟩
    refine fmapi_deserialize_val pre _ _ param (kindOf_pos_lt _).2 (kindOf_pos_lt _).1
      _ _ ?_
    show some (FmObj.psc_cfg_rsp (desPscCfgRspAt (serPscCfgRspAt b 0 o).1 0).1, (desPscCfgRspAt (serPscCfgRspAt b 0 o).1 0).2) = _
    rw [rt_pscCfgRsp b 0 o hwf]
    rfl
  | vsc_info_req o =>
    refine ⟨(serializeAt b 0 (FmObj.vsc_info_req o)).1, ((serializeAt b 0 (FmObj.vsc_info_req o)).2 : Int),
      fmapi_serialize_val b (FmObj.vsc_info_req o), ?_⟩
    refine fmapi_deserialize_val pre _ _ param (kindOf_pos_lt _).2 (kindOf_pos_lt _).1
      _ _ ?_
    show some (FmObj.vsc_info_req (desVscInfoReqAt (serVscInfoReqAt b 0 o).1 0).1, (desVscInfoReqAt (serVscInfoReqAt b 0 o).1 0).2) = _
    rw [rt_vscInfoReq b 0 o hwf]
    rfl
  | vsc_ppb_stat_blk o =>
    refine ⟨(serializeAt b 0 (FmObj.vsc_ppb_stat_blk o)).1, ((serializeAt b 0 (FmObj.vsc_ppb_stat_blk o)).2 : Int),
      fmapi_serialize_val b (FmObj.vsc_ppb_stat_blk o), ?_⟩
    refine fmapi_deserialize_val pre _ _ param (kindOf_pos_lt _).2 (kindOf_pos_lt _).1
      _ _ ?_
    show some (FmObj.vsc_ppb_stat_blk (desVscPpbStatBlkAt (serVscPpbStatBlkAt b 0 o).1 0).1, (desVscPpbStatBlkAt (serVscPpbStatBlkAt b 0 o).1 0).2) = _
    rw [rt_vscPpbStatBlk b 0 o hwf]
    rfl
  | vsc_bind_req o =>
    refine ⟨(serializeAt b 0 (FmObj.vsc_bind_req o)).1, ((serializeAt b 0 (FmObj.vsc_bind_req o)).2 : Int),
      fmapi_serialize_val b (FmObj.vsc_bind_req o), ?_⟩
    refine fmapi_deserialize_val pre _ _ param (kindOf_pos_lt _).2 (kindOf_pos_lt _).1
      _ _ ?_
    show some (FmObj.vsc_bind_req (desVscBindReqAt (serVscBindReqAt b 0 o).1 0).1, (desVscBindReqAt (serVscBindReqAt b 0 o).1 0).2) = _
    rw [rt_vscBindReq b 0 o hwf]
    rfl
  | vsc_unbind_req o =>
    refine ⟨(serializeAt b 0 (FmObj.vsc_unbind_req o)).1, ((serializeAt b 0 (FmObj.vsc_unbind_req o)).2 : Int),
      fmapi_serialize_val b (FmObj.vsc_unbind_req o), ?_⟩
    refine fmapi_deserialize_val pre _ _ param (kindOf_pos_lt _).2 (kindOf_pos_lt _).1
      _ _ ?_
    show some (FmObj.vsc_unbind_req (desVscUnbindReqAt (serVscUnbindReqAt b 0 o).1 0).1, (desVscUnbindReqAt (serVscUnbindReqAt b 0 o).1 0).2) = _
    rw [rt_vscUnbindReq b 0 o hwf]
    rfl
  | vsc_aer_req o =>
    refine ⟨(serializeAt b 0 (FmObj.vsc_aer_req o)).1, ((serializeAt b 0 (FmObj.vsc_aer_req o)).2 : Int),
      fmapi_serialize_val b (FmObj.vsc_aer_req o), ?_⟩
    refine fmapi_deserialize_val pre _ _ param (kindOf_pos_lt _).2 (kindOf_pos_lt _).1
      _ _ ?_
    show some (FmObj.vsc_aer_req (desVscAerReqAt (serVscAerReqAt b 0 o).1 0).1, (desVscAerReqAt (serVscAerReqAt b 0 o).1 0).2) = _
    rw [rt_vscAerReq b 0 o hwf]
    rfl
  | mpc_tmc_req o =>
    refine ⟨(serializeAt b 0 (FmObj.mpc_tmc_req o)).1, ((serializeAt b 0 (FmObj.mpc_tmc_req o)).2 : Int),
      fmapi_serialize_val b (FmObj.mpc_tmc_req o), ?_⟩
    refine fmapi_deserialize_val pre _ _ param (kindOf_pos_lt _).2 (kindOf_pos_lt _).1
      _ _ ?_
    show some (FmObj.mpc_tmc_req (desMpcTmcReqAt (serMpcTmcReqAt b 0 o).1 0).1, (desMpcTmcReqAt (serMpcTmcReqAt b 0 o).1 0).2) = _
    rw [rt_mpcTmcReq b 0 o hwf]
    rfl
  | mpc_tmc_rsp o =>
    refine ⟨(serializeAt b 0 (FmObj.mpc_tmc_rsp o)).1, ((serializeAt b 0 (FmObj.mpc_tmc_rsp o)).2 : Int),
      fmapi_serialize_val b (FmObj.mpc_tmc_rsp o), ?_⟩
    refine fmapi_deserialize_val pre _ _ param (kindOf_pos_lt _).2 (kindOf_pos_lt _).1
      _ _ ?_
    show some (FmObj.mpc_tmc_rsp (desMpcTmcRspAt (serMpcTmcRspAt b 0 o).1 0).1, (desMpcTmcRspAt (serMpcTmcRspAt b 0 o).1 0).2) = _
    rw [rt_mpcTmcRsp b 0 o hwf]
    rfl
  | mpc_cfg_req o =>
    refine ⟨(serializeAt b 0 (FmObj.mpc_cfg_req o)).1, ((serializeAt b 0 (FmObj.mpc_cfg_req o)).2 : Int),
      fmapi_serialize_val b (FmObj.mpc_cfg_req o), ?_⟩
    refine fmapi_deserialize_val pre _ _ param (kindOf_pos_lt _).2 (kindOf_pos_lt _).1
      _ _ ?_
    show some (FmObj.mpc_cfg_req (desMpcCfgReqAt (serMpcCfgReqAt b 0 o).1 0).1, (desMpcCfgReqAt (serMpcCfgReqAt b 0 o).1 0).2) = _
    rw [rt_mpcCfgReq b 0 o hwf]
    rfl
  | mpc_cfg_rsp o =>
    refine ⟨(serializeAt b 0 (FmObj.mpc_cfg_rsp o)).1, ((serializeAt b 0 (FmObj.mpc_cfg_rsp o)).2 : Int),
      fmapi_serialize_val b (FmObj.mpc_cfg_rsp o), ?_⟩
    refine fmapi_deserialize_val pre _ _ param (kindOf_pos_lt _).2 (kindOf_pos_lt _).1
      _ _ ?_
    show some (FmObj.mpc_cfg_rsp (desMpcCfgRspAt (serMpcCfgRspAt b 0 o).1 0).1, (desMpcCfgRspAt (serMpcCfgRspAt b 0 o).1 0).2) = _
    rw [rt_mpcCfgRsp b 0 o hwf]
    rfl
  | mpc_mem_req o =>
    refine ⟨(serializeAt b 0 (FmObj.mpc_mem_req o)).1, ((serializeAt b 0 (FmObj.mpc_mem_req o)).2 : Int),
      fmapi_serialize_val b (FmObj.mpc_mem_req o), ?_⟩
    refine fmapi_deserialize_val pre _ _ param (kindOf_pos_lt _).2 (kindOf_pos_lt _).1
      _ _ ?_
    show some (FmObj.mpc_mem_req (desMpcMemReqAt (serMpcMemReqAt b 0 o).1 0).1, (desMpcMemReqAt (serMpcMemReqAt b 0 o).1 0).2) = _
    rw [rt_mpcMemReq b 0 o hwf]
    rfl
  | mpc_mem_rsp o =>
    refine ⟨(serializeAt b 0 (FmObj.mpc_mem_rsp o)).1, ((serializeAt b 0 (FmObj.mpc_mem_rsp o)).2 : Int),
      fmapi_serialize_val b (FmObj.mpc_mem_rsp o), ?_⟩
    refine fmapi_deserialize_val pre _ _ param (kindOf_pos_lt _).2 (kindOf_pos_lt _).1
      _ _ ?_
    show some (FmObj.mpc_mem_rsp (desMpcMemRspAt (serMpcMemRspAt b 0 o).1 0).1, (desMpcMemRspAt (serMpcMemRspAt b 0 o).1 0).2) = _
    rw [rt_mpcMemRsp b 0 o hwf]
    rfl
  | mcc_info_rsp o =>
    refine ⟨(serializeAt b 0 (FmObj.mcc_info_rsp o)).1, ((serializeAt b 0 (FmObj.mcc_info_rsp o)).2 : Int),
      fmapi_serialize_val b (FmObj.mcc_info_rsp o), ?_⟩
    refine fmapi_deserialize_val pre _ _ param (kindOf_pos_lt _).2 (kindOf_pos_lt _).1
      _ _ ?_
    show some (FmObj.mcc_info_rsp (desMccInfoRspAt (serMccInfoRspAt b 0 o).1 0).1, (desMccInfoRspAt (serMccInfoRspAt b 0 o).1 0).2) = _
    rw [rt_mccInfoRsp b 0 o hwf]
    rfl
  | mcc_alloc_blk o =>
    refine ⟨(serializeAt b 0 (FmObj.mcc_alloc_blk o)).1, ((serializeAt b 0 (FmObj.mcc_alloc_blk o)).2 : Int),
      fmapi_serialize_val b (FmObj.mcc_alloc_blk o), ?_⟩
    refine fmapi_deserialize_val pre _ _ param (kindOf_pos_lt _).2 (kindOf_pos_lt _).1
      _ _ ?_
    show some (FmObj.mcc_alloc_blk (desMccAllocBlkAt (serMccAllocBlkAt b 0 o).1 0).1, (desMccAllocBlkAt (serMccAllocBlkAt b 0 o).1 0).2) = _
    rw [rt_mccAllocBlk b 0 o hwf]
    rfl
  | mcc_alloc_get_req o =>
    refine ⟨(serializeAt b 0 (FmObj.mcc_alloc_get_req o)).1, ((serializeAt b 0 (FmObj.mcc_alloc_get_req o)).2 : Int),
      fmapi_serialize_val b (FmObj.mcc_alloc_get_req o), ?_⟩
    refine fmapi_deserialize_val pre _ _ param (kindOf_pos_lt _).2 (kindOf_pos_lt _).1
      _ _ ?_
    show some (FmObj.mcc_alloc_get_req (desMccAllocGetReqAt (serMccAllocGetReqAt b 0 o).1 0).1, (desMccAllocGetReqAt (serMccAllocGetReqAt b 0 o).1 0).2) = _
    rw [rt_mccAllocGetReq b 0 o hwf]
    rfl
  | mcc_alloc_get_rsp o =>
    refine ⟨(serializeAt b 0 (FmObj.mcc_alloc_get_rsp o)).1, ((serializeAt b 0 (FmObj.mcc_alloc_get_rsp o)).2 : Int),
      fmapi_serialize_val b (FmObj.mcc_alloc_get_rsp o), ?_⟩
    refine fmapi_deserialize_val pre _ _ param (kindOf_pos_lt _).2 (kindOf_pos_lt _).1
      _ _ ?_
    show some (FmObj.mcc_alloc_get_rsp (desMccAllocGetRspAt (serMccAllocGetRspAt b 0 o).1 0).1, (desMccAllocGetRspAt (serMccAllocGetRspAt b 0 o).1 0).2) = _
    rw [rt_mccAllocGetRsp b 0 o hwf]
    rfl
  | mcc_alloc_set_req o =>
    refine ⟨(serializeAt b 0 (FmObj.mcc_alloc_set_req o)).1, ((serializeAt b 0 (FmObj.mcc_alloc_set_req o)).2 : Int),
      fmapi_serialize_val b (FmObj.mcc_alloc_set_req o), ?_⟩
    refine fmapi_deserialize_val pre _ _ param (kindOf_pos_lt _).2 (kindOf_pos_lt _).1
      _ _ ?_
    show some (FmObj.mcc_alloc_set_req (desMccAllocSetReqAt (serMccAllocSetReqAt b 0 o).1 0).1, (desMccAllocSetReqAt (serMccAllocSetReqAt b 0 o).1 0).2) = _
    rw [rt_mccAllocSetReq b 0 o hwf]
    rfl
  | mcc_alloc_set_rsp o =>
    refine ⟨(serializeAt b 0 (FmObj.mcc_alloc_set_rsp o)).1, ((serializeAt b 0 (FmObj.mcc_alloc_set_rsp o)).2 : Int),
      fmapi_serialize_val b (FmObj.mcc_alloc_set_rsp o), ?_⟩
    refine fmapi_deserialize_val pre _ _ param (kindOf_pos_lt _).2 (kindOf_pos_lt _).1
      _ _ ?_
    show some (FmObj.mcc_alloc_set_rsp (desMccAllocSetRspAt (serMccAllocSetRspAt b 0 o).1 0).1, (desMccAllocSetRspAt (serMccAllocSetRspAt b 0 o).1 0).2) = _
    rw [rt_mccAllocSetRsp b 0 o hwf]
    rfl
  | mcc_qos_ctrl o =>
    refine ⟨(serializeAt b 0 (FmObj.mcc_qos_ctrl o)).1, ((serializeAt b 0 (FmObj.mcc_qos_ctrl o)).2 : Int),
      fmapi_serialize_val b (FmObj.mcc_qos_ctrl o), ?_⟩
    refine fmapi_deserialize_val pre _ _ param (kindOf_pos_lt _).2 (kindOf_pos_lt _).1
      _ _ ?_
    show some (FmObj.mcc_qos_ctrl (desMccQosCtrlAt (serMccQosCtrlAt b 0 o).1 0).1, (desMccQosCtrlAt (serMccQosCtrlAt b 0 o).1 0).2) = _
    rw [rt_mccQosCtrl b 0 o hwf]
    rfl
  | mcc_qos_stat_rsp o =>
    refine ⟨(serializeAt b 0 (FmObj.mcc_qos_stat_rsp o)).1, ((serializeAt b 0 (FmObj.mcc_qos_stat_rsp o)).2 : Int),
      fmapi_serialize_val b (FmObj.mcc_qos_stat_rsp o), ?_⟩
    refine fmapi_deserialize_val pre _ _ param (kindOf_pos_lt _).2 (kindOf_pos_lt _).1
      _ _ ?_
    show some (FmObj.mcc_qos_stat_rsp (desMccQosStatRspAt (serMccQosStatRspAt b 0 o).1 0).1, (desMccQosStatRspAt (serMccQosStatRspAt b 0 o).1 0).2) = _
    rw [rt_mccQosStatRsp b 0 o hwf]
    rfl
  | mcc_qos_bw_get_req o =>
    refine ⟨(serializeAt b 0 (FmObj.mcc_qos_bw_get_req o)).1, ((serializeAt b 0 (FmObj.mcc_qos_bw_get_req o)).2 : Int),
      fmapi_serialize_val b (FmObj.mcc_qos_bw_get_req o), ?_⟩
    refine fmapi_deserialize_val pre _ _ param (kindOf_pos_lt _).2 (kindOf_pos_lt _).1
      _ _ ?_
    show some (FmObj.mcc_qos_bw_get_req (desMccQosBwGetReqAt (serMccQosBwGetReqAt b 0 o).1 0).1, (desMccQosBwGetReqAt (serMccQosBwGetReqAt b 0 o).1 0).2) = _
    rw [rt_mccQosBwGetReq b 0 o hwf]
    rfl
  | mcc_qos_bw_alloc o =>
    refine ⟨(serializeAt b 0 (FmObj.mcc_qos_bw_alloc o)).1, ((serializeAt b 0 (FmObj.mcc_qos_bw_alloc o)).2 : Int),
      fmapi_serialize_val b (FmObj.mcc_qos_bw_alloc o), ?_⟩
    refine fmapi_deserialize_val pre _ _ param (kindOf_pos_lt _).2 (kindOf_pos_lt _).1
      _ _ ?_
    show some (FmObj.mcc_qos_bw_alloc (desMccQosBwAllocAt (serMccQosBwAllocAt b 0 o).1 0).1, (desMccQosBwAllocAt (serMccQosBwAllocAt b 0 o).1 0).2) = _
    rw [rt_mccQosBwAlloc b 0 o hwf]
    rfl
  | mcc_qos_bw_limit_get_req o =>
    refine ⟨(serializeAt b 0 (FmObj.mcc_qos_bw_limit_get_req o)).1, ((serializeAt b 0 (FmObj.mcc_qos_bw_limit_get_req o)).2 : Int),
      fmapi_serialize_val b (FmObj.mcc_qos_bw_limit_get_req o), ?_⟩
    refine fmapi_deserialize_val pre _ _ param (kindOf_pos_lt _).2 (kindOf_pos_lt _).1
      _ _ ?_
    show some (FmObj.mcc_qos_bw_limit_get_req (desMccQosBwLimitGetReqAt (serMccQosBwLimitGetReqAt b 0 o).1 0).1, (desMccQosBwLimitGetReqAt (serMccQosBwLimitGetReqAt b 0 o).1 0).2) = _
    rw [rt_mccQosBwLimitGetReq b 0 o hwf]
    rfl
  | mcc_qos_bw_limit o =>
    refine ⟨(serializeAt b 0 (FmObj.mcc_qos_bw_limit o)).1, ((serializeAt b 0 (FmObj.mcc_qos_bw_limit o)).2 : Int),
      fmapi_serialize_val b (FmObj.mcc_qos_bw_limit o), ?_⟩
    refine fmapi_deserialize_val pre _ _ param (kindOf_pos_lt _).2 (kindOf_pos_lt _).1
      _ _ ?_
    show some (FmObj.mcc_qos_bw_limit (desMccQosBwLimitAt (serMccQosBwLimitAt b 0 o).1 0).1, (desMccQosBwLimitAt (serMccQosBwLimitAt b 0 o).1 0).2) = _
    rw [rt_mccQosBwLimit b 0 o hwf]
    rfl
  | isc_id_rsp o =>
    refine ⟨(serializeAt b 0 (FmObj.isc_id_rsp o)).1, ((serializeAt b 0 (FmObj.isc_id_rsp o)).2 : Int),
      fmapi_serialize_val b (FmObj.isc_id_rsp o), ?_⟩
    refine fmapi_deserialize_val pre _ _ param (kindOf_pos_lt _).2 (kindOf_pos_lt _).1
      _ _ ?_
    show some (FmObj.isc_id_rsp (desIscIdRspAt (serIscIdRspAt b 0 o).1 0).1, (desIscIdRspAt (serIscIdRspAt b 0 o).1 0).2) = _
    rw [rt_iscIdRsp b 0 o hwf]
    rfl
  | isc_msg_limit o =>
    refine ⟨(serializeAt b 0 (FmObj.isc_msg_limit o)).1, ((serializeAt b 0 (FmObj.isc_msg_limit o)).2 : Int),
      fmapi_serialize_val b (FmObj.isc_msg_limit o), ?_⟩
    refine fmapi_deserialize_val pre _ _ param (kindOf_pos_lt _).2 (kindOf_pos_lt _).1
      _ _ ?_
    show some (FmObj.isc_msg_limit (desIscMsgLimitAt (serIscMsgLimitAt b 0 o).1 0).1, (desIscMsgLimitAt (serIscMsgLimitAt b 0 o).1 0).2) = _
    rw [rt_iscMsgLimit b 0 o hwf]
    rfl
  | isc_bos o =>
    refine ⟨(serializeAt b 0 (FmObj.isc_bos o)).1, ((serializeAt b 0 (FmObj.isc_bos o)).2 : Int),
      fmapi_serialize_val b (FmObj.isc_bos o), ?_⟩
    refine fmapi_deserialize_val pre _ _ param (kindOf_pos_lt _).2 (kindOf_pos_lt _).1
      _ _ ?_
    show some (FmObj.isc_bos (desIscBosAt (serIscBosAt b 0 o).1 0).1, (desIscBosAt (serIscBosAt b 0 o).1 0).2) = _
    rw [rt_iscBos b 0 o hwf]
    rfl
  | vsc_info_blk o =>
    rcases param with _ | r
    · exact hctx.elim
    refine ⟨(serializeAt b 0 (FmObj.vsc_info_blk o)).1,
      ((serializeAt b 0 (FmObj.vsc_info_blk o)).2 : Int),
      fmapi_serialize_val b (FmObj.vsc_info_blk o), ?_⟩
    refine fmapi_deserialize_val pre _ _ (some r) (kindOf_pos_lt _).2 (kindOf_pos_lt _).1
      _ _ ?_
    show some (FmObj.vsc_info_blk
        (desVscInfoBlkAt default (some r) (serVscInfoBlkAt b 0 o).1 0).1,
        (desVscInfoBlkAt default (some r) (serVscInfoBlkAt b 0 o).1 0).2) = _
    rw [rt_vscInfoBlk b 0 o r default hwf hctx,
      show (serializeAt b 0 (FmObj.vsc_info_blk o)).2 = 4 + o.num * 4 from
        serVscInfoBlk_sz b 0 o]
  | vsc_info_rsp o =>
    rcases param with _ | r
    · exact hctx.elim
    cases pre
    case vsc_info_rsp p =>
      refine ⟨(serializeAt b 0 (FmObj.vsc_info_rsp o)).1,
        ((serializeAt b 0 (FmObj.vsc_info_rsp o)).2 : Int),
        fmapi_serialize_val b (FmObj.vsc_info_rsp o), ?_⟩
      refine fmapi_deserialize_val (FmObj.vsc_info_rsp p) _ _ (some r)
        (kindOf_pos_lt _).2 (kindOf_pos_lt _).1 _ _ ?_
      show some (FmObj.vsc_info_rsp
          (desVscInfoRspAt p (some r) (serVscInfoRspAt b 0 o).1 0).1,
          (desVscInfoRspAt p (some r) (serVscInfoRspAt b 0 o).1 0).2) = _
      rw [rt_vscInfoRsp b 0 o r p hwf hctx]
      rfl
    all_goals simp only [kindOf, FMOB_HDR, FMOB_PSC_ID_RSP, FMOB_PSC_PORT_REQ, FMOB_PSC_PORT_INFO, FMOB_PSC_PORT_RSP, FMOB_PSC_PORT_CTRL_REQ, FMOB_PSC_CFG_REQ, FMOB_PSC_CFG_RSP, FMOB_VSC_INFO_REQ, FMOB_VSC_PPB_STAT_BLK, FMOB_VSC_INFO_BLK, FMOB_VSC_INFO_RSP, FMOB_VSC_BIND_REQ, FMOB_VSC_UNBIND_REQ, FMOB_VSC_AER_REQ, FMOB_MPC_TMC_REQ, FMOB_MPC_TMC_RSP, FMOB_MPC_CFG_REQ, FMOB_MPC_CFG_RSP, FMOB_MPC_MEM_REQ, FMOB_MPC_MEM_RSP, FMOB_MCC_INFO_RSP, FMOB_MCC_ALLOC_BLK, FMOB_MCC_ALLOC_GET_REQ, FMOB_MCC_ALLOC_GET_RSP, FMOB_MCC_ALLOC_SET_REQ, FMOB_MCC_ALLOC_SET_RSP, FMOB_MCC_QOS_CTRL, FMOB_MCC_QOS_STAT_RSP, FMOB_MCC_QOS_BW_GET_REQ, FMOB_MCC_QOS_BW_ALLOC, FMOB_MCC_QOS_BW_LIMIT_GET_REQ, FMOB_MCC_QOS_BW_LIMIT, FMOB_ISC_ID_RSP, FMOB_ISC_MSG_LIMIT, FMOB_ISC_BOS] at hpre
    all_goals omega

/-- Witness for C1: a concrete context-dependent virtual-switch info block
(total 3, start 1, limit 5, hence clamp min(5, 3-1) = 2 entries) round-trips. -/
theorem fmapi_object_roundtrip_witness :
    ∃ (bout : Buf) (n : Int),
      fmapi_serialize (some (fun _ => 170))
        (some (FmObj.vsc_info_blk
          { vcsid := 1, state := 1, uspid := 2, total := 3, num := 2,
            list := [{ status := 0, ppid := 1, ldid := 255 },
                     { status := 2, ppid := 3, ldid := 4 }] }))
        (kindOf (FmObj.vsc_info_blk
          { vcsid := 1, state := 1, uspid := 2, total := 3, num := 2,
            list := [{ status := 0, ppid := 1, ldid := 255 },
                     { status := 2, ppid := 3, ldid := 4 }] })) =
        some (some bout, n) ∧
      fmapi_deserialize (some (FmObj.vsc_info_blk default)) (some bout)
        (kindOf (FmObj.vsc_info_blk
          { vcsid := 1, state := 1, uspid := 2, total := 3, num := 2,
            list := [{ status := 0, ppid := 1, ldid := 255 },
                     { status := 2, ppid := 3, ldid := 4 }] }))
        (some { vppbid_start := 1, vppbid_limit := 5, num := 0, vcss := [] }) =
        some (some (FmObj.vsc_info_blk
          { vcsid := 1, state := 1, uspid := 2, total := 3, num := 2,
            list := [{ status := 0, ppid := 1, ldid := 255 },
                     { status := 2, ppid := 3, ldid := 4 }] }), n) :=
  fmapi_object_roundtrip _ (FmObj.vsc_info_blk default) (fun _ => 170)
    (some { vppbid_start := 1, vppbid_limit := 5, num := 0, vcss := [] })
    (by norm_num [wfObj, vscInfoBlkWf, vscPpbStatBlkWf])
    (by norm_num [ctxOk, blkCtx])
    rfl

/-- Claim C3: every header whose fields are within their declared wire
widths — including the boundary values len = 0x1FFFFF and background = 1,
which share wire byte 7 — survives `fmapi_serialize` / `fmapi_deserialize`
for kind FMOB_HDR unchanged, and both calls return 12. -/
theorem fmapi_hdr_field_roundtrip (b : Buf) (pre : fmapi_hdr)
    (param : Option fmapi_vsc_info_req) (o : fmapi_hdr)
    (h1 : o.category < 16) (h2 : o.background ≤ 1) (h3 : o.len ≤ 0x1FFFFF)
    (h4 : o.tag < 256) (h5 : o.opcode < 65536) (h6 : o.return_code < 65536)
    (h7 : o.ext_status < 65536) :
    fmapi_serialize (some b) (some (FmObj.hdr o)) FMOB_HDR =
      some (some (serHdrAt b 0 o).1, (12 : Int)) ∧
    fmapi_deserialize (some (FmObj.hdr pre)) (some (serHdrAt b 0 o).1)
        FMOB_HDR param =
      some (some (FmObj.hdr o), (12 : Int)) := by
  constructor
  · exact fmapi_serialize_val b (FmObj.hdr o)
  · refine fmapi_deserialize_val (FmObj.hdr pre) _ FMOB_HDR param
      (by norm_num [FMOB_HDR]) (by norm_num [FMOB_HDR]) (FmObj.hdr o) 12 ?_
    show some (FmObj.hdr (desHdrAt (serHdrAt b 0 o).1 0).1,
               (desHdrAt (serHdrAt b 0 o).1 0).2) = _
    rw [serHdr_roundtrip b 0 o ⟨h1, h4, h5, by omega, by omega, h6, h7⟩]
    rfl

/-- Witness for C3 at the boundary values: category 15, background 1,
len 0x1FFFFF, tag 255, opcode/return_code/ext_status 0xFFFF. -/
theorem fmapi_hdr_field_roundtrip_witness :
    fmapi_serialize (some (fun _ => 7))
        (some (FmObj.hdr { category := 15, tag := 255, opcode := 65535,
                           background := 1, len := 2097151,
                           return_code := 65535, ext_status := 65535 }))
        FMOB_HDR =
      some (some (serHdrAt (fun _ => 7) 0
          { category := 15, tag := 255, opcode := 65535, background := 1,
            len := 2097151, return_code := 65535, ext_status := 65535 }).1,
        (12 : Int)) ∧
    fmapi_deserialize (some (FmObj.hdr zeroHdr))
        (some (serHdrAt (fun _ => 7) 0
          { category := 15, tag := 255, opcode := 65535, background := 1,
            len := 2097151, return_code := 65535, ext_status := 65535 }).1)
        FMOB_HDR none =
      some (some (FmObj.hdr { category := 15, tag := 255, opcode := 65535,
                              background := 1, len := 2097151,
                              return_code := 65535, ext_status := 65535 }),
        (12 : Int)) :=
  fmapi_hdr_field_roundtrip (fun _ => 7) zeroHdr none _
    (by decide) (by decide) (by decide) (by decide) (by decide) (by decide)
    (by decide)

/-- Claim C2 (corrected): decoding FMOB_VSC_INFO_BLK with a non-null
request context r and source byte 3 holding total with
r.vppbid_start <= total yields a list length num equal to
min(r.vppbid_limit, total - r.vppbid_start), but the returned
bytes-consumed count is 4 + 4*num (each nested port-binding status block
occupies FMLN_VSC_PPB_STATUS = 4 wire bytes), not 4 + 3*num as claimed. -/
theorem vsc_info_blk_decode_clamped (pre : FmObj) (src : Buf)
    (r : fmapi_vsc_info_req) (hs : r.vppbid_start ≤ rd src 3) :
    ∃ o : fmapi_vsc_info_blk,
      fmapi_deserialize (some pre) (some src) FMOB_VSC_INFO_BLK (some r) =
        some (some (FmObj.vsc_info_blk o),
          ((4 + 4 * min r.vppbid_limit (rd src 3 - r.vppbid_start) : Nat) : Int)) ∧
      o.num = min r.vppbid_limit (rd src 3 - r.vppbid_start) ∧
      o.total = rd src 3 := by
  have h256 : rd src 3 < 256 := by
    simp only [rd]; omega
  have hnum0 : ((((rd src (0 + 3) : Int) - (r.vppbid_start : Int)) % 256)).toNat =
      rd src 3 - r.vppbid_start := by
    norm_num; omega
  refine ⟨(desVscInfoBlkAt default (some r) src 0).1, ?_, ?_, ?_⟩
  · refine fmapi_deserialize_val pre src FMOB_VSC_INFO_BLK (some r)
      (by norm_num [FMOB_VSC_INFO_BLK]) (by norm_num [FMOB_VSC_INFO_BLK]) _ _ ?_
    show some (FmObj.vsc_info_blk (desVscInfoBlkAt default (some r) src 0).1,
               (desVscInfoBlkAt default (some r) src 0).2) = _
    rw [desVscInfoBlk_cnt default r src 0]
    norm_num at hnum0 ⊢
    rw [hnum0]
    split_ifs <;> omega
  · simp only [desVscInfoBlkAt]
    norm_num at hnum0 ⊢
    rw [hnum0]
    split_ifs <;> omega
  · simp only [desVscInfoBlkAt]

/-- Counterexample for C2 as stated: with vppbid_start = 2,
vppbid_limit = 6 and a source buffer of all-10 bytes (total = 10), the
decoded num is 6 as claimed, but the call returns 28 = 4 + 4*6 bytes
consumed, contradicting the claimed 4 + 3*num = 22. -/
theorem vsc_info_blk_decode_counterexample :
    fmapi_deserialize (some (FmObj.vsc_info_blk default)) (some (fun _ => 10))
        FMOB_VSC_INFO_BLK
        (some { vppbid_start := 2, vppbid_limit := 6, num := 0, vcss := [] }) =
      some (some (FmObj.vsc_info_blk
        { vcsid := 10, state := 10, uspid := 10, total := 10, num := 6,
          list := [{ status := 10, ppid := 10, ldid := 10 },
                   { status := 10, ppid := 10, ldid := 10 },
                   { status := 10, ppid := 10, ldid := 10 },
                   { status := 10, ppid := 10, ldid := 10 },
                   { status := 10, ppid := 10, ldid := 10 },
                   { status := 10, ppid := 10, ldid := 10 }] }),
        (28 : Int)) ∧ (28 : Int) ≠ 4 + 3 * 6 :=
  ⟨rfl, by decide⟩

/-- Witness for C2 (corrected) at the claim's own two examples:
start 2, limit 6, total 10 gives num = min(6, 8) = 6 with 28 bytes
consumed, and total 5 gives num = min(6, 3) = 3 with 16 bytes consumed. -/
theorem vsc_info_blk_decode_clamped_witness :
    (∃ o : fmapi_vsc_info_blk,
      fmapi_deserialize (some (FmObj.vsc_info_blk default)) (some (fun _ => 10))
          FMOB_VSC_INFO_BLK
          (some { vppbid_start := 2, vppbid_limit := 6, num := 0, vcss := [] }) =
        some (some (FmObj.vsc_info_blk o),
          ((4 + 4 * min 6 (rd (fun _ => 10) 3 - 2) : Nat) : Int)) ∧
      o.num = min 6 (rd (fun _ => 10) 3 - 2) ∧
      o.total = rd (fun _ => 10) 3) ∧
    (∃ o : fmapi_vsc_info_blk,
      fmapi_deserialize (some (FmObj.vsc_info_blk default)) (some (fun _ => 5))
          FMOB_VSC_INFO_BLK
          (some { vppbid_start := 2, vppbid_limit := 6, num := 0, vcss := [] }) =
        some (some (FmObj.vsc_info_blk o),
          ((4 + 4 * min 6 (rd (fun _ => 5) 3 - 2) : Nat) : Int)) ∧
      o.num = min 6 (rd (fun _ => 5) 3 - 2) ∧
      o.total = rd (fun _ => 5) 3) :=
  ⟨vsc_info_blk_decode_clamped (FmObj.vsc_info_blk default) (fun _ => 10)
      { vppbid_start := 2, vppbid_limit := 6, num := 0, vcss := [] } (by decide),
   vsc_info_blk_decode_clamped (FmObj.vsc_info_blk default) (fun _ => 5)
      { vppbid_start := 2, vppbid_limit := 6, num := 0, vcss := [] } (by decide)⟩

/-- Claim C4: for both tunnel kinds, encoding a payload of length L writes
L+1 into the little-endian wire length field (bytes 2-3 of a request,
bytes 0-1 of a response) while returning 5 + L, and decoding a wire length
field holding v >= 1 stores v-1 as the object's len and consumes
5 + (v-1) bytes, the decoded payload having v-1 bytes. -/
theorem mpc_tmc_length_convention
    (b src srcr : Buf) (pre : FmObj) (param : Option fmapi_vsc_info_req)
    (oreq : fmapi_mpc_tmc_req) (orsp : fmapi_mpc_tmc_rsp)
    (hlq : oreq.len ≤ FMLN_MPC_TUNNEL_PAYLOAD)
    (hlp : orsp.len ≤ FMLN_MPC_TUNNEL_PAYLOAD)
    (hv1 : 1 ≤ rd src 3 * 256 + rd src 2)
    (hv2 : 1 ≤ rd srcr 1 * 256 + rd srcr 0) :
    (fmapi_serialize (some b) (some (FmObj.mpc_tmc_req oreq)) FMOB_MPC_TMC_REQ =
        some (some (serMpcTmcReqAt b 0 oreq).1, ((5 + oreq.len : Nat) : Int)) ∧
      rd (serMpcTmcReqAt b 0 oreq).1 3 * 256 + rd (serMpcTmcReqAt b 0 oreq).1 2 =
        oreq.len + 1) ∧
    (fmapi_serialize (some b) (some (FmObj.mpc_tmc_rsp orsp)) FMOB_MPC_TMC_RSP =
        some (some (serMpcTmcRspAt b 0 orsp).1, ((5 + orsp.len : Nat) : Int)) ∧
      rd (serMpcTmcRspAt b 0 orsp).1 1 * 256 + rd (serMpcTmcRspAt b 0 orsp).1 0 =
        orsp.len + 1) ∧
    (fmapi_deserialize (some pre) (some src) FMOB_MPC_TMC_REQ param =
        some (some (FmObj.mpc_tmc_req (desMpcTmcReqAt src 0).1),
          ((5 + (rd src 3 * 256 + rd src 2 - 1) : Nat) : Int)) ∧
      (desMpcTmcReqAt src 0).1.len = rd src 3 * 256 + rd src 2 - 1 ∧
      (desMpcTmcReqAt src 0).1.msg.length = rd src 3 * 256 + rd src 2 - 1) ∧
    (fmapi_deserialize (some pre) (some srcr) FMOB_MPC_TMC_RSP param =
        some (some (FmObj.mpc_tmc_rsp (desMpcTmcRspAt srcr 0).1),
          ((5 + (rd srcr 1 * 256 + rd srcr 0 - 1) : Nat) : Int)) ∧
      (desMpcTmcRspAt srcr 0).1.len = rd srcr 1 * 256 + rd srcr 0 - 1 ∧
      (desMpcTmcRspAt srcr 0).1.msg.length = rd srcr 1 * 256 + rd srcr 0 - 1) := by
  simp only [FMLN_MPC_TUNNEL_PAYLOAD, FMLN_PAYLOAD, FMLN_MSG, FMLN_HDR,
    FMLN_MPC_TUNNEL_CMD_REQ] at hlq hlp
  have hs3 : rd src 3 < 256 := by simp only [rd]; omega
  have hs2 : rd src 2 < 256 := by simp only [rd]; omega
  have hr1 : rd srcr 1 < 256 := by simp only [rd]; omega
  have hr0 : rd srcr 0 < 256 := by simp only [rd]; omega
  have hlenq : ((((rd src (0 + 3) * 256 + rd src (0 + 2) : Int) - 1) % 65536)).toNat =
      rd src 3 * 256 + rd src 2 - 1 := by norm_num; omega
  have hlenp : ((((rd srcr (0 + 1) * 256 + rd srcr (0 + 0) : Int) - 1) % 65536)).toNat =
      rd srcr 1 * 256 + rd srcr 0 - 1 := by norm_num; omega
  refine ⟨⟨fmapi_serialize_val b (FmObj.mpc_tmc_req oreq), ?_⟩,
          ⟨fmapi_serialize_val b (FmObj.mpc_tmc_rsp orsp), ?_⟩,
          ⟨?_, ?_, ?_⟩, ⟨?_, ?_, ?_⟩⟩
  · simp only [serMpcTmcReqAt, FMLN_MPC_TUNNEL_CMD_REQ]
    simp (disch := omega) only [rd_copyN_out, rd_wr_other, rd_wr_self]
    omega
  · simp only [serMpcTmcRspAt, FMLN_MPC_TUNNEL_CMD_REQ]
    simp (disch := omega) only [rd_copyN_out, rd_wr_other, rd_wr_self]
    omega
  · refine fmapi_deserialize_val pre src FMOB_MPC_TMC_REQ param
      (by norm_num [FMOB_MPC_TMC_REQ]) (by norm_num [FMOB_MPC_TMC_REQ]) _ _ ?_
    show some (FmObj.mpc_tmc_req (desMpcTmcReqAt src 0).1,
               (desMpcTmcReqAt src 0).2) = _
    simp only [desMpcTmcReqAt, FMLN_MPC_TUNNEL_CMD_REQ]
    rw [hlenq]
  · simp only [desMpcTmcReqAt]
    norm_num at hlenq ⊢
    rw [hlenq]
  · simp only [desMpcTmcReqAt]
    norm_num at hlenq ⊢
    rw [hlenq, readBytes, List.length_map, List.length_range]
  · refine fmapi_deserialize_val pre srcr FMOB_MPC_TMC_RSP param
      (by norm_num [FMOB_MPC_TMC_RSP]) (by norm_num [FMOB_MPC_TMC_RSP]) _ _ ?_
    show some (FmObj.mpc_tmc_rsp (desMpcTmcRspAt srcr 0).1,
               (desMpcTmcRspAt srcr 0).2) = _
    simp only [desMpcTmcRspAt, FMLN_MPC_TUNNEL_CMD_RESP]
    rw [hlenp]
  · simp only [desMpcTmcRspAt]
    norm_num at hlenp ⊢
    rw [hlenp]
  · simp only [desMpcTmcRspAt]
    norm_num at hlenp ⊢
    rw [hlenp, readBytes, List.length_map, List.length_range]

/-- Witness for C4 at the spec's example: encoding a 68-byte tunnel
payload writes wire length value 69, and decoding a wire length field of
69 yields len = 68 in both directions. -/
theorem mpc_tmc_length_convention_witness :
    rd (serMpcTmcReqAt (fun _ => 0) 0
        { ppid := 1, len := 68, type := 2, msg := List.replicate 68 3 }).1 3 * 256 +
      rd (serMpcTmcReqAt (fun _ => 0) 0
        { ppid := 1, len := 68, type := 2, msg := List.replicate 68 3 }).1 2 = 69 ∧
    (desMpcTmcReqAt (fun i => if i = 2 then 69 else 0) 0).1.len = 68 ∧
    (desMpcTmcRspAt (fun i => if i = 0 then 69 else 0) 0).1.len = 68 := by
  have h := mpc_tmc_length_convention (fun _ => 0)
    (fun i => if i = 2 then 69 else 0) (fun i => if i = 0 then 69 else 0)
    (FmObj.hdr zeroHdr) none
    { ppid := 1, len := 68, type := 2, msg := List.replicate 68 3 }
    { type := 2, len := 68, msg := List.replicate 68 3 }
    (by decide) (by decide) (by decide) (by decide)
  refine ⟨?_, ?_, ?_⟩
  · exact h.1.2
  · have h2 := h.2.2.1.2.1
    norm_num [rd] at h2
    exact h2
  · have h3 := h.2.2.2.2.1
    norm_num [rd] at h3
    exact h3

/-- Counterexample for C5 as stated: the three offsets the claim names as
zero-filled (byte 2 of a header, byte 3 of a bind-vPPB request, byte 3 of
a physical-port info block) are never written by the encoder, so with a
destination buffer previously holding 170 at every offset they remain 170
(not zero) within the returned length, and the encoded output differs
from the one obtained from a zeroed destination buffer. -/
theorem fmapi_serialize_reserved_counterexample :
    fmapi_serialize (some (fun _ => 170)) (some (FmObj.hdr zeroHdr)) FMOB_HDR =
      some (some (serHdrAt (fun _ => 170) 0 zeroHdr).1, (12 : Int)) ∧
    rd (serHdrAt (fun _ => 170) 0 zeroHdr).1 2 = 170 ∧
    rd (serVscBindReqAt (fun _ => 170) 0 default).1 3 = 170 ∧
    rd (serPscPortInfoAt (fun _ => 170) 0 default).1 3 = 170 ∧
    rd (serHdrAt (fun _ => 0) 0 zeroHdr).1 2 = 0 :=
  ⟨rfl, rfl, rfl, rfl, rfl⟩

/-- Claim C5 (corrected): the encoder leaves several reserved offsets
unwritten rather than zero-filling them — byte 2 of a header, byte 3 of a
bind-vPPB request and byte 3 of a physical-port info block all retain the
destination buffer's prior contents, so the encoded output is not
determined by the source object alone.  Only some reserved offsets are
genuinely zero-filled, among them byte 1 of a switch-identify response,
byte 14 of a physical-port info block and byte 1 of a
background-operation-status block. -/
theorem fmapi_serialize_reserved_bytes (b : Buf) (o : fmapi_hdr)
    (v : fmapi_vsc_bind_req) (p : fmapi_psc_port_info) (i : fmapi_psc_id_rsp)
    (s : fmapi_isc_bos) :
    rd (serHdrAt b 0 o).1 2 = rd b 2 ∧
    rd (serVscBindReqAt b 0 v).1 3 = rd b 3 ∧
    rd (serPscPortInfoAt b 0 p).1 3 = rd b 3 ∧
    rd (serPscIdRspAt b 0 i).1 1 = 0 ∧
    rd (serPscPortInfoAt b 0 p).1 14 = 0 ∧
    rd (serIscBosAt b 0 s).1 1 = 0 := by
  refine ⟨?_, ?_, ?_, ?_, ?_, ?_⟩ <;>
    simp only [serHdrAt, serVscBindReqAt, serPscPortInfoAt, serPscIdRspAt,
      serIscBosAt] <;>
    simp (disch := omega) only [rd_copyN_out, rd_wr_other, rd_wr_self]

theorem takeEntries_succ [Inhabited α] (xs : List α) (n : Nat) :
    takeEntries xs (n + 1) = xs.headD default :: takeEntries xs.tail n := by
  simp only [takeEntries, List.range_succ_eq_map, List.map_cons, List.map_map]
  cases xs with
  | nil => simp [List.getD, Function.comp_def, List.map_const']
  | cons x t =>
    have h1 : ((fun i => (x :: t).getD i default) ∘ Nat.succ) =
        (fun i => t.getD i default) := by
      funext i
      simp [List.getD_cons_succ]
    rw [h1]
    simp [List.getD_cons_zero]

/-- A prestate-walking list decode whose element decoder consumes nothing
and returns the stored entry unchanged yields the first n stored entries
and consumes 0 bytes. -/
theorem desListPreAt_zeroE [Inhabited α] (desE : α → Buf → Nat → α × Nat)
    (h : ∀ e b off, desE e b off = (e, 0)) (pre : List α) (b : Buf)
    (off n : Nat) :
    desListPreAt desE pre b off n = (takeEntries pre n, 0) := by
  induction n generalizing pre off with
  | zero => simp [desListPreAt, takeEntries]
  | succ n ih =>
    simp only [desListPreAt, h, ih, takeEntries_succ]

/-- Counterexample for C6 as stated: decoding FMOB_VSC_INFO_RSP with a
null context does not fail — on a source of all-1 bytes it returns 4
bytes consumed (the same value a genuine context-ful decode of an empty
response returns) and produces an object claiming num = 1 whose single
list entry is garbage (the untouched prestate); and decoding
FMOB_VSC_INFO_BLK with a null context returns 0 bytes consumed, the very
value a legitimate decode of the empty kind FMOB_NULL returns. -/
theorem fmapi_deserialize_null_context_counterexample :
    fmapi_deserialize (some (FmObj.vsc_info_rsp { num := 0, list := [] }))
        (some (fun _ => 1)) FMOB_VSC_INFO_RSP none =
      some (some (FmObj.vsc_info_rsp
        { num := 1, list := [{ vcsid := 0, state := 0, uspid := 0, total := 0,
                               num := 0, list := [] }] }), (4 : Int)) ∧
    fmapi_deserialize (some (FmObj.vsc_info_rsp { num := 0, list := [] }))
        (some (fun _ => 0)) FMOB_VSC_INFO_RSP
        (some { vppbid_start := 0, vppbid_limit := 0, num := 0, vcss := [] }) =
      some (some (FmObj.vsc_info_rsp { num := 0, list := [] }), (4 : Int)) ∧
    fmapi_deserialize (some (FmObj.vsc_info_blk default)) (some (fun _ => 1))
        FMOB_VSC_INFO_BLK none =
      some (some (FmObj.vsc_info_blk default), (0 : Int)) ∧
    fmapi_deserialize (some (FmObj.hdr zeroHdr)) (some (fun _ => 0)) FMOB_NULL
        none =
      some (some (FmObj.hdr zeroHdr), (0 : Int)) :=
  ⟨rfl, rfl, rfl, rfl⟩

/-- Claim C6 (corrected): decoding a context-dependent kind with a null
context parameter does not fail distinguishably.  FMOB_VSC_INFO_BLK
returns 0 bytes consumed with the destination untouched — the same return
as a legitimate FMOB_NULL decode — and FMOB_VSC_INFO_RSP succeeds with 4
bytes consumed, storing the wire count as num while leaving the nested
list as the first num undecoded prestate entries. -/
theorem fmapi_deserialize_null_context (pre : FmObj) (p : fmapi_vsc_info_rsp)
    (src : Buf) :
    fmapi_deserialize (some pre) (some src) FMOB_VSC_INFO_BLK none =
      some (some pre, (0 : Int)) ∧
    fmapi_deserialize (some (FmObj.vsc_info_rsp p)) (some src)
        FMOB_VSC_INFO_RSP none =
      some (some (FmObj.vsc_info_rsp
        { num := rd src 0, list := takeEntries p.list (rd src 0) }), (4 : Int)) := by
  constructor
  · exact fmapi_deserialize_val pre src FMOB_VSC_INFO_BLK none
      (by norm_num [FMOB_VSC_INFO_BLK]) (by norm_num [FMOB_VSC_INFO_BLK])
      pre 0 rfl
  · refine fmapi_deserialize_val _ src FMOB_VSC_INFO_RSP none
      (by norm_num [FMOB_VSC_INFO_RSP]) (by norm_num [FMOB_VSC_INFO_RSP]) _ _ ?_
    show some (FmObj.vsc_info_rsp (desVscInfoRspAt p none src 0).1,
               (desVscInfoRspAt p none src 0).2) = _
    simp only [desVscInfoRspAt, FMLN_VSC_GET_INFO_RESP]
    rw [desListPreAt_zeroE (fun e => desVscInfoBlkAt e none) (fun e b off => rfl)]
    norm_num

/-- Every successful serialization produces at least one byte: the
returned length of `serializeAt` is positive for every kind. -/
theorem serializeAt_pos (b : Buf) (x : FmObj) : 1 ≤ (serializeAt b 0 x).2 := by
  cases x <;>
    simp only [serializeAt, serHdrAt, serIscBosAt, serIscIdRspAt,
      serIscMsgLimitAt, serPscIdRspAt, serPscPortReqAt, serPscPortInfoAt,
      serPscPortRspAt, serPscPortCtrlReqAt, serPscCfgReqAt, serPscCfgRspAt,
      serVscInfoReqAt, serVscPpbStatBlkAt, serVscInfoBlkAt, serVscInfoRspAt,
      serVscBindReqAt, serVscUnbindReqAt, serVscAerReqAt, serMpcTmcReqAt,
      serMpcTmcRspAt, serMpcCfgReqAt, serMpcCfgRspAt, serMpcMemReqAt,
      serMpcMemRspAt, serMccInfoRspAt, serMccAllocBlkAt, serMccAllocGetReqAt,
      serMccAllocGetRspAt, serMccAllocSetReqAt, serMccAllocSetRspAt,
      serMccQosCtrlAt, serMccQosStatRspAt, serMccQosBwGetReqAt,
      serMccQosBwAllocAt, serMccQosBwLimitGetReqAt, serMccQosBwLimitAt,
      FMLN_HDR, FMLN_PSC_IDENTIFY_SWITCH, FMLN_PSC_GET_PHY_PORT_REQ,
      FMLN_PSC_GET_PHY_PORT_INFO, FMLN_PSC_GET_PHY_PORT_RESP,
      FMLN_PSC_PHY_PORT_CTRL, FMLN_PSC_PPB_IO_CFG_REQ, FMLN_PSC_PPB_IO_CFG_RESP,
      FMLN_VSC_GET_INFO_REQ, FMLN_VSC_PPB_STATUS, FMLN_VSC_INFO,
      FMLN_VSC_GET_INFO_RESP, FMLN_VSC_BIND, FMLN_VSC_UNBIND, FMLN_VSC_GEN_AER,
      FMLN_MPC_TUNNEL_CMD_REQ, FMLN_MPC_TUNNEL_CMD_RESP,
      FMLN_MPC_LD_IO_CFG_REQ, FMLN_MPC_LD_IO_CFG_RESP, FMLN_MPC_LD_MEM_REQ,
      FMLN_MPC_LD_MEM_RESP, FMLN_MCC_GET_LD_INFO, FMLN_MCC_LD_ALLOC_ENTRY,
      FMLN_MCC_GET_LD_ALLOC_REQ, FMLN_MCC_GET_LD_ALLOC_RSP,
      FMLN_MCC_SET_LD_ALLOC_REQ, FMLN_MCC_SET_LD_ALLOC_RSP, FMLN_MCC_QOS_CTRL,
      FMLN_MCC_QOS_STATUS, FMLN_MCC_GET_QOS_BW_REQ, FMLN_MCC_QOS_BW_ALLOC,
      FMLN_MCC_GET_QOS_BW_LIMIT_REQ, FMLN_MCC_QOS_BW_LIMIT, FMLN_ISC_ID_RSP,
      FMLN_ISC_MSG_LIMIT, FMLN_ISC_BOS] <;>
    omega

/-- Counterexample for C7 as stated: a null source handle to
fmapi_serialize with a valid kind, a null destination handle to
fmapi_serialize with a valid kind, and a null source handle to
fmapi_deserialize with a valid kind and non-null destination are not
detected — the C dereferences the null pointer (modelled as `none`, no
return value at all), so no distinguishable error value is returned. -/
theorem fmapi_null_handles_counterexample :
    fmapi_serialize (some (fun _ => 0)) none FMOB_HDR = none ∧
    fmapi_serialize none (some (FmObj.hdr zeroHdr)) FMOB_HDR = none ∧
    fmapi_deserialize (some (FmObj.hdr zeroHdr)) none FMOB_HDR none = none :=
  ⟨rfl, rfl, rfl⟩

/-- Claim C7 (corrected): fmapi_deserialize validates only a null
destination handle and an out-of-range kind, returning -1 — distinct from
every value it returns otherwise, which is always nonnegative (0 for the
empty kind FMOB_NULL).  fmapi_serialize validates only the kind (0 or
>= FMOB_MAX), returning 0 — distinct from every successful length, which
is always at least 1.  Null buffer/object handles are not detected by
either function before access. -/
theorem fmapi_arg_validation (dst : Option FmObj) (src : Option Buf)
    (type : Nat) (param : Option fmapi_vsc_info_req) (b : Buf) (x : FmObj)
    (pre o : FmObj) (s : Buf) (n : Int) :
    (dst = none ∨ FMOB_MAX ≤ type →
      fmapi_deserialize dst src type param = some (dst, -1)) ∧
    (type = FMOB_NULL ∨ FMOB_MAX ≤ type →
      fmapi_serialize (some b) (some x) type = some (some b, 0)) ∧
    (type < FMOB_MAX → fmapi_deserialize (some pre) (some s) type param =
      some (some o, n) → 0 ≤ n) ∧
    (fmapi_serialize (some b) (some x) (kindOf x) =
      some (some (serializeAt b 0 x).1, ((serializeAt b 0 x).2 : Int)) ∧
     1 ≤ (serializeAt b 0 x).2) := by
  refine ⟨?_, ?_, ?_, fmapi_serialize_val b x, serializeAt_pos b x⟩
  · intro h
    simp only [fmapi_deserialize, if_pos h]
  · intro h
    simp only [fmapi_serialize, if_pos h]
  · intro ht hr
    simp only [fmapi_deserialize] at hr
    rw [if_neg (by simp only [FMOB_MAX] at ht ⊢; simp; omega)] at hr
    by_cases h0 : type = FMOB_NULL
    · rw [if_pos h0] at hr
      simp only [Option.some.injEq, Prod.mk.injEq] at hr
      omega
    · rw [if_neg h0] at hr
      rcases hd : deserializeAt pre s 0 type param with _ | ⟨y, m⟩ <;>
        rw [hd] at hr
      · exact absurd hr (by simp)
      · simp only [Option.some.injEq, Prod.mk.injEq] at hr
        rcases hr with ⟨-, rfl⟩
        exact Int.natCast_nonneg m

/-- Witness for C7 (corrected): a null destination yields -1 from
fmapi_deserialize; kind FMOB_NULL yields 0 from fmapi_serialize; a
concrete successful deserialize return (12 for a header) is nonnegative;
and a concrete successful serialize length is at least 1. -/
theorem fmapi_arg_validation_witness :
    fmapi_deserialize none (some (fun _ => 0)) FMOB_HDR none =
      some (none, -1) ∧
    fmapi_serialize (some (fun _ => 0)) (some (FmObj.hdr zeroHdr)) FMOB_NULL =
      some (some (fun _ => 0), 0) ∧
    (0 : Int) ≤ (12 : Int) ∧
    1 ≤ (serializeAt (fun _ => 0) 0 (FmObj.hdr zeroHdr)).2 := by
  refine ⟨?_, ?_, ?_, ?_⟩
  · exact (fmapi_arg_validation none (some (fun _ => 0)) FMOB_HDR none
      (fun _ => 0) (FmObj.hdr zeroHdr) (FmObj.hdr zeroHdr) (FmObj.hdr zeroHdr)
      (fun _ => 0) 0).1 (Or.inl rfl)
  · exact (fmapi_arg_validation (some (FmObj.hdr zeroHdr)) none FMOB_NULL none
      (fun _ => 0) (FmObj.hdr zeroHdr) (FmObj.hdr zeroHdr) (FmObj.hdr zeroHdr)
      (fun _ => 0) 0).2.1 (Or.inl rfl)
  · exact (fmapi_arg_validation (some (FmObj.hdr zeroHdr)) (some (fun _ => 0))
      FMOB_HDR none (fun _ => 0) (FmObj.hdr zeroHdr) (FmObj.hdr zeroHdr)
      (FmObj.hdr zeroHdr) (fun _ => 0) 12).2.2.1
      (by norm_num [FMOB_HDR, FMOB_MAX]) rfl
  · exact (fmapi_arg_validation (some (FmObj.hdr zeroHdr)) (some (fun _ => 0))
      FMOB_HDR none (fun _ => 0) (FmObj.hdr zeroHdr) (FmObj.hdr zeroHdr)
      (FmObj.hdr zeroHdr) (fun _ => 0) 12).2.2.2.2

set_option maxHeartbeats 1000000 in
/-- Claim C8: fmapi_fmob_req and fmapi_fmob_rsp are total over the full
opcode space, always returning a kind below FMOB_MAX; every opcode
outside the known command set maps to FMOB_NULL in both directions rather
than an error; opcodes whose request (resp. response) direction carries
no payload map to FMOB_NULL in that direction only — e.g. the identify
command has an empty request but a populated response, and the port
control command the reverse. -/
theorem fmapi_fmob_total (op : Nat) :
    fmapi_fmob_req op < FMOB_MAX ∧ fmapi_fmob_rsp op < FMOB_MAX ∧
    (op ∉ knownOpcodes →
      fmapi_fmob_req op = FMOB_NULL ∧ fmapi_fmob_rsp op = FMOB_NULL) ∧
    fmapi_fmob_req FMOP_PSC_ID = FMOB_NULL ∧
    fmapi_fmob_rsp FMOP_PSC_ID = FMOB_PSC_ID_RSP ∧
    fmapi_fmob_req FMOP_MCC_INFO = FMOB_NULL ∧
    fmapi_fmob_rsp FMOP_MCC_INFO = FMOB_MCC_INFO_RSP ∧
    fmapi_fmob_req FMOP_PSC_PORT_CTRL = FMOB_PSC_PORT_CTRL_REQ ∧
    fmapi_fmob_rsp FMOP_PSC_PORT_CTRL = FMOB_NULL := by
  have hnull : op ∉ knownOpcodes →
      fmapi_fmob_req op = FMOB_NULL ∧ fmapi_fmob_rsp op = FMOB_NULL := by
    intro h
    simp only [knownOpcodes, List.mem_cons, List.not_mem_nil, or_false,
      not_or] at h
    obtain ⟨n1, n2, n3, n4, n5, n6, n7, n8, n9, n10, n11, n12, n13, n14, n15,
      n16, n17, n18, n19, n20, n21, n22, n23, n24, n25⟩ := h
    constructor
    · unfold fmapi_fmob_req
      rw [if_neg n1, if_neg n2, if_neg n3, if_neg n4, if_neg n5, if_neg n6,
        if_neg n7, if_neg n8, if_neg n9, if_neg n10, if_neg n11, if_neg n12,
        if_neg n13, if_neg n14, if_neg n15, if_neg n16, if_neg n17,
        if_neg n18, if_neg n19, if_neg n20, if_neg n21, if_neg n22,
        if_neg n23, if_neg n24, if_neg n25]
    · unfold fmapi_fmob_rsp
      rw [if_neg n1, if_neg n2, if_neg n3, if_neg n4, if_neg n5, if_neg n6,
        if_neg n7, if_neg n8, if_neg n9, if_neg n10, if_neg n11, if_neg n12,
        if_neg n13, if_neg n14, if_neg n15, if_neg n16, if_neg n17,
        if_neg n18, if_neg n19, if_neg n20, if_neg n21, if_neg n22,
        if_neg n23, if_neg n24, if_neg n25]
  refine ⟨?_, ?_, hnull, by decide, by decide, by decide, by decide,
    by decide, by decide⟩
  · by_cases hm : op ∈ knownOpcodes
    · simp only [knownOpcodes] at hm
      fin_cases hm <;> decide
    · rw [(hnull hm).1]; decide
  · by_cases hm : op ∈ knownOpcodes
    · simp only [knownOpcodes] at hm
      fin_cases hm <;> decide
    · rw [(hnull hm).2]; decide

/-- Witness for C8 at the unknown opcode 0x9999: both directions map it
to the sentinel empty kind FMOB_NULL. -/
theorem fmapi_fmob_total_witness :
    fmapi_fmob_req 39321 = FMOB_NULL ∧ fmapi_fmob_rsp 39321 = FMOB_NULL :=
  (fmapi_fmob_total 39321).2.2.1 (by decide)

/-- Counterexample for C9 as stated: fmapi_fill_mpc_tmc stores through its
second handle `sub` before any null check, so a null `sub` crashes
(modelled as no return value at all) rather than being detected and
signalled with a non-zero return — even when the message handle `m` is
valid. -/
theorem fmapi_fill_mpc_tmc_counterexample :
    fmapi_fill_mpc_tmc none 0 0 none = none ∧
    fmapi_fill_mpc_tmc (some { hdr := zeroHdr, obj := FmObj.hdr zeroHdr })
      0 0 none = none :=
  ⟨rfl, rfl⟩

/-- Claim C9 (corrected): every builder taking only the message handle
detects a null handle and returns 1, and returns 0 on a non-null handle,
with no other validation; fmapi_fill_mpc_tmc, however, writes through its
second handle `sub` before checking anything, so a null `sub` crashes for
every `m` (no return), while a null `m` with non-null `sub` is detected
and returns 1, and two valid handles (whose inner payload matches its
opcode's request kind, or whose request kind is empty) return 0. -/
theorem fmapi_fill_null_handles (mm : Option FmapiMsg) (msg s : FmapiMsg)
    (a b c d e f g : Nat) (l1 l2 : List Nat) (od : Option (List Nat))
    (h : fmapi_fmob_req s.hdr.opcode = FMOB_NULL ∨
         kindOf s.obj = fmapi_fmob_req s.hdr.opcode) :
    (fmapi_fill_mpc_tmc mm a b none = none) ∧
    (fmapi_fill_mpc_tmc none a b (some s) = some (none, 1)) ∧
    (∃ m', fmapi_fill_mpc_tmc (some msg) a b (some s) = some (some m', 0)) ∧
    (fmapi_fill_isc_bos none = some (none, 1) ∧
      ∃ m', fmapi_fill_isc_bos (some msg) = some (some m', 0)) ∧
    (fmapi_fill_isc_get_msg_limit none = some (none, 1) ∧
      ∃ m', fmapi_fill_isc_get_msg_limit (some msg) = some (some m', 0)) ∧
    (fmapi_fill_isc_id none = some (none, 1) ∧
      ∃ m', fmapi_fill_isc_id (some msg) = some (some m', 0)) ∧
    (fmapi_fill_isc_set_msg_limit none a = some (none, 1) ∧
      ∃ m', fmapi_fill_isc_set_msg_limit (some msg) a = some (some m', 0)) ∧
    (fmapi_fill_mcc_get_alloc none a b = some (none, 1) ∧
      ∃ m', fmapi_fill_mcc_get_alloc (some msg) a b = some (some m', 0)) ∧
    (fmapi_fill_mcc_get_info none = some (none, 1) ∧
      ∃ m', fmapi_fill_mcc_get_info (some msg) = some (some m', 0)) ∧
    (fmapi_fill_mcc_get_qos_alloc none a b = some (none, 1) ∧
      ∃ m', fmapi_fill_mcc_get_qos_alloc (some msg) a b = some (some m', 0)) ∧
    (fmapi_fill_mcc_get_qos_ctrl none = some (none, 1) ∧
      ∃ m', fmapi_fill_mcc_get_qos_ctrl (some msg) = some (some m', 0)) ∧
    (fmapi_fill_mcc_get_qos_limit none a b = some (none, 1) ∧
      ∃ m', fmapi_fill_mcc_get_qos_limit (some msg) a b = some (some m', 0)) ∧
    (fmapi_fill_mcc_get_qos_status none = some (none, 1) ∧
      ∃ m', fmapi_fill_mcc_get_qos_status (some msg) = some (some m', 0)) ∧
    (fmapi_fill_mcc_set_alloc none a b l1 l2 = some (none, 1) ∧
      ∃ m', fmapi_fill_mcc_set_alloc (some msg) a b l1 l2 = some (some m', 0)) ∧
    (fmapi_fill_mcc_set_qos_alloc none a b l1 = some (none, 1) ∧
      ∃ m', fmapi_fill_mcc_set_qos_alloc (some msg) a b l1 = some (some m', 0)) ∧
    (fmapi_fill_mcc_set_qos_ctrl none a b c d e f g = some (none, 1) ∧
      ∃ m', fmapi_fill_mcc_set_qos_ctrl (some msg) a b c d e f g =
        some (some m', 0)) ∧
    (fmapi_fill_mcc_set_qos_limit none a b l1 = some (none, 1) ∧
      ∃ m', fmapi_fill_mcc_set_qos_limit (some msg) a b l1 = some (some m', 0)) ∧
    (fmapi_fill_mpc_cfg none a b c d e f l1 = some (none, 1) ∧
      ∃ m', fmapi_fill_mpc_cfg (some msg) a b c d e f l1 = some (some m', 0)) ∧
    (fmapi_fill_mpc_mem none a b c d e f g l1 = some (none, 1) ∧
      ∃ m', fmapi_fill_mpc_mem (some msg) a b c d e f g l1 =
        some (some m', 0)) ∧
    (fmapi_fill_psc_id none = some (none, 1) ∧
      ∃ m', fmapi_fill_psc_id (some msg) = some (some m', 0)) ∧
    (fmapi_fill_psc_get_all_ports none = some (none, 1) ∧
      ∃ m', fmapi_fill_psc_get_all_ports (some msg) = some (some m', 0)) ∧
    (fmapi_fill_psc_get_port none a = some (none, 1) ∧
      ∃ m', fmapi_fill_psc_get_port (some msg) a = some (some m', 0)) ∧
    (fmapi_fill_psc_get_ports none a l1 = some (none, 1) ∧
      ∃ m', fmapi_fill_psc_get_ports (some msg) a l1 = some (some m', 0)) ∧
    (fmapi_fill_psc_cfg none a b c d e od = some (none, 1) ∧
      ∃ m', fmapi_fill_psc_cfg (some msg) a b c d e od = some (some m', 0)) ∧
    (fmapi_fill_psc_port_ctrl none a b = some (none, 1) ∧
      ∃ m', fmapi_fill_psc_port_ctrl (some msg) a b = some (some m', 0)) ∧
    (fmapi_fill_vsc_aer none a b c l1 = some (none, 1) ∧
      ∃ m', fmapi_fill_vsc_aer (some msg) a b c l1 = some (some m', 0)) ∧
    (fmapi_fill_vsc_bind none a b c d = some (none, 1) ∧
      ∃ m', fmapi_fill_vsc_bind (some msg) a b c d = some (some m', 0)) ∧
    (fmapi_fill_vsc_get_vcs none a b c = some (none, 1) ∧
      ∃ m', fmapi_fill_vsc_get_vcs (some msg) a b c = some (some m', 0)) ∧
    (fmapi_fill_vsc_unbind none a b c = some (none, 1) ∧
      ∃ m', fmapi_fill_vsc_unbind (some msg) a b c = some (some m', 0)) := by
  have hser : ∀ bb : Buf, ∃ q,
      fmapi_serialize (some bb) (some s.obj) (fmapi_fmob_req s.hdr.opcode) =
        some q := by
    intro bb
    rcases h with h | h
    · exact ⟨(some bb, 0), by rw [h]; simp [fmapi_serialize]⟩
    · by_cases hg : fmapi_fmob_req s.hdr.opcode = FMOB_NULL ∨
        FMOB_MAX ≤ fmapi_fmob_req s.hdr.opcode
      · exact ⟨(some bb, 0), by simp only [fmapi_serialize, if_pos hg]⟩
      · refine ⟨(some (serializeAt bb 0 s.obj).1,
          ((serializeAt bb 0 s.obj).2 : Int)), ?_⟩
        simp only [fmapi_serialize, if_neg hg, if_pos h]
  refine ⟨rfl, rfl, ?_, ⟨rfl, _, rfl⟩, ⟨rfl, _, rfl⟩, ⟨rfl, _, rfl⟩,
    ⟨rfl, _, rfl⟩, ⟨rfl, _, rfl⟩, ⟨rfl, _, rfl⟩, ⟨rfl, _, rfl⟩,
    ⟨rfl, _, rfl⟩, ⟨rfl, _, rfl⟩, ⟨rfl, _, rfl⟩, ⟨rfl, _, rfl⟩,
    ⟨rfl, _, rfl⟩, ⟨rfl, _, rfl⟩, ⟨rfl, _, rfl⟩, ⟨rfl, _, rfl⟩,
    ⟨rfl, _, rfl⟩, ⟨rfl, _, rfl⟩, ⟨rfl, _, rfl⟩, ⟨rfl, _, rfl⟩,
    ⟨rfl, _, rfl⟩, ⟨rfl, _, rfl⟩, ⟨rfl, _, rfl⟩, ⟨rfl, _, rfl⟩,
    ⟨rfl, _, rfl⟩, ⟨rfl, _, rfl⟩, ⟨rfl, _, rfl⟩⟩
  simp only [fmapi_fill_mpc_tmc]
  split
  · next heq =>
      exfalso
      obtain ⟨q, hq⟩ := hser _
      rw [hq] at heq
      exact Option.noConfusion heq
  · next pb len0 heq => exact ⟨_, rfl⟩

/-- Witness for C9 (corrected) at concrete messages: the tunnel builder
crashes on a null sub even with a valid m, detects a null m when sub is
valid (inner opcode FMOP_MCC_INFO, whose request kind is empty), succeeds
with both valid, and a representative plain builder returns 1 on null and
0 on non-null. -/
theorem fmapi_fill_null_handles_witness :
    fmapi_fill_mpc_tmc (some { hdr := zeroHdr, obj := FmObj.hdr zeroHdr })
      1 2 none = none ∧
    fmapi_fill_mpc_tmc none 1 2
      (some { hdr := { zeroHdr with opcode := FMOP_MCC_INFO },
              obj := FmObj.hdr zeroHdr }) = some (none, 1) ∧
    (∃ m', fmapi_fill_mpc_tmc
        (some { hdr := zeroHdr, obj := FmObj.hdr zeroHdr }) 1 2
        (some { hdr := { zeroHdr with opcode := FMOP_MCC_INFO },
                obj := FmObj.hdr zeroHdr }) = some (some m', 0)) ∧
    fmapi_fill_isc_bos none = some (none, 1) ∧
    (∃ m', fmapi_fill_isc_bos
        (some { hdr := zeroHdr, obj := FmObj.hdr zeroHdr }) =
      some (some m', 0)) := by
  have h := fmapi_fill_null_handles
    (some { hdr := zeroHdr, obj := FmObj.hdr zeroHdr })
    { hdr := zeroHdr, obj := FmObj.hdr zeroHdr }
    { hdr := { zeroHdr with opcode := FMOP_MCC_INFO },
      obj := FmObj.hdr zeroHdr }
    1 2 3 4 5 6 7 [] [] none (Or.inl (by decide))
  exact ⟨h.1, h.2.1, h.2.2.1, h.2.2.2.1.1, h.2.2.2.1.2⟩

/-- Claim C10: fmapi_fill_psc_get_all_ports always populates the request
with num = 255 and port ids 0 through 254; port id 255 is never included
even though the 8-bit port field admits FM_MAX_PORTS = 256 ports. -/
theorem fmapi_fill_psc_get_all_ports_range (m : FmapiMsg) :
    fmapi_fill_psc_get_all_ports (some m) =
      some (some { hdr := { zeroHdr with opcode := FMOP_PSC_PORT }
                   obj := .psc_port_req
                     { num := 255, ports := List.range 255 } }, 0) ∧
    (List.range 255).length = 255 ∧
    (∀ p ∈ List.range 255, p < 255) ∧
    255 ∉ List.range 255 ∧
    255 < FM_MAX_PORTS := by
  refine ⟨rfl, by simp, ?_, by simp, by norm_num [FM_MAX_PORTS]⟩
  intro p hp
  exact List.mem_range.mp hp

/-- Witness for C5 (corrected) at a concrete all-9 destination buffer and
default objects. -/
theorem fmapi_serialize_reserved_bytes_witness :
    rd (serHdrAt (fun _ => 9) 0 zeroHdr).1 2 = rd (fun _ => 9) 2 ∧
    rd (serVscBindReqAt (fun _ => 9) 0 default).1 3 = rd (fun _ => 9) 3 ∧
    rd (serPscPortInfoAt (fun _ => 9) 0 default).1 3 = rd (fun _ => 9) 3 ∧
    rd (serPscIdRspAt (fun _ => 9) 0 default).1 1 = 0 ∧
    rd (serPscPortInfoAt (fun _ => 9) 0 default).1 14 = 0 ∧
    rd (serIscBosAt (fun _ => 9) 0 default).1 1 = 0 :=
  fmapi_serialize_reserved_bytes (fun _ => 9) zeroHdr default default default
    default

/-- Witness for C6 (corrected) at a concrete all-2 source buffer. -/
theorem fmapi_deserialize_null_context_witness :
    fmapi_deserialize (some (FmObj.hdr zeroHdr)) (some (fun _ => 2))
        FMOB_VSC_INFO_BLK none =
      some (some (FmObj.hdr zeroHdr), (0 : Int)) ∧
    fmapi_deserialize (some (FmObj.vsc_info_rsp { num := 0, list := [] }))
        (some (fun _ => 2)) FMOB_VSC_INFO_RSP none =
      some (some (FmObj.vsc_info_rsp
        { num := rd (fun _ => 2) 0,
          list := takeEntries ([] : List fmapi_vsc_info_blk)
            (rd (fun _ => 2) 0) }), (4 : Int)) :=
  fmapi_deserialize_null_context (FmObj.hdr zeroHdr) { num := 0, list := [] }
    (fun _ => 2)

/-- Witness for C10 at a concrete message. -/
theorem fmapi_fill_psc_get_all_ports_range_witness :
    fmapi_fill_psc_get_all_ports
        (some { hdr := zeroHdr, obj := FmObj.hdr zeroHdr }) =
      some (some { hdr := { zeroHdr with opcode := FMOP_PSC_PORT }
                   obj := .psc_port_req
                     { num := 255, ports := List.range 255 } }, 0) ∧
    (List.range 255).length = 255 ∧
    (∀ p ∈ List.range 255, p < 255) ∧
    255 ∉ List.range 255 ∧
    255 < FM_MAX_PORTS :=
  fmapi_fill_psc_get_all_ports_range { hdr := zeroHdr, obj := FmObj.hdr zeroHdr }
